import Mathlib

/-!
# DearchiverBase: unpacking of pipeline resource signatures

A shallow embedding of `Graphics/GraphicsEngine/include/DearchiverBase.hpp`:
the named resource cache, the name resolution table, the list of loaded
archives and the routine `DearchiverBase::UnpackResourceSignatureImpl`.

Reference-counted objects are identified by a number; the object heap records
which of them still have a strong reference.  Every call the routine makes to
a collaborator (cache, resolution table, archive, backend factory) is recorded
in an event list, so that statements such as "the factory is not invoked" are
statements about that list.
-/

namespace Diligent

/-! ## Reference-counted objects -/

/-- Identity of a reference-counted object (the address held by a `RefCntAutoPtr`). -/
abbrev ObjId := Nat

/-- Object heap: `live` lists the objects that still have at least one strong
reference, `next` is the identity given to the next object that is constructed. -/
structure ObjectHeap where
  live : List ObjId
  next : ObjId
deriving DecidableEq, Repr

/-- Whether the object still has a strong reference (a weak pointer can be locked). -/
def ObjectHeap.isAlive (h : ObjectHeap) (o : ObjId) : Bool :=
  decide (o ∈ h.live)

/-- Construction of a new object; the caller receives the only strong reference. -/
def ObjectHeap.construct (h : ObjectHeap) : ObjectHeap :=
  { live := h.next :: h.live, next := h.next + 1 }

/-- Release of the last strong reference to `o`: the object is destroyed. -/
def ObjectHeap.release (h : ObjectHeap) (o : ObjId) : ObjectHeap :=
  { h with live := h.live.filter (fun x => x != o) }

/-- Every live object was handed out by `construct` (its identity is below `next`). -/
def ObjectHeap.WellFormed (h : ObjectHeap) : Prop :=
  ∀ o ∈ h.live, o < h.next

/-! ## NamedResourceCache (lines 103-123) -/

/-- The class `NamedResourceCache<ResType>`: `m_Map` maps a resource name to a
weak reference (`RefCntWeakPtr`), `none` being the null weak pointer.  The mutex
`m_Mtx` is not modelled. -/
structure NamedResourceCache where
  m_Map : List (String × Option ObjId)
deriving DecidableEq, Repr

/-- Modelled from the spec: the body of `NamedResourceCache::Get` (declared at
line 114, defined outside this header).  "`Get(name) -> object?` returns a strong
reference if a live object is cached under that name, else miss."  The result
`some o` is the hit (`true` with `*ppResource = o`), `none` is the miss. -/
def NamedResourceCache.Get (c : NamedResourceCache) (heap : ObjectHeap) (Name : String) :
    Option ObjId :=
  match c.m_Map.lookup Name with
  | none => none
  | some none => none
  | some (some o) => if heap.isAlive o then some o else none

/-- Modelled from the spec: the body of `NamedResourceCache::Set` (declared at
line 115, defined outside this header).  "`Set(name, object)` stores a weak
reference, overwriting any prior (possibly stale) entry." -/
def NamedResourceCache.Set (c : NamedResourceCache) (Name : String) (pResource : Option ObjId) :
    NamedResourceCache :=
  { m_Map := (Name, pResource) :: c.m_Map.filter (fun e => e.1 != Name) }

/-- Line 117: `void Clear() { m_Map.clear(); }`. -/
def NamedResourceCache.Clear (_c : NamedResourceCache) : NamedResourceCache :=
  { m_Map := [] }

/-- The struct `ResourceCache` (lines 125-137): one cache per resource category. -/
structure ResourceCache where
  Sign : NamedResourceCache
  RenderPass : NamedResourceCache
  GraphPSO : NamedResourceCache
  CompPSO : NamedResourceCache
  TilePSO : NamedResourceCache
  RayTrPSO : NamedResourceCache
deriving DecidableEq, Repr

/-! ## Resolution table and archives (lines 195-226) -/

/-- The type `NameToArchiveIdxMapType`: resource name to archive index. -/
abbrev NameToArchiveIdxMapType := List (String × Nat)

/-- The struct `ResNameToArchiveIdxMap` (lines 198-209). -/
structure ResNameToArchiveIdxMap where
  Sign : NameToArchiveIdxMapType
  RenderPass : NameToArchiveIdxMapType
  GraphPSO : NameToArchiveIdxMapType
  CompPSO : NameToArchiveIdxMapType
  TilePSO : NameToArchiveIdxMapType
  RayTrPSO : NameToArchiveIdxMapType
deriving DecidableEq, Repr

/-- The enumeration `DeviceObjectArchive::DeviceType`, declared outside this
header: taken as a number. -/
abbrev DeviceType := Nat

/-- Serialized bytes (`SerializedData`, and what is left to read of a
`Serializer<SerializerMode::Read>`). -/
abbrev SerializedData := List Nat

/-- The archive header of a resource signature (`PRSDataHeader`), declared
outside this header: taken as its raw bytes. -/
abbrev PRSDataHeader := List Nat

/-- The struct `PipelineResourceSignatureDesc`, declared outside this header.
The routine reads and writes `Name` and `SRBAllocationGranularity`; the other
members are kept in serialized form in `Body`. -/
structure PipelineResourceSignatureDesc where
  Name : String
  SRBAllocationGranularity : Nat
  Body : List Nat
deriving DecidableEq, Repr

/-- The struct `PRSData` (lines 139-152) without its allocator. -/
structure PRSData where
  pHeader : PRSDataHeader
  Desc : PipelineResourceSignatureDesc
deriving DecidableEq, Repr

/-- The keys of the six name maps of an archive (`GetResourceMap()`), in the
order in which the archive lists them. -/
structure ArchiveResourceNames where
  Sign : List String := []
  RenderPass : List String := []
  GraphPSO : List String := []
  CompPSO : List String := []
  TilePSO : List String := []
  RayTrPSO : List String := []
deriving DecidableEq, Repr

/-- Line 261: `PRS.Desc.SRBAllocationGranularity = DeArchiveInfo.SRBAllocationGranularity`. -/
def PRSData.SetSRBAllocationGranularity (PRS : PRSData) (Granularity : Nat) : PRSData :=
  { PRS with Desc := { PRS.Desc with SRBAllocationGranularity := Granularity } }

/-- The class `DeviceObjectArchive`, declared outside this header, as the two
operations the routine calls on it.  `LoadResourceData Name` stands for
`LoadResourceData(GetResourceMap().Sign, Name, PRS)`: `none` is the result
`false`, `some PRS` the filled data holder.  `GetDeviceSpecificData` yields
`none` when the returned data is empty (`!Data`). -/
structure DeviceObjectArchive where
  LoadResourceData : String → Option PRSData
  GetDeviceSpecificData : DeviceType → PRSDataHeader → Option SerializedData
  /-- Names of the resources of the archive, per category (`GetResourceMap()`). -/
  ResourceMap : ArchiveResourceNames := {}

/-- The struct `ArchiveData` (lines 211-225).  `pArchive` is a `unique_ptr` and
may be null; `CachedShaders` holds, per device type, the shaders by position. -/
structure ArchiveData where
  pArchive : Option DeviceObjectArchive
  CachedShaders : List (List (Option ObjId))

/-- The state of a `DearchiverBase` object: its three data members. -/
structure DearchiverBase where
  m_Cache : ResourceCache
  m_ResNameToArchiveIdx : ResNameToArchiveIdxMap
  m_Archives : List ArchiveData

/-! ## Collaborators of the unpack routine -/

/-- The render device `DeArchiveInfo.pDevice` (template parameter
`RenderDeviceImplType`), with internal data of type `I`.  `ArchiveDeviceType`
is the value of `GetArchiveDeviceType(pDevice)`;
`CreatePipelineResourceSignature Desc InternalData` tells whether the backend
factory produces an object (`true`) or leaves the pointer null. -/
structure RenderDevice (I : Type) where
  ArchiveDeviceType : DeviceType
  CreatePipelineResourceSignature : PipelineResourceSignatureDesc → I → Bool

/-- The struct `ResourceSignatureUnpackInfo`, by the members the routine reads. -/
structure ResourceSignatureUnpackInfo (I : Type) where
  pDevice : RenderDevice I
  Name : String
  SRBAllocationGranularity : Nat

/-- Decoding operations defined outside this header (template parameter
`PRSSerializerType`, `Serializer<SerializerMode::Read>` and the decoding of the
description fields that `PRSData::Deserialize` performs), each returning the
unread rest of the stream.  `EmptyDesc` is the value-initialised description
`{}`. -/
structure PRSSerializerType (I : Type) where
  ReadBool : SerializedData → Bool × SerializedData
  Deserialize : String → PRSData → SerializedData → PRSData × SerializedData
  SerializeInternalData : SerializedData → I × SerializedData
  EmptyDesc : PipelineResourceSignatureDesc

/-- Calls made by the unpack routine, in the order they are made. -/
inductive Event (I : Type) where
  /-- The call `m_Cache.Sign.Get(Name, ..)` of line 241. -/
  | cacheGet (Name : String)
  /-- The call `m_ResNameToArchiveIdx.Sign.find(Name)` of line 246. -/
  | resolve (Name : String)
  /-- The access `m_Archives[idx]` of line 250. -/
  | archiveAt (idx : Nat)
  /-- The failed debug check `UNEXPECTED(..)` of line 253. -/
  | unexpectedNullArchive
  /-- The call `pArchive->LoadResourceData(..)` of line 258. -/
  | loadResourceData (idx : Nat) (Name : String)
  /-- The call `pArchive->GetDeviceSpecificData(..)` of line 264. -/
  | getDeviceSpecificData (idx : Nat) (DevType : DeviceType)
  /-- The failed debug check `VERIFY_EXPR(Ser.IsEnded())` of line 282. -/
  | verifyIsEndedFailed
  /-- The call `pRenderDevice->CreatePipelineResourceSignature(..)` of line 285. -/
  | createSignature (Desc : PipelineResourceSignatureDesc) (InternalData : I)
      (pSignature : Option ObjId)
  /-- The call `m_Cache.Sign.Set(Name, ..)` of line 288. -/
  | cacheSet (Name : String) (pResource : Option ObjId)
deriving DecidableEq, Repr

/-- Whether the event is a call of the backend factory. -/
def Event.isCreate {I : Type} : Event I → Bool
  | .createSignature _ _ _ => true
  | _ => false

/-- Whether the event is a read of the signature cache. -/
def Event.isCacheGet {I : Type} : Event I → Bool
  | .cacheGet _ => true
  | _ => false

/-- Whether the event is a write of the signature cache. -/
def Event.isCacheSet {I : Type} : Event I → Bool
  | .cacheSet _ _ => true
  | _ => false

/-- Whether the event reads the resolution table. -/
def Event.isResolve {I : Type} : Event I → Bool
  | .resolve _ => true
  | _ => false

/-- Whether the event touches the archive list or an archive. -/
def Event.isArchiveAccess {I : Type} : Event I → Bool
  | .archiveAt _ => true
  | .loadResourceData _ _ => true
  | .getDeviceSpecificData _ _ => true
  | _ => false

/-- How a call of the routine ends: it returns a (possibly null) signature
pointer, or it indexes `m_Archives` outside its bounds (undefined behaviour in
the source). -/
inductive Outcome where
  | returned (pSignature : Option ObjId)
  | archiveIndexOutOfRange
deriving DecidableEq, Repr

/-- What a call of the routine leaves behind. -/
structure UnpackResult (I : Type) where
  outcome : Outcome
  self : DearchiverBase
  heap : ObjectHeap
  events : List (Event I)

/-- Modelled from the spec: the body of `PRSData::Deserialize` (declared at line
151 as `bool Deserialize(const char* Name, Serializer<SerializerMode::Read>& Ser)`,
body not in this header).  By section 4.5 step 3 the variant is decoded in place
of the default description of the resource: the holder keeps the resource name
it is given, and the other fields of its description are those the serializer
decodes from the stream. -/
def PRSData.Deserialize {I : Type} (S : PRSSerializerType I) (self : PRSData) (Name : String)
    (Ser : SerializedData) : PRSData × SerializedData :=
  let Decoded := S.Deserialize Name self Ser
  ({ Decoded.1 with Desc := { Decoded.1.Desc with Name := Name } }, Decoded.2)

/-- Lines 268-281: decoding of the device-specific data.  Reads the
special-description flag, then (flag set) replaces the description by the
variant decoded from the stream, then decodes the internal data.  Returns the
data holder, the internal data and the unread rest of the stream. -/
def DecodeDeviceSpecificData {I : Type} (S : PRSSerializerType I) (PRS : PRSData)
    (Data : SerializedData) : PRSData × I × SerializedData :=
  let SpecialDesc := (S.ReadBool Data).1
  let Ser := (S.ReadBool Data).2
  let PRSSer : PRSData × SerializedData :=
    if SpecialDesc then
      -- const auto* Name = PRS.Desc.Name; PRS.Desc = {}; PRS.Deserialize(Name, Ser);
      PRSData.Deserialize S { PRS with Desc := S.EmptyDesc } PRS.Desc.Name Ser
    else
      (PRS, Ser)
  let Internal := S.SerializeInternalData PRSSer.2
  (PRSSer.1, Internal.1, Internal.2)

/-- Lines 284-290: the factory call and the publication of its result.  A failed
`VERIFY_EXPR(Ser.IsEnded())` is a debug check: it is recorded and execution
continues with the statement that follows it. -/
def CreateAndPublish {I : Type} (self : DearchiverBase) (heap : ObjectHeap)
    (DeArchiveInfo : ResourceSignatureUnpackInfo I) (IsImplicit : Bool)
    (decoded : PRSData × I × SerializedData) (ev : List (Event I)) : UnpackResult I :=
  let evVerify : List (Event I) :=
    if decoded.2.2.isEmpty then [] else [Event.verifyIsEndedFailed]
  let created := DeArchiveInfo.pDevice.CreatePipelineResourceSignature decoded.1.Desc decoded.2.1
  let pSignature : Option ObjId := if created then some heap.next else none
  let heap1 : ObjectHeap := if created then heap.construct else heap
  let evCreate : List (Event I) :=
    [Event.createSignature decoded.1.Desc decoded.2.1 pSignature]
  if IsImplicit then
    { outcome := Outcome.returned pSignature, self := self, heap := heap1,
      events := ev ++ evVerify ++ evCreate }
  else
    { outcome := Outcome.returned pSignature,
      self := { self with
        m_Cache := { self.m_Cache with
          Sign := self.m_Cache.Sign.Set DeArchiveInfo.Name pSignature } },
      heap := heap1,
      events := ev ++ evVerify ++ evCreate ++ [Event.cacheSet DeArchiveInfo.Name pSignature] }

/-- Lines 245-290: the path taken when the cache is not used or misses. -/
def UnpackFromArchive {I : Type} (S : PRSSerializerType I) (self : DearchiverBase)
    (heap : ObjectHeap) (DeArchiveInfo : ResourceSignatureUnpackInfo I) (IsImplicit : Bool)
    (ev : List (Event I)) : UnpackResult I :=
  let evFind := ev ++ [Event.resolve DeArchiveInfo.Name]
  match self.m_ResNameToArchiveIdx.Sign.lookup DeArchiveInfo.Name with
  | none => { outcome := Outcome.returned none, self := self, heap := heap, events := evFind }
  | some idx =>
    let evAt := evFind ++ [Event.archiveAt idx]
    match self.m_Archives[idx]? with
    | none =>
      { outcome := Outcome.archiveIndexOutOfRange, self := self, heap := heap, events := evAt }
    | some Archive =>
      match Archive.pArchive with
      | none =>
        { outcome := Outcome.returned none, self := self, heap := heap,
          events := evAt ++ [Event.unexpectedNullArchive] }
      | some pArchive =>
        let evLoad := evAt ++ [Event.loadResourceData idx DeArchiveInfo.Name]
        match pArchive.LoadResourceData DeArchiveInfo.Name with
        | none =>
          { outcome := Outcome.returned none, self := self, heap := heap, events := evLoad }
        | some PRS0 =>
          let PRS : PRSData :=
            PRS0.SetSRBAllocationGranularity DeArchiveInfo.SRBAllocationGranularity
          let DevType := DeArchiveInfo.pDevice.ArchiveDeviceType
          let evData := evLoad ++ [Event.getDeviceSpecificData idx DevType]
          match pArchive.GetDeviceSpecificData DevType PRS.pHeader with
          | none =>
            { outcome := Outcome.returned none, self := self, heap := heap, events := evData }
          | some Data =>
            CreateAndPublish self heap DeArchiveInfo IsImplicit
              (DecodeDeviceSpecificData S PRS Data) evData

/-- The routine `DearchiverBase::UnpackResourceSignatureImpl` (lines 230-291). -/
def UnpackResourceSignatureImpl {I : Type} (S : PRSSerializerType I) (self : DearchiverBase)
    (heap : ObjectHeap) (DeArchiveInfo : ResourceSignatureUnpackInfo I) (IsImplicit : Bool) :
    UnpackResult I :=
  if IsImplicit then
    UnpackFromArchive S self heap DeArchiveInfo IsImplicit []
  else
    match self.m_Cache.Sign.Get heap DeArchiveInfo.Name with
    | some pSignature =>
      { outcome := Outcome.returned (some pSignature), self := self, heap := heap,
        events := [Event.cacheGet DeArchiveInfo.Name] }
    | none =>
      UnpackFromArchive S self heap DeArchiveInfo IsImplicit [Event.cacheGet DeArchiveInfo.Name]

/-! ## A small concrete dearchiver used to evaluate the routine -/

/-- A decoder: a bool is one byte, a description variant is one byte of body,
internal data is one byte. -/
def demoSerializer : PRSSerializerType Nat where
  ReadBool := fun s =>
    match s with
    | [] => (false, [])
    | b :: r => (b != 0, r)
  Deserialize := fun Name PRS s =>
    match s with
    | [] => ({ PRS with Desc := { PRS.Desc with Name := Name } }, [])
    | b :: r => ({ PRS with Desc := { PRS.Desc with Name := Name, Body := [b] } }, r)
  SerializeInternalData := fun s =>
    match s with
    | [] => (0, [])
    | b :: r => (b, r)
  EmptyDesc := { Name := "", SRBAllocationGranularity := 1, Body := [] }

/-- A device of archive device type 2 whose factory rejects internal data 0. -/
def demoDevice : RenderDevice Nat where
  ArchiveDeviceType := 2
  CreatePipelineResourceSignature := fun _ InternalData => InternalData != 0

/-- An archive with four signatures: "S" (well formed), "R" (one residual byte
after the internal data), "F" (rejected by the factory of `demoDevice`) and
"M" (no data for any device type).  Data exists for device type 2 only. -/
def demoArchive : DeviceObjectArchive where
  LoadResourceData := fun Name =>
    if Name = "S" then some { pHeader := [1], Desc := { Name := "S", SRBAllocationGranularity := 1, Body := [5] } }
    else if Name = "R" then some { pHeader := [2], Desc := { Name := "R", SRBAllocationGranularity := 1, Body := [6] } }
    else if Name = "F" then some { pHeader := [3], Desc := { Name := "F", SRBAllocationGranularity := 1, Body := [7] } }
    else if Name = "M" then some { pHeader := [4], Desc := { Name := "M", SRBAllocationGranularity := 1, Body := [8] } }
    else none
  GetDeviceSpecificData := fun DevType Header =>
    if DevType = 2 then
      if Header = [1] then some [0, 7]
      else if Header = [2] then some [0, 7, 9]
      else if Header = [3] then some [0, 0]
      else none
    else none

/-- A cache without entries. -/
def emptyCache : NamedResourceCache := { m_Map := [] }

/-- A dearchiver with `demoArchive` loaded at index 0 and empty caches.  The
name "X" is a render pass and a graphics pipeline, not a signature. -/
def demoDearchiver : DearchiverBase where
  m_Cache :=
    { Sign := emptyCache, RenderPass := emptyCache, GraphPSO := emptyCache,
      CompPSO := emptyCache, TilePSO := emptyCache, RayTrPSO := emptyCache }
  m_ResNameToArchiveIdx :=
    { Sign := [("S", 0), ("R", 0), ("F", 0), ("M", 0)], RenderPass := [("X", 0)],
      GraphPSO := [("X", 0)], CompPSO := [], TilePSO := [], RayTrPSO := [] }
  m_Archives := [{ pArchive := some demoArchive, CachedShaders := [] }]

/-- The demo dearchiver with object 0 cached under the signature name "S". -/
def demoCachedDearchiver : DearchiverBase :=
  { demoDearchiver with
    m_Cache := { demoDearchiver.m_Cache with Sign := { m_Map := [("S", some 0)] } } }

/-- A heap in which object 0 is live. -/
def demoCachedHeap : ObjectHeap := { live := [0], next := 1 }

/-- The heap before any object is constructed. -/
def emptyHeap : ObjectHeap := { live := [], next := 0 }

/-- An unpack request for `Name` on `demoDevice`. -/
def demoInfo (Name : String) : ResourceSignatureUnpackInfo Nat :=
  { pDevice := demoDevice, Name := Name, SRBAllocationGranularity := 4 }

/-- An archive with one signature, "V", whose data for device type 2 is
`[1, 42, 7]`: the special-description flag is set, `42` is the body of the
description variant and `7` the internal data. -/
def demoSpecialArchive : DeviceObjectArchive where
  LoadResourceData := fun Name =>
    if Name = "V" then
      some { pHeader := [5], Desc := { Name := "V", SRBAllocationGranularity := 1, Body := [9] } }
    else none
  GetDeviceSpecificData := fun DevType Header =>
    if DevType = 2 then
      if Header = [5] then some [1, 42, 7] else none
    else none

/-- A dearchiver with `demoSpecialArchive` loaded at index 0 and empty caches. -/
def demoSpecialDearchiver : DearchiverBase where
  m_Cache :=
    { Sign := emptyCache, RenderPass := emptyCache, GraphPSO := emptyCache,
      CompPSO := emptyCache, TilePSO := emptyCache, RayTrPSO := emptyCache }
  m_ResNameToArchiveIdx :=
    { Sign := [("V", 0)], RenderPass := [], GraphPSO := [], CompPSO := [], TilePSO := [],
      RayTrPSO := [] }
  m_Archives := [{ pArchive := some demoSpecialArchive, CachedShaders := [] }]

/-- A heap in which object 0 was constructed and has been destroyed. -/
def demoStaleHeap : ObjectHeap := { live := [], next := 1 }

/-! ## AttachmentCleanerWebGPU.cpp: equality of depth-stencil states (lines 78-102) -/

/-- The struct `WGPUStencilFaceState`, by the members `operator==` reads. -/
structure WGPUStencilFaceState where
  compare : Nat
  depthFailOp : Nat
  failOp : Nat
  passOp : Nat
deriving DecidableEq, Repr

/-- The struct `WGPUDepthStencilState`, by the members `operator==` reads.  The
float members `depthBiasSlopeScale` and `depthBiasClamp` are taken as exact
values. -/
structure WGPUDepthStencilState where
  format : Nat
  depthWriteEnabled : Bool
  depthCompare : Nat
  stencilFront : WGPUStencilFaceState
  stencilBack : WGPUStencilFaceState
  stencilReadMask : Nat
  stencilWriteMask : Nat
  depthBias : Int
  depthBiasSlopeScale : Int
  depthBiasClamp : Int
deriving DecidableEq, Repr

/-- Lines 78-86: `operator==(const WGPUStencilFaceState&, const WGPUStencilFaceState&)`. -/
def WGPUStencilFaceState.operator_eq (LHS RHS : WGPUStencilFaceState) : Bool :=
  LHS.compare == RHS.compare &&
  LHS.depthFailOp == RHS.depthFailOp &&
  LHS.failOp == RHS.failOp &&
  LHS.passOp == RHS.passOp

/-- Lines 88-102: `operator==(const WGPUDepthStencilState&, const WGPUDepthStencilState&)`.
Line 95 compares `LHS.stencilBack` with `RHS.stencilFront`. -/
def WGPUDepthStencilState.operator_eq (LHS RHS : WGPUDepthStencilState) : Bool :=
  LHS.format == RHS.format &&
  LHS.depthWriteEnabled == RHS.depthWriteEnabled &&
  LHS.depthCompare == RHS.depthCompare &&
  LHS.stencilFront.operator_eq RHS.stencilFront &&
  LHS.stencilBack.operator_eq RHS.stencilFront &&
  LHS.stencilReadMask == RHS.stencilReadMask &&
  LHS.stencilWriteMask == RHS.stencilWriteMask &&
  LHS.depthBias == RHS.depthBias &&
  LHS.depthBiasSlopeScale == RHS.depthBiasSlopeScale &&
  LHS.depthBiasClamp == RHS.depthBiasClamp

/-- A stencil face state with the given compare function and all operations 0. -/
def demoFace (compare : Nat) : WGPUStencilFaceState :=
  { compare := compare, depthFailOp := 0, failOp := 0, passOp := 0 }

/-- A depth-stencil state with the given compare functions of the front and
back faces and every other member 0. -/
def demoDepthState (front back : Nat) : WGPUDepthStencilState :=
  { format := 0, depthWriteEnabled := false, depthCompare := 0,
    stencilFront := demoFace front, stencilBack := demoFace back,
    stencilReadMask := 0, stencilWriteMask := 0, depthBias := 0,
    depthBiasSlopeScale := 0, depthBiasClamp := 0 }

/-! ## EngineFactoryWebGPU.cpp: adapters (lines 88-136, 338-407) -/

/-- A `WGPUAdapter` handle. -/
abbrev WGPUAdapter := Nat

/-- What `wgpuInstanceRequestAdapter` reports through the callback of lines
99-105: whether `RequestStatus` is `WGPURequestAdapterStatus_Success`, and the
adapter. -/
structure AdapterRequest where
  Success : Bool
  Adapter : WGPUAdapter
deriving DecidableEq, Repr

/-- Lines 88-136: `FindCompatibleAdapters`.  One request is made per power
preference (high performance, then low power), `Requests` lists what they
report in that order; an adapter is appended when its request succeeded and it
is not in the list yet. -/
def FindCompatibleAdapters (Requests : List AdapterRequest) : List WGPUAdapter :=
  Requests.foldl
    (fun wgpuAdapters UserData =>
      if UserData.Success then
        if wgpuAdapters.any (fun wgpuAdapter => wgpuAdapter == UserData.Adapter) then wgpuAdapters
        else wgpuAdapters ++ [UserData.Adapter]
      else wgpuAdapters)
    []

/-- The two requests of the loop of lines 107-133. -/
def PowerPreferenceRequests (HighPerformance LowPower : AdapterRequest) : List AdapterRequest :=
  [HighPerformance, LowPower]

/-- Lines 354-358: the first `Count` iterations of the loop that writes
`Adapters[AdapterId] = GetGraphicsAdapterInfo(wgpuAdapters[AdapterId])`.  The
result is `none` when `wgpuAdapters[AdapterId]` is out of range. -/
def WriteAdapterInfos {α : Type} (GetGraphicsAdapterInfo : WGPUAdapter → α)
    (wgpuAdapters : List WGPUAdapter) : Nat → (Nat → α) → Option (Nat → α)
  | 0, Adapters => some Adapters
  | AdapterId + 1, Adapters =>
    match WriteAdapterInfos GetGraphicsAdapterInfo wgpuAdapters AdapterId Adapters with
    | none => none
    | some Written =>
      match wgpuAdapters[AdapterId]? with
      | none => none
      | some wgpuAdapter =>
        some (Function.update Written AdapterId (GetGraphicsAdapterInfo wgpuAdapter))

/-- How `EnumerateAdapters` ends. -/
inductive EnumerateOutcome (α : Type) where
  /-- The exception of line 346 (no WebGPU instance). -/
  | threw
  /-- An access `wgpuAdapters[AdapterId]` out of range. -/
  | adapterIndexOutOfRange
  /-- Normal return with the new `NumAdapters` and the array `Adapters` (absent
  when the pointer is null). -/
  | returned (NumAdapters : Nat) (Adapters : Option (Nat → α))

/-- Lines 338-360: `EngineFactoryWebGPUImpl::EnumerateAdapters`.  `wgpuInstance`
is the result of `wgpuCreateInstance` (`none` is null), `NumAdapters` the value
on entry, `Adapters` the caller's array (`none` is the null pointer).  Sizes are
converted to `Uint32`. -/
def EnumerateAdapters {α : Type} (GetGraphicsAdapterInfo : WGPUAdapter → α)
    (wgpuInstance : Option Nat) (HighPerformance LowPower : AdapterRequest)
    (NumAdapters : Nat) (Adapters : Option (Nat → α)) : EnumerateOutcome α :=
  match wgpuInstance with
  | none => EnumerateOutcome.threw
  | some _ =>
    let wgpuAdapters := FindCompatibleAdapters (PowerPreferenceRequests HighPerformance LowPower)
    match Adapters with
    | none => EnumerateOutcome.returned (wgpuAdapters.length % 4294967296) none
    | some Array =>
      let NumAdapters1 := min NumAdapters (wgpuAdapters.length % 4294967296)
      match WriteAdapterInfos GetGraphicsAdapterInfo wgpuAdapters NumAdapters1 Array with
      | none => EnumerateOutcome.adapterIndexOutOfRange
      | some Written => EnumerateOutcome.returned NumAdapters1 (some Written)

/-- How `CreateDeviceAndContextsWebGPU` ends. -/
inductive CreateDeviceOutcome where
  /-- Return of line 374: an output pointer is null, nothing is written. -/
  | nullPointerProvided
  /-- An exception was thrown in the `try` block and caught at line 404;
  `*ppDevice` and `*ppImmediateContext` keep the null of lines 376-377. -/
  | errorCaught
  /-- The access `Adapters[i]` with `i` not below `Adapters.size()`. -/
  | adapterIndexOutOfRange (i size : Nat)
  /-- The adapter `Adapters[i]` was selected, a device was created for it and
  `AttachToWebGPUDevice` left these values in the output pointers. -/
  | attached (i : Nat) (wgpuAdapter : WGPUAdapter) (ppDevice ppImmediateContext : Option Nat)
deriving DecidableEq, Repr

/-- Lines 368-407: `EngineFactoryWebGPUImpl::CreateDeviceAndContextsWebGPU`.
`DEFAULT_ADAPTER_ID` is the constant of that name, declared outside this file;
`ppDevice` and `ppImmediateContext` tell whether the output pointers are
non-null; `CreateDeviceForAdapter` yields `none` when it throws;
`AttachToWebGPUDevice` yields what it leaves in the two output pointers. -/
def CreateDeviceAndContextsWebGPU (DEFAULT_ADAPTER_ID : Nat)
    (CreateDeviceForAdapter : WGPUAdapter → Option Nat)
    (AttachToWebGPUDevice : WGPUAdapter → Nat → Option Nat × Option Nat)
    (wgpuInstance : Option Nat) (HighPerformance LowPower : AdapterRequest)
    (AdapterId : Nat) (ppDevice ppImmediateContext : Bool) : CreateDeviceOutcome :=
  if !ppDevice || !ppImmediateContext then
    CreateDeviceOutcome.nullPointerProvided
  else
    match wgpuInstance with
    | none => CreateDeviceOutcome.errorCaught
    | some _ =>
      let Adapters := FindCompatibleAdapters (PowerPreferenceRequests HighPerformance LowPower)
      let Selected : Except CreateDeviceOutcome (Nat × WGPUAdapter) :=
        if AdapterId != DEFAULT_ADAPTER_ID then
          if AdapterId < Adapters.length then
            match Adapters[AdapterId]? with
            | some SpecificAdapter => Except.ok (AdapterId, SpecificAdapter)
            | none =>
              Except.error (CreateDeviceOutcome.adapterIndexOutOfRange AdapterId Adapters.length)
          else
            Except.error CreateDeviceOutcome.errorCaught
        else
          match Adapters[0]? with
          | some SpecificAdapter => Except.ok (0, SpecificAdapter)
          | none => Except.error (CreateDeviceOutcome.adapterIndexOutOfRange 0 Adapters.length)
      match Selected with
      | Except.error Failure => Failure
      | Except.ok (i, SpecificAdapter) =>
        match CreateDeviceForAdapter SpecificAdapter with
        | none => CreateDeviceOutcome.errorCaught
        | some Device =>
          CreateDeviceOutcome.attached i SpecificAdapter
            (AttachToWebGPUDevice SpecificAdapter Device).1
            (AttachToWebGPUDevice SpecificAdapter Device).2

/-! ## LoadArchive and Reset (declared at lines 62-63 and 77-78) -/

/-- Modelled from the spec: the part of `LoadArchive` that extends one map of the
resolution table (section 4.4).  "For each name in that archive not already
present in the Resolution Table for that category, insert name -> this archive's
index; names already resolved to an earlier archive are left untouched." -/
def AddArchiveNames (Map : NameToArchiveIdxMapType) (Names : List String) (ArchiveIdx : Nat) :
    NameToArchiveIdxMapType :=
  Names.foldl
    (fun m Name =>
      match m.lookup Name with
      | some _ => m
      | none => m ++ [(Name, ArchiveIdx)])
    Map

/-- Modelled from the spec: the body of `DearchiverBase::LoadArchive` (declared at
line 63, defined outside this header), section 4.4.  `pArchive` is the archive
built from the bytes, `none` when they do not parse; the call then fails and
leaves the state unchanged.  Otherwise the six maps are extended with the
archive's names and the archive is appended with an empty shader cache; its
index is its position in the list. -/
def DearchiverBase.LoadArchive (self : DearchiverBase) (pArchive : Option DeviceObjectArchive) :
    Bool × DearchiverBase :=
  match pArchive with
  | none => (false, self)
  | some Archive =>
    let ArchiveIdx := self.m_Archives.length
    (true,
      { m_Cache := self.m_Cache,
        m_ResNameToArchiveIdx :=
          { Sign := AddArchiveNames self.m_ResNameToArchiveIdx.Sign
              Archive.ResourceMap.Sign ArchiveIdx,
            RenderPass := AddArchiveNames self.m_ResNameToArchiveIdx.RenderPass
              Archive.ResourceMap.RenderPass ArchiveIdx,
            GraphPSO := AddArchiveNames self.m_ResNameToArchiveIdx.GraphPSO
              Archive.ResourceMap.GraphPSO ArchiveIdx,
            CompPSO := AddArchiveNames self.m_ResNameToArchiveIdx.CompPSO
              Archive.ResourceMap.CompPSO ArchiveIdx,
            TilePSO := AddArchiveNames self.m_ResNameToArchiveIdx.TilePSO
              Archive.ResourceMap.TilePSO ArchiveIdx,
            RayTrPSO := AddArchiveNames self.m_ResNameToArchiveIdx.RayTrPSO
              Archive.ResourceMap.RayTrPSO ArchiveIdx },
        m_Archives := self.m_Archives ++ [{ pArchive := some Archive, CachedShaders := [] }] })

/-- Modelled from the spec: the body of `DearchiverBase::Reset` (declared at line
78, defined outside this header), section 4.6.  "Clears every Named Resource
Cache, then drops ownership of every loaded Archive (and with it every
per-archive Shader Cache) and clears the Resolution Table." -/
def DearchiverBase.Reset (self : DearchiverBase) : DearchiverBase :=
  { m_Cache :=
      { Sign := self.m_Cache.Sign.Clear, RenderPass := self.m_Cache.RenderPass.Clear,
        GraphPSO := self.m_Cache.GraphPSO.Clear, CompPSO := self.m_Cache.CompPSO.Clear,
        TilePSO := self.m_Cache.TilePSO.Clear, RayTrPSO := self.m_Cache.RayTrPSO.Clear },
    m_ResNameToArchiveIdx :=
      { Sign := [], RenderPass := [], GraphPSO := [], CompPSO := [], TilePSO := [],
        RayTrPSO := [] },
    m_Archives := [] }

/-- A dearchiver as constructed: no archive, empty maps and caches. -/
def emptyDearchiver : DearchiverBase where
  m_Cache :=
    { Sign := emptyCache, RenderPass := emptyCache, GraphPSO := emptyCache,
      CompPSO := emptyCache, TilePSO := emptyCache, RayTrPSO := emptyCache }
  m_ResNameToArchiveIdx :=
    { Sign := [], RenderPass := [], GraphPSO := [], CompPSO := [], TilePSO := [],
      RayTrPSO := [] }
  m_Archives := []

/-- An archive that defines the signature "S" with body 5. -/
def demoArchiveFirst : DeviceObjectArchive where
  LoadResourceData := fun Name =>
    if Name = "S" then
      some { pHeader := [1], Desc := { Name := "S", SRBAllocationGranularity := 1, Body := [5] } }
    else none
  GetDeviceSpecificData := fun DevType Header =>
    if DevType = 2 then (if Header = [1] then some [0, 7] else none) else none
  ResourceMap := { Sign := ["S"] }

/-- An archive that defines the signatures "S", with body 50, and "T". -/
def demoArchiveSecond : DeviceObjectArchive where
  LoadResourceData := fun Name =>
    if Name = "S" then
      some { pHeader := [1], Desc := { Name := "S", SRBAllocationGranularity := 1, Body := [50] } }
    else if Name = "T" then
      some { pHeader := [2], Desc := { Name := "T", SRBAllocationGranularity := 1, Body := [60] } }
    else none
  GetDeviceSpecificData := fun DevType Header =>
    if DevType = 2 then
      if Header = [1] then some [0, 70] else if Header = [2] then some [0, 80] else none
    else none
  ResourceMap := { Sign := ["S", "T"] }

/-! ## Pipeline unpacking (declared at lines 135-136, 180-193 and 207-208) -/

/-- The four pipeline kinds, one per pipeline cache and pipeline name map. -/
inductive PipelineKind where
  | Graphics
  | Compute
  | Tile
  | RayTracing
deriving DecidableEq, Repr

/-- The member `ResourceCache::GetPsoCache` (declared at line 136): the cache of
the pipeline kind. -/
def ResourceCache.GetPsoCache (c : ResourceCache) : PipelineKind → NamedResourceCache
  | PipelineKind.Graphics => c.GraphPSO
  | PipelineKind.Compute => c.CompPSO
  | PipelineKind.Tile => c.TilePSO
  | PipelineKind.RayTracing => c.RayTrPSO

/-- Assignment through the reference returned by `GetPsoCache`. -/
def ResourceCache.SetPsoCache (c : ResourceCache) (Kind : PipelineKind)
    (Cache : NamedResourceCache) : ResourceCache :=
  match Kind with
  | PipelineKind.Graphics => { c with GraphPSO := Cache }
  | PipelineKind.Compute => { c with CompPSO := Cache }
  | PipelineKind.Tile => { c with TilePSO := Cache }
  | PipelineKind.RayTracing => { c with RayTrPSO := Cache }

/-- The member `ResNameToArchiveIdxMap::GetPsoMap` (declared at line 208): the
name map of the pipeline kind. -/
def ResNameToArchiveIdxMap.GetPsoMap (m : ResNameToArchiveIdxMap) :
    PipelineKind → NameToArchiveIdxMapType
  | PipelineKind.Graphics => m.GraphPSO
  | PipelineKind.Compute => m.CompPSO
  | PipelineKind.Tile => m.TilePSO
  | PipelineKind.RayTracing => m.RayTrPSO

/-- Assignment to element `n` of a vector that is grown with `pad` when it is
shorter than `n + 1`. -/
def SetPadded {α : Type} (pad : α) : List α → Nat → α → List α
  | [], 0, x => [x]
  | [], n + 1, x => pad :: SetPadded pad [] n x
  | _ :: t, 0, x => x :: t
  | h :: t, n + 1, x => h :: SetPadded pad t n x

/-- The shader at a position of `ShaderCacheData::Shaders` (line 166), `none`
when the position holds no shader yet. -/
def ShaderCacheLookup (Shaders : List (Option ObjId)) (Position : Nat) : Option ObjId :=
  match Shaders[Position]? with
  | some (some pShader) => some pShader
  | _ => none

/-- The shader cache of a device type in a `PerDeviceCachedShadersArray` (line
178); an array that was never written holds empty caches. -/
def PerDeviceShaders (PerDeviceCachedShaders : List (List (Option ObjId)))
    (DevType : DeviceType) : List (Option ObjId) :=
  PerDeviceCachedShaders.getD DevType []

/-- What `UnpackPSOShaders` leaves behind: the result `ok`, the shaders of the
pipeline in stage order, the per-device shader caches, the heap, and the
positions for which the shader factory was called, in call order. -/
structure ShaderUnpackResult where
  ok : Bool
  Shaders : List ObjId
  PerDeviceCachedShaders : List (List (Option ObjId))
  heap : ObjectHeap
  FactoryCalls : List Nat
deriving DecidableEq, Repr

/-- Modelled from the spec: the body of `DearchiverBase::UnpackPSOShaders`
(declared at lines 186-190, defined outside this header), section 4.5.  "The
pipeline header stores, per shader stage, a position into that archive+backend's
shader section.  The orchestrator consults that archive's Shader Cache for the
requested backend: on hit, reuse; on miss, decode the shader payload at that
position via the external factory and insert it positionally into the Shader
Cache before returning it."  `ReconstructShader Position` tells whether decoding
and factory produce a shader for the position; a failure ends the step with
`false`. -/
def UnpackPSOShaders (ReconstructShader : Nat → Bool) (DevType : DeviceType) :
    List Nat → List (List (Option ObjId)) → ObjectHeap → ShaderUnpackResult
  | [], PerDeviceCachedShaders, heap =>
    { ok := true, Shaders := [], PerDeviceCachedShaders := PerDeviceCachedShaders, heap := heap,
      FactoryCalls := [] }
  | Position :: Stages, PerDeviceCachedShaders, heap =>
    match ShaderCacheLookup (PerDeviceShaders PerDeviceCachedShaders DevType) Position with
    | some pShader =>
      let Rest := UnpackPSOShaders ReconstructShader DevType Stages PerDeviceCachedShaders heap
      { Rest with Shaders := pShader :: Rest.Shaders }
    | none =>
      if ReconstructShader Position then
        let Cached := SetPadded [] PerDeviceCachedShaders DevType
          (SetPadded none (PerDeviceShaders PerDeviceCachedShaders DevType) Position
            (some heap.next))
        let Rest := UnpackPSOShaders ReconstructShader DevType Stages Cached heap.construct
        { Rest with Shaders := heap.next :: Rest.Shaders,
                    FactoryCalls := Position :: Rest.FactoryCalls }
      else
        { ok := false, Shaders := [], PerDeviceCachedShaders := PerDeviceCachedShaders,
          heap := heap, FactoryCalls := [Position] }

/-- The typed data holder of a pipeline (`PSOData<CreateInfoType>`, declared at
line 158), by what the sub-steps of section 4.5 read from the decoded header:
the ordered signature names, the shader position of each stage, the render pass
name when the header references one, and the rest of the description. -/
structure PSOData where
  SignatureNames : List String
  ShaderPositions : List Nat
  RenderPassName : Option String
  Body : List Nat
deriving DecidableEq, Repr

/-- The struct `PipelineStateUnpackInfo`: device, pipeline name and kind, and the
granularity handed to the signature unpacks. -/
structure PipelineStateUnpackInfo (I : Type) where
  pDevice : RenderDevice I
  Name : String
  PipelineType : PipelineKind
  SRBAllocationGranularity : Nat

/-- Operations defined outside this header that the pipeline unpack uses: the
signature decoders, the archive reads for pipelines (`none` when the header or
the device-specific data is absent), the decoding of the device-specific data
(with the unread rest), the reconstruction of the shader at a position, the
render pass unpack `UnpackRenderPass` (declared at lines 74-75; it may read the
dearchiver and yields the render pass, the render pass cache and the heap it
leaves) and the pipeline factory. -/
structure PipelineCollaborators (I : Type) where
  PRSSerializer : PRSSerializerType I
  LoadPSOData : DeviceObjectArchive → PipelineKind → String → Option PSOData
  GetPSODeviceSpecificData : DeviceObjectArchive → DeviceType → PSOData → Option SerializedData
  DecodePSODeviceSpecificData : SerializedData → List Nat × SerializedData
  ReconstructShader : DeviceObjectArchive → DeviceType → Nat → Bool
  UnpackRenderPass :
    DearchiverBase → ObjectHeap → String → Option ObjId × NamedResourceCache × ObjectHeap
  CreatePipelineState :
    PipelineKind → PSOData → List Nat → List ObjId → List ObjId → Option ObjId → Bool

/-- What a sub-step of the pipeline unpack leaves behind: its `bool` result,
whether it indexed the archive list out of range, the dearchiver, the heap and
the objects it obtained. -/
structure SubStepResult where
  ok : Bool
  outOfRange : Bool
  self : DearchiverBase
  heap : ObjectHeap
  Objects : List ObjId

/-- Modelled from the spec: the body of `DearchiverBase::UnpackPSOSignatures`
(declared at lines 180-181, defined outside this header), section 4.5.  "Each
named signature is obtained via the signature unpack protocol, recursively, and
may itself hit the cache."  A null signature ends the step with `false`. -/
def UnpackPSOSignatures {I : Type} (S : PRSSerializerType I) (pDevice : RenderDevice I)
    (Granularity : Nat) : List String → DearchiverBase → ObjectHeap → SubStepResult
  | [], self, heap =>
    { ok := true, outOfRange := false, self := self, heap := heap, Objects := [] }
  | Name :: Names, self, heap =>
    match (UnpackResourceSignatureImpl S self heap
        { pDevice := pDevice, Name := Name, SRBAllocationGranularity := Granularity }
        false).outcome with
    | Outcome.returned (some pSignature) =>
      let Rest := UnpackPSOSignatures S pDevice Granularity Names
        (UnpackResourceSignatureImpl S self heap
          { pDevice := pDevice, Name := Name, SRBAllocationGranularity := Granularity }
          false).self
        (UnpackResourceSignatureImpl S self heap
          { pDevice := pDevice, Name := Name, SRBAllocationGranularity := Granularity }
          false).heap
      { Rest with Objects := pSignature :: Rest.Objects }
    | Outcome.returned none =>
      { ok := false, outOfRange := false,
        self := (UnpackResourceSignatureImpl S self heap
          { pDevice := pDevice, Name := Name, SRBAllocationGranularity := Granularity }
          false).self,
        heap := (UnpackResourceSignatureImpl S self heap
          { pDevice := pDevice, Name := Name, SRBAllocationGranularity := Granularity }
          false).heap,
        Objects := [] }
    | Outcome.archiveIndexOutOfRange =>
      { ok := false, outOfRange := true,
        self := (UnpackResourceSignatureImpl S self heap
          { pDevice := pDevice, Name := Name, SRBAllocationGranularity := Granularity }
          false).self,
        heap := (UnpackResourceSignatureImpl S self heap
          { pDevice := pDevice, Name := Name, SRBAllocationGranularity := Granularity }
          false).heap,
        Objects := [] }

/-- The shader sub-step applied to the shader caches of the archive at `idx`,
which is where the pipeline was found. -/
def UnpackPSOShadersOfArchive (ReconstructShader : Nat → Bool) (DevType : DeviceType)
    (Positions : List Nat) (idx : Nat) (self : DearchiverBase) (heap : ObjectHeap) :
    SubStepResult :=
  match self.m_Archives[idx]? with
  | none => { ok := false, outOfRange := true, self := self, heap := heap, Objects := [] }
  | some Archive =>
    { ok := (UnpackPSOShaders ReconstructShader DevType Positions Archive.CachedShaders
        heap).ok,
      outOfRange := false,
      self :=
        { self with
          m_Archives := self.m_Archives.set idx
            { Archive with
              CachedShaders := (UnpackPSOShaders ReconstructShader DevType Positions
                Archive.CachedShaders heap).PerDeviceCachedShaders } },
      heap := (UnpackPSOShaders ReconstructShader DevType Positions Archive.CachedShaders
        heap).heap,
      Objects := (UnpackPSOShaders ReconstructShader DevType Positions Archive.CachedShaders
        heap).Shaders }

/-- The sub-step `DearchiverBase::UnpackPSORenderPass`.  For compute, tile and
ray tracing pipelines it is the template of lines 183-184, `return true`.  For
graphics pipelines it is modelled from the spec (section 4.5): "graphics
pipelines only, and only if the header references one: obtained via the
render-pass unpack protocol"; a null render pass ends the step with `false`. -/
def UnpackPSORenderPass {I : Type} (C : PipelineCollaborators I) (Kind : PipelineKind)
    (PSO : PSOData) (self : DearchiverBase) (heap : ObjectHeap) : SubStepResult :=
  match Kind with
  | PipelineKind.Graphics =>
    match PSO.RenderPassName with
    | none => { ok := true, outOfRange := false, self := self, heap := heap, Objects := [] }
    | some Name =>
      { ok := (C.UnpackRenderPass self heap Name).1.isSome,
        outOfRange := false,
        self :=
          { self with
            m_Cache := { self.m_Cache with RenderPass := (C.UnpackRenderPass self heap Name).2.1 } },
        heap := (C.UnpackRenderPass self heap Name).2.2,
        Objects := (C.UnpackRenderPass self heap Name).1.toList }
  | _ => { ok := true, outOfRange := false, self := self, heap := heap, Objects := [] }

/-- What a pipeline unpack leaves behind; `FactoryCalls` counts the calls of
the pipeline factory. -/
structure PipelineUnpackResult where
  outcome : Outcome
  self : DearchiverBase
  heap : ObjectHeap
  FactoryCalls : Nat

/-- Modelled from the spec: steps 5 and 6 of section 4.5 for a pipeline.
"Construct: invoke the external backend factory ... to obtain a live object.
Publish: store the new object in the Named Resource Cache under name."  When
the factory produces no object the null result is returned. -/
def ConstructAndPublishPSO {I : Type} (C : PipelineCollaborators I)
    (UnpackInfo : PipelineStateUnpackInfo I) (PSO : PSOData) (InternalData : List Nat)
    (Signatures Shaders : List ObjId) (pRenderPass : Option ObjId) (self : DearchiverBase)
    (heap : ObjectHeap) : PipelineUnpackResult :=
  if C.CreatePipelineState UnpackInfo.PipelineType PSO InternalData Signatures Shaders
      pRenderPass then
    { outcome := Outcome.returned (some heap.next),
      self :=
        { self with
          m_Cache := self.m_Cache.SetPsoCache UnpackInfo.PipelineType
            ((self.m_Cache.GetPsoCache UnpackInfo.PipelineType).Set UnpackInfo.Name
              (some heap.next)) },
      heap := heap.construct,
      FactoryCalls := 1 }
  else
    { outcome := Outcome.returned none, self := self, heap := heap, FactoryCalls := 1 }

/-- Modelled from the spec: the recursive sub-steps of a pipeline unpack, in the
order of section 4.5 (signatures, shaders, render pass), followed by steps 5 and
6.  "Any failure aborts the whole pipeline unpack (no partially-constructed
pipeline is ever returned)." -/
def UnpackPSOSubSteps {I : Type} (C : PipelineCollaborators I)
    (UnpackInfo : PipelineStateUnpackInfo I) (idx : Nat) (pArchive : DeviceObjectArchive)
    (PSO : PSOData) (InternalData : List Nat) (self : DearchiverBase) (heap : ObjectHeap) :
    PipelineUnpackResult :=
  let Signatures := UnpackPSOSignatures C.PRSSerializer UnpackInfo.pDevice
    UnpackInfo.SRBAllocationGranularity PSO.SignatureNames self heap
  if Signatures.outOfRange then
    { outcome := Outcome.archiveIndexOutOfRange, self := Signatures.self,
      heap := Signatures.heap, FactoryCalls := 0 }
  else if !Signatures.ok then
    { outcome := Outcome.returned none, self := Signatures.self, heap := Signatures.heap,
      FactoryCalls := 0 }
  else
    let Shaders := UnpackPSOShadersOfArchive
      (C.ReconstructShader pArchive UnpackInfo.pDevice.ArchiveDeviceType)
      UnpackInfo.pDevice.ArchiveDeviceType PSO.ShaderPositions idx Signatures.self
      Signatures.heap
    if Shaders.outOfRange then
      { outcome := Outcome.archiveIndexOutOfRange, self := Shaders.self, heap := Shaders.heap,
        FactoryCalls := 0 }
    else if !Shaders.ok then
      { outcome := Outcome.returned none, self := Shaders.self, heap := Shaders.heap,
        FactoryCalls := 0 }
    else
      let RenderPass := UnpackPSORenderPass C UnpackInfo.PipelineType PSO Shaders.self
        Shaders.heap
      if !RenderPass.ok then
        { outcome := Outcome.returned none, self := RenderPass.self, heap := RenderPass.heap,
          FactoryCalls := 0 }
      else
        ConstructAndPublishPSO C UnpackInfo PSO InternalData Signatures.Objects
          Shaders.Objects RenderPass.Objects.head? RenderPass.self RenderPass.heap

/-- Modelled from the spec: the body of `DearchiverBase::UnpackPipelineStateImpl`
(declared at lines 192-193, defined outside this header), section 4.5: cache
check, resolve, header and common description, backend-specific payload (absent
payload and residual bytes are failures), the recursive sub-steps, construct and
publish.  The routine reports through the output pointer `ppPSO` only (line
193), so every failure leaves the null result. -/
def UnpackPipelineStateImpl {I : Type} (C : PipelineCollaborators I) (self : DearchiverBase)
    (heap : ObjectHeap) (UnpackInfo : PipelineStateUnpackInfo I) : PipelineUnpackResult :=
  match (self.m_Cache.GetPsoCache UnpackInfo.PipelineType).Get heap UnpackInfo.Name with
  | some pPSO =>
    { outcome := Outcome.returned (some pPSO), self := self, heap := heap, FactoryCalls := 0 }
  | none =>
    match (self.m_ResNameToArchiveIdx.GetPsoMap UnpackInfo.PipelineType).lookup
        UnpackInfo.Name with
    | none => { outcome := Outcome.returned none, self := self, heap := heap, FactoryCalls := 0 }
    | some idx =>
      match self.m_Archives[idx]? with
      | none =>
        { outcome := Outcome.archiveIndexOutOfRange, self := self, heap := heap,
          FactoryCalls := 0 }
      | some Archive =>
        match Archive.pArchive with
        | none =>
          { outcome := Outcome.returned none, self := self, heap := heap, FactoryCalls := 0 }
        | some pArchive =>
          match C.LoadPSOData pArchive UnpackInfo.PipelineType UnpackInfo.Name with
          | none =>
            { outcome := Outcome.returned none, self := self, heap := heap, FactoryCalls := 0 }
          | some PSO =>
            match C.GetPSODeviceSpecificData pArchive UnpackInfo.pDevice.ArchiveDeviceType
                PSO with
            | none =>
              { outcome := Outcome.returned none, self := self, heap := heap,
                FactoryCalls := 0 }
            | some Data =>
              if (C.DecodePSODeviceSpecificData Data).2.isEmpty then
                UnpackPSOSubSteps C UnpackInfo idx pArchive PSO
                  (C.DecodePSODeviceSpecificData Data).1 self heap
              else
                { outcome := Outcome.returned none, self := self, heap := heap,
                  FactoryCalls := 0 }

/-- Collaborators for the demo dearchiver: the pipeline "X" of every archive
lists the signatures "S" and "M", the shader positions 3 and 3 and no render
pass; its device-specific data is `[1]`, decoded in full; every shader can be
reconstructed; no render pass can be unpacked; the pipeline factory accepts
everything. -/
def demoPipelineCollaborators : PipelineCollaborators Nat where
  PRSSerializer := demoSerializer
  LoadPSOData := fun _ _ Name =>
    if Name = "X" then
      some { SignatureNames := ["S", "M"], ShaderPositions := [3, 3], RenderPassName := none,
             Body := [] }
    else none
  GetPSODeviceSpecificData := fun _ _ _ => some [1]
  DecodePSODeviceSpecificData := fun Data => (Data, [])
  ReconstructShader := fun _ _ _ => true
  UnpackRenderPass := fun self heap _ => (none, self.m_Cache.RenderPass, heap)
  CreatePipelineState := fun _ _ _ _ _ _ => true

/-- An unpack request for the graphics pipeline `Name` on `demoDevice`. -/
def demoPipelineInfo (Name : String) : PipelineStateUnpackInfo Nat :=
  { pDevice := demoDevice, Name := Name, PipelineType := PipelineKind.Graphics,
    SRBAllocationGranularity := 1 }

/-! ## SwapChainWebGPUImpl.cpp: WebGPUSwapChainPresentCommand (lines 84-145) -/

/-- The data members of `WebGPUSwapChainPresentCommand` (lines 212-216) set by
the constructor; `none` is a null handle. -/
structure WebGPUSwapChainPresentCommand where
  m_pPointSampler : Option Nat
  m_wgpuBindGroupLayout : Option Nat
  m_wgpuPipelineLayout : Option Nat
  m_wgpuRenderPipeline : Option Nat
deriving DecidableEq, Repr

/-- Lines 87-145: the constructor of `WebGPUSwapChainPresentCommand`.  The
arguments are what `wgpuDeviceCreateShaderModule`,
`wgpuDeviceCreateBindGroupLayout`, `wgpuDeviceCreatePipelineLayout`,
`wgpuDeviceCreateRenderPipeline` and `CreateSampler` return.  The result is the
message of `LOG_ERROR_AND_THROW` or the constructed object.  The check of line
136 reads `m_wgpuPipelineLayout`. -/
def WebGPUSwapChainPresentCommand.ctor
    (ShaderModule BindGroupLayout PipelineLayout RenderPipeline PointSampler : Option Nat) :
    Except String WebGPUSwapChainPresentCommand :=
  match ShaderModule with
  | none => Except.error "Failed to create shader module"
  | some _ =>
    match BindGroupLayout with
    | none => Except.error "Failed to create bind group layout"
    | some _ =>
      match PipelineLayout with
      | none => Except.error "Failed to create pipeline layout"
      | some _ =>
        match PipelineLayout with
        | none => Except.error "Failed to create render pipeline"
        | some _ =>
          Except.ok
            { m_pPointSampler := PointSampler, m_wgpuBindGroupLayout := BindGroupLayout,
              m_wgpuPipelineLayout := PipelineLayout, m_wgpuRenderPipeline := RenderPipeline }

/-! ## EngineFactoryWebGPU.cpp: the adapter description (lines 194-224) -/

/-- Line 217: `std::min(_countof(AdapterInfo.Description), strlen(wgpuAdapterDesc.name))`.
`Size` is the number of elements of the array `Description`, declared outside
this file; `name` lists the characters of the adapter name before its
terminator. -/
def DescriptorSize (Size : Nat) (name : List Nat) : Nat :=
  min Size name.length

/-- Lines 199 and 217-218: the array `AdapterInfo.Description` after the copy.
The array is zero after `GraphicsAdapterInfo AdapterInfo{}`; `memcpy` then
writes the first `DescriptorSize` characters of the name. -/
def CopyDescription (Size : Nat) (name : List Nat) : List Nat :=
  name.take (DescriptorSize Size name) ++ List.replicate (Size - DescriptorSize Size name) 0

/-! ## AttachmentCleanerWebGPU.cpp: render pass info, clear keys, clear pipelines -/

/-- The struct `AttachmentCleanerWebGPU::RenderPassInfo`, by the members that
`operator==` and `GetHash` read.  `RTVFormats` is the array of render target
formats. -/
structure RenderPassInfo where
  NumRenderTargets : Nat
  SampleCount : Nat
  DSVFormat : Nat
  RTVFormats : List Nat
deriving DecidableEq, Repr

/-- The element `RTVFormats[RTIndex]`. -/
def RenderPassInfo.RTVFormat (a : RenderPassInfo) (RTIndex : Nat) : Nat :=
  a.RTVFormats.getD RTIndex 0

/-- Lines 106-120: `RenderPassInfo::operator==`. -/
def RenderPassInfo.operator_eq (a rhs : RenderPassInfo) : Bool :=
  if a.NumRenderTargets != rhs.NumRenderTargets || a.SampleCount != rhs.SampleCount ||
      a.DSVFormat != rhs.DSVFormat then
    false
  else
    (List.range a.NumRenderTargets).all
      (fun RTIndex => a.RTVFormat RTIndex == rhs.RTVFormat RTIndex)

/-- The hash functions of `HashUtils.hpp`, declared outside this file:
`ComputeHash` of three and of four values, `HashCombine(Seed, Value)` (the new
seed) and `ComputeHashRaw` of a depth-stencil state. -/
structure HashUtils where
  ComputeHash3 : Nat → Nat → Nat → Nat
  HashCombine : Nat → Nat → Nat
  ComputeHash4 : Nat → Int → Int → Nat → Nat
  ComputeHashRaw : WGPUDepthStencilState → Nat

/-- Lines 122-128: `RenderPassInfo::GetHash`. -/
def RenderPassInfo.GetHash (H : HashUtils) (a : RenderPassInfo) : Nat :=
  (List.range a.NumRenderTargets).foldl
    (fun Hash RTIndex => H.HashCombine Hash (a.RTVFormat RTIndex))
    (H.ComputeHash3 a.NumRenderTargets a.DSVFormat a.SampleCount)

/-- The struct `AttachmentCleanerWebGPU::ClearPSOHashKey`; `PSOHash` is the
mutable member that caches the hash, 0 while it is not computed. -/
structure ClearPSOHashKey where
  RPInfo : RenderPassInfo
  ColorMask : Nat
  RTIndex : Int
  DepthState : WGPUDepthStencilState
  PSOHash : Nat
deriving DecidableEq, Repr

/-- Lines 130-140: `ClearPSOHashKey::operator==`. -/
def ClearPSOHashKey.operator_eq (a rhs : ClearPSOHashKey) : Bool :=
  if a.PSOHash != rhs.PSOHash then
    false
  else
    a.RPInfo.operator_eq rhs.RPInfo &&
    a.ColorMask == rhs.ColorMask &&
    a.RTIndex == rhs.RTIndex &&
    a.DepthState.operator_eq rhs.DepthState

/-- Line 145: the hash of the contents of a key. -/
def ClearPSOHashKey.ComputePSOHash (H : HashUtils) (Key : ClearPSOHashKey) : Nat :=
  H.ComputeHash4 (Key.RPInfo.GetHash H) (Key.ColorMask : Int) Key.RTIndex
    (H.ComputeHashRaw Key.DepthState)

/-- Lines 142-148: `ClearPSOHashKey::Hasher::operator()`, as the key it leaves
(the hash it returns is the `PSOHash` of that key). -/
def ClearPSOHashKey.Hasher (H : HashUtils) (Key : ClearPSOHashKey) : ClearPSOHashKey :=
  if Key.PSOHash == 0 then { Key with PSOHash := Key.ComputePSOHash H } else Key

/-- The same combination of render pass info (compared with its `operator==`),
color mask, render target index and depth state. -/
def ClearPSOHashKey.SameCombination (a b : ClearPSOHashKey) : Bool :=
  a.RPInfo.operator_eq b.RPInfo && a.ColorMask == b.ColorMask && a.RTIndex == b.RTIndex &&
    decide (a.DepthState = b.DepthState)

/-- Constants and initial values declared outside this file: the enumerators
used by the constructor, the clear flags, the color mask of a value-initialised
key, and the value of the four depth-stencil members before the constructor
body runs. -/
structure CleanerConstants where
  WGPUCompareFunction_Always : Nat
  WGPUCompareFunction_Never : Nat
  WGPUStencilOperation_Replace : Nat
  CLEAR_DEPTH_FLAG : Nat
  CLEAR_STENCIL_FLAG : Nat
  DefaultColorMask : Nat
  InitialDepthState : WGPUDepthStencilState

/-- The data members of `AttachmentCleanerWebGPU`: the four depth-stencil states
and the pipeline cache `m_PSOCache`, an unordered map listed here in insertion
order; a `none` pipeline is a null handle. -/
structure AttachmentCleanerWebGPU where
  m_wgpuDisableDepth : WGPUDepthStencilState
  m_wgpuWriteDepth : WGPUDepthStencilState
  m_wgpuWriteStencil : WGPUDepthStencilState
  m_wgpuWriteDepthStencil : WGPUDepthStencilState
  m_PSOCache : List (ClearPSOHashKey × Option Nat)
deriving DecidableEq, Repr

/-- Lines 150-175: the constructor of `AttachmentCleanerWebGPU`. -/
def AttachmentCleanerWebGPU.ctor (K : CleanerConstants) : AttachmentCleanerWebGPU :=
  let ReplaceFace : WGPUStencilFaceState :=
    { compare := K.WGPUCompareFunction_Always,
      depthFailOp := K.WGPUStencilOperation_Replace,
      failOp := K.WGPUStencilOperation_Replace,
      passOp := K.WGPUStencilOperation_Replace }
  { m_wgpuDisableDepth :=
      { K.InitialDepthState with
        depthCompare := K.WGPUCompareFunction_Always, depthWriteEnabled := false },
    m_wgpuWriteDepth :=
      { K.InitialDepthState with
        depthCompare := K.WGPUCompareFunction_Always, depthWriteEnabled := true },
    m_wgpuWriteStencil :=
      { K.InitialDepthState with
        depthCompare := K.WGPUCompareFunction_Never, depthWriteEnabled := true,
        stencilFront := ReplaceFace, stencilBack := ReplaceFace },
    m_wgpuWriteDepthStencil :=
      { K.InitialDepthState with
        depthCompare := K.WGPUCompareFunction_Always, depthWriteEnabled := true,
        stencilFront := ReplaceFace, stencilBack := ReplaceFace },
    m_PSOCache := [] }

/-- The struct `WGPUColorTargetState`, by the members `CreatePSO` writes. -/
structure WGPUColorTargetState where
  format : Nat
  writeMask : Nat
deriving DecidableEq, Repr

/-- The struct `WGPUFragmentState`, by the members `CreatePSO` writes: the
targets and the value of the constant `RTVIndex`. -/
structure WGPUFragmentState where
  targets : List WGPUColorTargetState
  RTVIndex : Int
deriving DecidableEq, Repr

/-- The struct `WGPURenderPipelineDescriptor`, by the members `CreatePSO`
writes that depend on the key; `fragment` is `none` for the null pointer. -/
structure WGPURenderPipelineDescriptor where
  fragment : Option WGPUFragmentState
  depthStencil : WGPUDepthStencilState
  multisampleCount : Nat
deriving DecidableEq, Repr

/-- The WebGPU device and the conversions of `WebGPUTypeConversions.hpp`, declared
outside this file: the shader module created for the clear shader, the render
pipeline created for a descriptor (`none` is a null handle) and the two format
conversions. -/
structure ClearDevice where
  wgpuDeviceCreateShaderModule : Option Nat
  wgpuDeviceCreateRenderPipeline : WGPURenderPipelineDescriptor → Option Nat
  TexFormatToWGPUFormat : Nat → Nat
  ColorMaskToWGPUColorWriteMask : Nat → Nat

/-- Lines 233-265: the render pipeline descriptor that `CreatePSO` builds for a
key. -/
def ClearPSODescriptor (Dev : ClearDevice) (Key : ClearPSOHashKey) :
    WGPURenderPipelineDescriptor :=
  { fragment :=
      if Key.RTIndex < 0 then none
      else
        some
          { targets := (List.range Key.RPInfo.NumRenderTargets).map
              (fun RTIndex =>
                { format := Dev.TexFormatToWGPUFormat (Key.RPInfo.RTVFormat RTIndex),
                  writeMask := Dev.ColorMaskToWGPUColorWriteMask Key.ColorMask }),
            RTVIndex := if Key.RTIndex < 0 then 0 else Key.RTIndex },
    depthStencil :=
      { Key.DepthState with format := Dev.TexFormatToWGPUFormat Key.RPInfo.DSVFormat },
    multisampleCount := Key.RPInfo.SampleCount }

/-- Lines 218-277: `AttachmentCleanerWebGPU::CreatePSO`.  Both exceptions are
caught inside and leave the null pipeline. -/
def CreatePSO (Dev : ClearDevice) (Key : ClearPSOHashKey) : Option Nat :=
  match Dev.wgpuDeviceCreateShaderModule with
  | none => none
  | some _ => Dev.wgpuDeviceCreateRenderPipeline (ClearPSODescriptor Dev Key)

/-- Calls made by the clear routines. -/
inductive ClearEvent where
  /-- The call `wgpuRenderPassEncoderSetStencilReference` of line 205. -/
  | setStencilReference (Stencil : Nat)
  /-- The failed debug check of line 210. -/
  | verifyDepthFlagFailed
  /-- The call `CreatePSO(Key)` of line 285. -/
  | createPSO (Key : ClearPSOHashKey)
  /-- The failed debug check `UNEXPECTED(..)` of line 290. -/
  | unexpectedNullPSO
  /-- The calls of lines 295-297 that set the pipeline and draw. -/
  | draw (wgpuPipelineState : Nat)
deriving DecidableEq, Repr

/-- The key of a `CreatePSO` call, if the event is one. -/
def ClearEvent.createdKey : ClearEvent → Option ClearPSOHashKey
  | .createPSO Key => some Key
  | _ => none

/-- Whether the event is a draw. -/
def ClearEvent.isDraw : ClearEvent → Bool
  | .draw _ => true
  | _ => false

/-- The keys for which `CreatePSO` was called, in call order. -/
def CreatedKeys (events : List ClearEvent) : List ClearPSOHashKey :=
  events.filterMap ClearEvent.createdKey

/-- Lines 279-298: `AttachmentCleanerWebGPU::ClearAttachment`.  `find` hashes
the key and yields an element whose key compares equal to it. -/
def ClearAttachment (H : HashUtils) (Dev : ClearDevice) (self : AttachmentCleanerWebGPU)
    (Key : ClearPSOHashKey) : AttachmentCleanerWebGPU × List ClearEvent :=
  let Hashed := Key.Hasher H
  match self.m_PSOCache.find? (fun Entry => Hashed.operator_eq Entry.1) with
  | some Iter =>
    match Iter.2 with
    | none => (self, [ClearEvent.unexpectedNullPSO])
    | some wgpuPipelineState => (self, [ClearEvent.draw wgpuPipelineState])
  | none =>
    let Created := CreatePSO Dev Hashed
    let self1 := { self with m_PSOCache := self.m_PSOCache ++ [(Hashed, Created)] }
    match Created with
    | none => (self1, [ClearEvent.createPSO Hashed, ClearEvent.unexpectedNullPSO])
    | some wgpuPipelineState =>
      (self1, [ClearEvent.createPSO Hashed, ClearEvent.draw wgpuPipelineState])

/-- The conversion `static_cast<Int32>` of a `Uint32`. -/
def ToInt32 (n : Nat) : Int :=
  if n % 4294967296 < 2147483648 then (n % 4294967296 : Nat)
  else ((n % 4294967296 : Nat) : Int) - 4294967296

/-- Lines 183-187: the key that `ClearColor` builds. -/
def ClearColorKey (self : AttachmentCleanerWebGPU) (RPInfo : RenderPassInfo) (ColorMask : Nat)
    (RTIndex : Nat) : ClearPSOHashKey :=
  { RPInfo := RPInfo, ColorMask := ColorMask, RTIndex := ToInt32 RTIndex,
    DepthState := self.m_wgpuDisableDepth, PSOHash := 0 }

/-- Lines 177-191: `AttachmentCleanerWebGPU::ClearColor`. -/
def ClearColor (H : HashUtils) (Dev : ClearDevice) (self : AttachmentCleanerWebGPU)
    (RPInfo : RenderPassInfo) (ColorMask : Nat) (RTIndex : Nat) :
    AttachmentCleanerWebGPU × List ClearEvent :=
  ClearAttachment H Dev self (ClearColorKey self RPInfo ColorMask RTIndex)

/-- Lines 199-212: the key that `ClearDepthStencil` builds. -/
def ClearDepthStencilKey (K : CleanerConstants) (self : AttachmentCleanerWebGPU)
    (RPInfo : RenderPassInfo) (Flags : Nat) : ClearPSOHashKey :=
  { RPInfo := RPInfo, ColorMask := K.DefaultColorMask, RTIndex := -1,
    DepthState :=
      if (Flags &&& K.CLEAR_STENCIL_FLAG) != 0 then
        (if (Flags &&& K.CLEAR_DEPTH_FLAG) != 0 then self.m_wgpuWriteDepthStencil
         else self.m_wgpuWriteStencil)
      else self.m_wgpuWriteDepth,
    PSOHash := 0 }

/-- Lines 203-212: the calls `ClearDepthStencil` makes before `ClearAttachment`. -/
def ClearDepthStencilPrologue (K : CleanerConstants) (Flags : Nat) (Stencil : Nat) :
    List ClearEvent :=
  if (Flags &&& K.CLEAR_STENCIL_FLAG) != 0 then [ClearEvent.setStencilReference Stencil]
  else if (Flags &&& K.CLEAR_DEPTH_FLAG) != 0 then []
  else [ClearEvent.verifyDepthFlagFailed]

/-- Lines 193-216: `AttachmentCleanerWebGPU::ClearDepthStencil`. -/
def ClearDepthStencil (H : HashUtils) (K : CleanerConstants) (Dev : ClearDevice)
    (self : AttachmentCleanerWebGPU) (RPInfo : RenderPassInfo) (Flags : Nat) (Stencil : Nat) :
    AttachmentCleanerWebGPU × List ClearEvent :=
  ((ClearAttachment H Dev self (ClearDepthStencilKey K self RPInfo Flags)).1,
    ClearDepthStencilPrologue K Flags Stencil ++
      (ClearAttachment H Dev self (ClearDepthStencilKey K self RPInfo Flags)).2)

/-- A call of `ClearColor` or of `ClearDepthStencil`, by the arguments that
matter for the pipeline. -/
inductive ClearCall where
  | Color (RPInfo : RenderPassInfo) (ColorMask : Nat) (RTIndex : Nat)
  | DepthStencil (RPInfo : RenderPassInfo) (Flags : Nat) (Stencil : Nat)
deriving DecidableEq, Repr

/-- The key a call builds. -/
def ClearCall.Key (K : CleanerConstants) (self : AttachmentCleanerWebGPU) :
    ClearCall → ClearPSOHashKey
  | .Color RPInfo ColorMask RTIndex => ClearColorKey self RPInfo ColorMask RTIndex
  | .DepthStencil RPInfo Flags _ => ClearDepthStencilKey K self RPInfo Flags

/-- One call on the cleaner. -/
def ApplyClear (H : HashUtils) (K : CleanerConstants) (Dev : ClearDevice)
    (self : AttachmentCleanerWebGPU) : ClearCall → AttachmentCleanerWebGPU × List ClearEvent
  | .Color RPInfo ColorMask RTIndex => ClearColor H Dev self RPInfo ColorMask RTIndex
  | .DepthStencil RPInfo Flags Stencil => ClearDepthStencil H K Dev self RPInfo Flags Stencil

/-- A sequence of calls on the cleaner, with all the calls they make. -/
def RunClears (H : HashUtils) (K : CleanerConstants) (Dev : ClearDevice) :
    List ClearCall → AttachmentCleanerWebGPU → AttachmentCleanerWebGPU × List ClearEvent
  | [], self => (self, [])
  | Call :: Calls, self =>
    ((RunClears H K Dev Calls (ApplyClear H K Dev self Call).1).1,
      (ApplyClear H K Dev self Call).2 ++
        (RunClears H K Dev Calls (ApplyClear H K Dev self Call).1).2)

/-- Hash functions for evaluation: sums. -/
def demoHash : HashUtils where
  ComputeHash3 := fun a b c => a + b + c + 1
  HashCombine := fun Seed Value => Seed + Value
  ComputeHash4 := fun a b c d => a + b.toNat + c.toNat + d + 1
  ComputeHashRaw := fun s => s.depthCompare + s.stencilFront.compare + s.stencilBack.compare

/-- Constants for evaluation, with the zero state as initial depth-stencil
state. -/
def demoCleanerConstants : CleanerConstants where
  WGPUCompareFunction_Always := 8
  WGPUCompareFunction_Never := 1
  WGPUStencilOperation_Replace := 2
  CLEAR_DEPTH_FLAG := 1
  CLEAR_STENCIL_FLAG := 2
  DefaultColorMask := 15
  InitialDepthState := demoDepthState 0 0

/-- A device for evaluation: the shader module exists and the pipeline of a
descriptor is numbered by its sample count. -/
def demoClearDevice : ClearDevice where
  wgpuDeviceCreateShaderModule := some 1
  wgpuDeviceCreateRenderPipeline := fun Desc => some Desc.multisampleCount
  TexFormatToWGPUFormat := fun f => f
  ColorMaskToWGPUColorWriteMask := fun m => m

/-- A render pass info with one render target. -/
def demoRenderPassInfo (TrailingFormat : Nat) : RenderPassInfo :=
  { NumRenderTargets := 1, SampleCount := 1, DSVFormat := 40, RTVFormats := [10, TrailingFormat] }

/-- A key as it is stored in the pipeline cache: its hash is computed and the
two faces of its depth state agree. -/
def ClearPSOHashKey.Hashed (H : HashUtils) (Key : ClearPSOHashKey) : Prop :=
  Key.DepthState.stencilFront = Key.DepthState.stencilBack ∧
  Key.PSOHash = Key.ComputePSOHash H

/-- Invariant of a cleaner: its four depth-stencil states are those the
constructor built, every cached key is hashed, and the cached keys are pairwise
different combinations. -/
def AttachmentCleanerWebGPU.Inv (H : HashUtils) (K : CleanerConstants)
    (self : AttachmentCleanerWebGPU) : Prop :=
  (self.m_wgpuDisableDepth = (AttachmentCleanerWebGPU.ctor K).m_wgpuDisableDepth ∧
    self.m_wgpuWriteDepth = (AttachmentCleanerWebGPU.ctor K).m_wgpuWriteDepth ∧
    self.m_wgpuWriteStencil = (AttachmentCleanerWebGPU.ctor K).m_wgpuWriteStencil ∧
    self.m_wgpuWriteDepthStencil = (AttachmentCleanerWebGPU.ctor K).m_wgpuWriteDepthStencil) ∧
  (∀ Entry ∈ self.m_PSOCache, Entry.1.Hashed H) ∧
  (self.m_PSOCache.map Prod.fst).Pairwise (fun a b => a.SameCombination b = false)

/-! ## Lemmas on the cache and on the archive path -/

theorem NamedResourceCache.Get_eq_some_iff (c : NamedResourceCache) (heap : ObjectHeap)
    (Name : String) (o : ObjId) :
    c.Get heap Name = some o ↔ c.m_Map.lookup Name = some (some o) ∧ o ∈ heap.live := by
  unfold NamedResourceCache.Get ObjectHeap.isAlive
  cases h : c.m_Map.lookup Name with
  | none => simp
  | some wp =>
    cases wp with
    | none => simp
    | some o1 =>
      by_cases hl : o1 ∈ heap.live
      · simp only [hl, decide_True, if_true, Option.some.injEq]
        constructor
        · intro e; subst e; exact ⟨rfl, hl⟩
        · intro e; exact e.1
      · simp only [hl, decide_False, Bool.false_eq_true, if_false, Option.some.injEq]
        constructor
        · intro e; cases e
        · intro e; exact absurd (e.1 ▸ e.2) hl

theorem NamedResourceCache.lookup_Set (c : NamedResourceCache) (Name : String)
    (p : Option ObjId) : (c.Set Name p).m_Map.lookup Name = some p := by
  simp [NamedResourceCache.Set, List.lookup]

theorem NamedResourceCache.Get_Set_alive (c : NamedResourceCache) (heap : ObjectHeap)
    (Name : String) (o : ObjId) (h : o ∈ heap.live) :
    (c.Set Name (some o)).Get heap Name = some o :=
  (NamedResourceCache.Get_eq_some_iff _ _ _ _).2 ⟨NamedResourceCache.lookup_Set c Name _, h⟩

/-- The archive path ends in one of three ways: it returns null without
changing anything and without calling the factory, it indexes the archive list
out of range, or it reaches the factory call. -/
theorem UnpackFromArchive_cases {I : Type} (S : PRSSerializerType I) (self : DearchiverBase)
    (heap : ObjectHeap) (info : ResourceSignatureUnpackInfo I) (imp : Bool)
    (ev : List (Event I)) :
    (∃ ev1 : List (Event I),
        UnpackFromArchive S self heap info imp ev =
          { outcome := Outcome.returned none, self := self, heap := heap, events := ev ++ ev1 } ∧
        ∀ e ∈ ev1, e.isCreate = false ∧ e.isCacheSet = false ∧ e.isCacheGet = false) ∨
    (∃ ev1 : List (Event I),
        UnpackFromArchive S self heap info imp ev =
          { outcome := Outcome.archiveIndexOutOfRange, self := self, heap := heap,
            events := ev ++ ev1 } ∧
        ∀ e ∈ ev1, e.isCreate = false ∧ e.isCacheSet = false ∧ e.isCacheGet = false) ∨
    (∃ (decoded : PRSData × I × SerializedData) (ev1 : List (Event I)),
        UnpackFromArchive S self heap info imp ev =
          CreateAndPublish self heap info imp decoded (ev ++ ev1) ∧
        ∀ e ∈ ev1, e.isCreate = false ∧ e.isCacheSet = false ∧ e.isCacheGet = false) := by
  have hev : ∀ l : List (Event I),
      (∀ e ∈ l, e = Event.resolve info.Name ∨ (∃ i, e = Event.archiveAt i) ∨
        e = Event.unexpectedNullArchive ∨ (∃ i n, e = Event.loadResourceData i n) ∨
        (∃ i d, e = Event.getDeviceSpecificData i d)) →
      ∀ e ∈ l, e.isCreate = false ∧ e.isCacheSet = false ∧ e.isCacheGet = false := by
    intro l hl e he
    rcases hl e he with h | ⟨_, h⟩ | h | ⟨_, _, h⟩ | ⟨_, _, h⟩ <;> subst h <;>
      simp [Event.isCreate, Event.isCacheSet, Event.isCacheGet]
  cases h1 : self.m_ResNameToArchiveIdx.Sign.lookup info.Name with
  | none =>
    exact Or.inl ⟨[Event.resolve info.Name], by simp [UnpackFromArchive, h1],
      hev _ (by simp)⟩
  | some idx =>
    cases h2 : self.m_Archives[idx]? with
    | none =>
      exact Or.inr (Or.inl ⟨[Event.resolve info.Name, Event.archiveAt idx],
        by simp [UnpackFromArchive, h1, h2], hev _ (by simp)⟩)
    | some Archive =>
      cases h3 : Archive.pArchive with
      | none =>
        exact Or.inl ⟨[Event.resolve info.Name, Event.archiveAt idx,
          Event.unexpectedNullArchive],
          by simp [UnpackFromArchive, h1, h2, h3], hev _ (by simp)⟩
      | some pArchive =>
        cases h4 : pArchive.LoadResourceData info.Name with
        | none =>
          exact Or.inl ⟨[Event.resolve info.Name, Event.archiveAt idx,
            Event.loadResourceData idx info.Name],
            by simp [UnpackFromArchive, h1, h2, h3, h4], hev _ (by simp)⟩
        | some PRS =>
          cases h5 : pArchive.GetDeviceSpecificData info.pDevice.ArchiveDeviceType
              (PRS.SetSRBAllocationGranularity info.SRBAllocationGranularity).pHeader with
          | none =>
            exact Or.inl ⟨[Event.resolve info.Name, Event.archiveAt idx,
              Event.loadResourceData idx info.Name,
              Event.getDeviceSpecificData idx info.pDevice.ArchiveDeviceType],
              by simp [UnpackFromArchive, h1, h2, h3, h4, h5], hev _ (by simp)⟩
          | some Data =>
            exact Or.inr (Or.inr ⟨_, [Event.resolve info.Name, Event.archiveAt idx,
              Event.loadResourceData idx info.Name,
              Event.getDeviceSpecificData idx info.pDevice.ArchiveDeviceType],
              by simp [UnpackFromArchive, h1, h2, h3, h4, h5]; rfl, hev _ (by simp)⟩)

/-- Under the conditions that lead to the factory call, the archive path is
the factory step applied to the decoded data. -/
theorem UnpackFromArchive_reaches_factory {I : Type} (S : PRSSerializerType I)
    (self : DearchiverBase) (heap : ObjectHeap) (info : ResourceSignatureUnpackInfo I)
    (imp : Bool) (ev : List (Event I)) (idx : Nat) (Archive : ArchiveData)
    (pArchive : DeviceObjectArchive) (PRS : PRSData) (Data : SerializedData)
    (hidx : self.m_ResNameToArchiveIdx.Sign.lookup info.Name = some idx)
    (hat : self.m_Archives[idx]? = some Archive)
    (hptr : Archive.pArchive = some pArchive)
    (hload : pArchive.LoadResourceData info.Name = some PRS)
    (hdata : pArchive.GetDeviceSpecificData info.pDevice.ArchiveDeviceType PRS.pHeader =
      some Data) :
    UnpackFromArchive S self heap info imp ev =
      CreateAndPublish self heap info imp
        (DecodeDeviceSpecificData S
          (PRS.SetSRBAllocationGranularity info.SRBAllocationGranularity) Data)
        (ev ++ [Event.resolve info.Name, Event.archiveAt idx,
          Event.loadResourceData idx info.Name,
          Event.getDeviceSpecificData idx info.pDevice.ArchiveDeviceType]) := by
  have hdata1 : pArchive.GetDeviceSpecificData info.pDevice.ArchiveDeviceType
      (PRS.SetSRBAllocationGranularity info.SRBAllocationGranularity).pHeader = some Data := hdata
  simp [UnpackFromArchive, hidx, hat, hptr, hload, hdata1]

/-- A non-null result of the factory step is the newly constructed object,
which is live afterwards and, unless implicit, stored under the name. -/
theorem CreateAndPublish_returned_some {I : Type} (self : DearchiverBase) (heap : ObjectHeap)
    (info : ResourceSignatureUnpackInfo I) (imp : Bool)
    (decoded : PRSData × I × SerializedData) (ev : List (Event I)) (o : ObjId)
    (h : (CreateAndPublish self heap info imp decoded ev).outcome =
      Outcome.returned (some o)) :
    o = heap.next ∧
    (CreateAndPublish self heap info imp decoded ev).heap = heap.construct ∧
    (imp = false →
      (CreateAndPublish self heap info imp decoded ev).self.m_Cache.Sign =
        self.m_Cache.Sign.Set info.Name (some o)) := by
  unfold CreateAndPublish at h ⊢
  cases hc : info.pDevice.CreatePipelineResourceSignature decoded.1.Desc decoded.2.1 <;>
    cases imp <;> simp_all

/-- A non-implicit call whose cache read hits returns at once. -/
theorem UnpackResourceSignatureImpl_hit {I : Type} (S : PRSSerializerType I)
    (self : DearchiverBase) (heap : ObjectHeap) (info : ResourceSignatureUnpackInfo I)
    (o : ObjId) (hget : self.m_Cache.Sign.Get heap info.Name = some o) :
    UnpackResourceSignatureImpl S self heap info false =
      { outcome := Outcome.returned (some o), self := self, heap := heap,
        events := [Event.cacheGet info.Name] } := by
  simp [UnpackResourceSignatureImpl, hget]

/-- A non-implicit call whose cache read misses takes the archive path. -/
theorem UnpackResourceSignatureImpl_miss {I : Type} (S : PRSSerializerType I)
    (self : DearchiverBase) (heap : ObjectHeap) (info : ResourceSignatureUnpackInfo I)
    (hget : self.m_Cache.Sign.Get heap info.Name = none) :
    UnpackResourceSignatureImpl S self heap info false =
      UnpackFromArchive S self heap info false [Event.cacheGet info.Name] := by
  simp [UnpackResourceSignatureImpl, hget]

/-- An implicit call takes the archive path without reading the cache. -/
theorem UnpackResourceSignatureImpl_implicit {I : Type} (S : PRSSerializerType I)
    (self : DearchiverBase) (heap : ObjectHeap) (info : ResourceSignatureUnpackInfo I) :
    UnpackResourceSignatureImpl S self heap info true =
      UnpackFromArchive S self heap info true [] := by
  simp [UnpackResourceSignatureImpl]

/-- After a non-implicit call that returned the object `o`, the cache holds `o`
under the name and `o` is live. -/
theorem UnpackResourceSignatureImpl_returned_cached {I : Type} (S : PRSSerializerType I)
    (self : DearchiverBase) (heap : ObjectHeap) (info : ResourceSignatureUnpackInfo I)
    (o : ObjId)
    (h : (UnpackResourceSignatureImpl S self heap info false).outcome =
      Outcome.returned (some o)) :
    (UnpackResourceSignatureImpl S self heap info false).self.m_Cache.Sign.m_Map.lookup
        info.Name = some (some o) ∧
    o ∈ (UnpackResourceSignatureImpl S self heap info false).heap.live := by
  cases hget : self.m_Cache.Sign.Get heap info.Name with
  | some p =>
    rw [UnpackResourceSignatureImpl_hit S self heap info p hget] at h ⊢
    simp only [Outcome.returned.injEq, Option.some.injEq] at h
    subst h
    exact (NamedResourceCache.Get_eq_some_iff _ _ _ _).1 hget
  | none =>
    rw [UnpackResourceSignatureImpl_miss S self heap info hget] at h ⊢
    rcases UnpackFromArchive_cases S self heap info false [Event.cacheGet info.Name] with
      ⟨ev1, he, _⟩ | ⟨ev1, he, _⟩ | ⟨decoded, ev1, he, _⟩
    · rw [he] at h; simp at h
    · rw [he] at h; simp at h
    · rw [he] at h ⊢
      obtain ⟨ho, hheap, hcache⟩ := CreateAndPublish_returned_some self heap info false decoded _ o h
      rw [hheap, hcache rfl]
      refine ⟨NamedResourceCache.lookup_Set _ _ _, ?_⟩
      simp [ObjectHeap.construct, ho]

/-- C1: cache-hit identity for signatures.  If a non-implicit unpack of a name
returns a non-null object `o`, then `o` is live after the call, and for as long
as `o` stays live a further non-implicit unpack of that name on the resulting
dearchiver returns `o` itself; the only call it makes is the cache read, so the
backend factory is not invoked. -/
theorem unpack_signature_cache_hit_identity {I : Type} (S : PRSSerializerType I)
    (self : DearchiverBase) (heap : ObjectHeap) (info : ResourceSignatureUnpackInfo I)
    (o : ObjId)
    (h : (UnpackResourceSignatureImpl S self heap info false).outcome =
      Outcome.returned (some o)) :
    o ∈ (UnpackResourceSignatureImpl S self heap info false).heap.live ∧
    ∀ heap2 : ObjectHeap, o ∈ heap2.live →
      (UnpackResourceSignatureImpl S
          (UnpackResourceSignatureImpl S self heap info false).self heap2 info false).outcome =
        Outcome.returned (some o) ∧
      (UnpackResourceSignatureImpl S
          (UnpackResourceSignatureImpl S self heap info false).self heap2 info false).events =
        [Event.cacheGet info.Name] ∧
      (UnpackResourceSignatureImpl S
          (UnpackResourceSignatureImpl S self heap info false).self heap2 info false).events.filter
        Event.isCreate = [] := by
  obtain ⟨hlook, hlive⟩ := UnpackResourceSignatureImpl_returned_cached S self heap info o h
  refine ⟨hlive, ?_⟩
  intro heap2 h2
  have hget := (NamedResourceCache.Get_eq_some_iff _ heap2 _ _).2 ⟨hlook, h2⟩
  rw [UnpackResourceSignatureImpl_hit S _ heap2 info o hget]
  simp [Event.isCreate]

/-- Witness of C1: unpacking "S" twice from the demo archive yields object 0 both times. -/
theorem unpack_signature_cache_hit_identity_witness :
    (UnpackResourceSignatureImpl demoSerializer demoDearchiver emptyHeap (demoInfo "S")
        false).outcome = Outcome.returned (some 0) ∧
    (UnpackResourceSignatureImpl demoSerializer
        (UnpackResourceSignatureImpl demoSerializer demoDearchiver emptyHeap (demoInfo "S")
          false).self
        (UnpackResourceSignatureImpl demoSerializer demoDearchiver emptyHeap (demoInfo "S")
          false).heap
        (demoInfo "S") false).outcome = Outcome.returned (some 0) :=
  ⟨by decide,
    ((unpack_signature_cache_hit_identity demoSerializer demoDearchiver emptyHeap
      (demoInfo "S") 0 (by decide)).2 _
      (unpack_signature_cache_hit_identity demoSerializer demoDearchiver emptyHeap
        (demoInfo "S") 0 (by decide)).1).1⟩

/-- C2: the cache check short-circuits.  When the cache read of a non-implicit
call hits with object `o`, the call returns exactly `o`, leaves the dearchiver
and the heap as they were, and its only call is the cache read: the resolution
table, the archives and the backend factory are not accessed and the cache is
not written. -/
theorem unpack_signature_hit_short_circuits {I : Type} (S : PRSSerializerType I)
    (self : DearchiverBase) (heap : ObjectHeap) (info : ResourceSignatureUnpackInfo I)
    (o : ObjId) (hget : self.m_Cache.Sign.Get heap info.Name = some o) :
    (UnpackResourceSignatureImpl S self heap info false).outcome = Outcome.returned (some o) ∧
    (UnpackResourceSignatureImpl S self heap info false).self = self ∧
    (UnpackResourceSignatureImpl S self heap info false).heap = heap ∧
    (UnpackResourceSignatureImpl S self heap info false).events = [Event.cacheGet info.Name] ∧
    ∀ e ∈ (UnpackResourceSignatureImpl S self heap info false).events,
      e.isResolve = false ∧ e.isArchiveAccess = false ∧ e.isCreate = false ∧
      e.isCacheSet = false := by
  rw [UnpackResourceSignatureImpl_hit S self heap info o hget]
  simp [Event.isResolve, Event.isArchiveAccess, Event.isCreate, Event.isCacheSet]

/-- Witness of C2: with object 0 cached and live under "S", the call returns object 0. -/
theorem unpack_signature_hit_short_circuits_witness :
    NamedResourceCache.Get { m_Map := [("S", some 0)] } { live := [0], next := 1 } "S" =
      some 0 ∧
    (UnpackResourceSignatureImpl demoSerializer
      { demoDearchiver with
        m_Cache := { demoDearchiver.m_Cache with Sign := { m_Map := [("S", some 0)] } } }
      { live := [0], next := 1 } (demoInfo "S") false).outcome = Outcome.returned (some 0) :=
  ⟨by decide,
    (unpack_signature_hit_short_circuits demoSerializer
      { demoDearchiver with
        m_Cache := { demoDearchiver.m_Cache with Sign := { m_Map := [("S", some 0)] } } }
      { live := [0], next := 1 } (demoInfo "S") 0 (by decide)).1⟩

/-- A name absent from the signature map ends the archive path after the lookup. -/
theorem UnpackFromArchive_not_found {I : Type} (S : PRSSerializerType I)
    (self : DearchiverBase) (heap : ObjectHeap) (info : ResourceSignatureUnpackInfo I)
    (imp : Bool) (ev : List (Event I))
    (hres : self.m_ResNameToArchiveIdx.Sign.lookup info.Name = none) :
    UnpackFromArchive S self heap info imp ev =
      { outcome := Outcome.returned none, self := self, heap := heap,
        events := ev ++ [Event.resolve info.Name] } := by
  simp [UnpackFromArchive, hres]

/-- Absent device-specific data ends the archive path after the data request. -/
theorem UnpackFromArchive_missing_data {I : Type} (S : PRSSerializerType I)
    (self : DearchiverBase) (heap : ObjectHeap) (info : ResourceSignatureUnpackInfo I)
    (imp : Bool) (ev : List (Event I)) (idx : Nat) (Archive : ArchiveData)
    (pArchive : DeviceObjectArchive) (PRS : PRSData)
    (hidx : self.m_ResNameToArchiveIdx.Sign.lookup info.Name = some idx)
    (hat : self.m_Archives[idx]? = some Archive)
    (hptr : Archive.pArchive = some pArchive)
    (hload : pArchive.LoadResourceData info.Name = some PRS)
    (hdata : pArchive.GetDeviceSpecificData info.pDevice.ArchiveDeviceType PRS.pHeader = none) :
    UnpackFromArchive S self heap info imp ev =
      { outcome := Outcome.returned none, self := self, heap := heap,
        events := ev ++ [Event.resolve info.Name, Event.archiveAt idx,
          Event.loadResourceData idx info.Name,
          Event.getDeviceSpecificData idx info.pDevice.ArchiveDeviceType] } := by
  have hdata1 : pArchive.GetDeviceSpecificData info.pDevice.ArchiveDeviceType
      (PRS.SetSRBAllocationGranularity info.SRBAllocationGranularity).pHeader = none := hdata
  simp [UnpackFromArchive, hidx, hat, hptr, hload, hdata1]

/-- C3: not found is a soft miss.  For a name absent from the signature map of
the resolution table, whatever the other five maps hold, a call that does not
hit the cache (it is implicit, or the cache read misses) returns the null
result, leaves the whole dearchiver (every cache included) and the heap
unchanged, and calls neither an archive nor the backend factory nor the cache
write. -/
theorem unpack_signature_not_found_soft_miss {I : Type} (S : PRSSerializerType I)
    (self : DearchiverBase) (heap : ObjectHeap) (info : ResourceSignatureUnpackInfo I)
    (imp : Bool)
    (hres : self.m_ResNameToArchiveIdx.Sign.lookup info.Name = none)
    (hmiss : imp = true ∨ self.m_Cache.Sign.Get heap info.Name = none) :
    (UnpackResourceSignatureImpl S self heap info imp).outcome = Outcome.returned none ∧
    (UnpackResourceSignatureImpl S self heap info imp).self = self ∧
    (UnpackResourceSignatureImpl S self heap info imp).heap = heap ∧
    ∀ e ∈ (UnpackResourceSignatureImpl S self heap info imp).events,
      e.isCreate = false ∧ e.isCacheSet = false ∧ e.isArchiveAccess = false := by
  cases imp with
  | true =>
    rw [UnpackResourceSignatureImpl_implicit, UnpackFromArchive_not_found S self heap info _ _ hres]
    simp [Event.isCreate, Event.isCacheSet, Event.isArchiveAccess]
  | false =>
    have hget : self.m_Cache.Sign.Get heap info.Name = none := by
      rcases hmiss with h | h
      · cases h
      · exact h
    rw [UnpackResourceSignatureImpl_miss S self heap info hget,
      UnpackFromArchive_not_found S self heap info _ _ hres]
    simp [Event.isCreate, Event.isCacheSet, Event.isArchiveAccess]

/-- Witness of C3: "X" is a render pass and a graphics pipeline of the demo
dearchiver but not a signature; unpacking it as a signature returns null. -/
theorem unpack_signature_not_found_soft_miss_witness :
    (demoDearchiver.m_ResNameToArchiveIdx.Sign.lookup "X" = none ∧
      demoDearchiver.m_ResNameToArchiveIdx.RenderPass.lookup "X" = some 0 ∧
      demoDearchiver.m_ResNameToArchiveIdx.GraphPSO.lookup "X" = some 0) ∧
    (UnpackResourceSignatureImpl demoSerializer demoDearchiver emptyHeap (demoInfo "X")
      false).outcome = Outcome.returned none :=
  ⟨by decide,
    (unpack_signature_not_found_soft_miss demoSerializer demoDearchiver emptyHeap
      (demoInfo "X") false (by decide) (Or.inr (by decide))).1⟩

/-- Counterexample to C4 as stated: in the demo dearchiver the signature "M"
resolves and its header loads, but the archive has no data for device type 2,
while "Z" is in no map.  What the caller receives is the same in both cases:
the null pointer, with caches, resolution table and heap as before. -/
theorem unpack_signature_missing_data_same_as_not_found :
    demoDearchiver.m_ResNameToArchiveIdx.Sign.lookup "M" = some 0 ∧
    demoArchive.LoadResourceData "M" =
      some { pHeader := [4], Desc := { Name := "M", SRBAllocationGranularity := 1, Body := [8] } } ∧
    demoArchive.GetDeviceSpecificData demoDevice.ArchiveDeviceType [4] = none ∧
    demoDearchiver.m_ResNameToArchiveIdx.Sign.lookup "Z" = none ∧
    (UnpackResourceSignatureImpl demoSerializer demoDearchiver emptyHeap (demoInfo "M")
      false).outcome = Outcome.returned none ∧
    (UnpackResourceSignatureImpl demoSerializer demoDearchiver emptyHeap (demoInfo "Z")
      false).outcome = Outcome.returned none ∧
    (UnpackResourceSignatureImpl demoSerializer demoDearchiver emptyHeap (demoInfo "M")
      false).self.m_Cache =
      (UnpackResourceSignatureImpl demoSerializer demoDearchiver emptyHeap (demoInfo "Z")
        false).self.m_Cache ∧
    (UnpackResourceSignatureImpl demoSerializer demoDearchiver emptyHeap (demoInfo "M")
      false).self.m_ResNameToArchiveIdx =
      (UnpackResourceSignatureImpl demoSerializer demoDearchiver emptyHeap (demoInfo "Z")
        false).self.m_ResNameToArchiveIdx ∧
    (UnpackResourceSignatureImpl demoSerializer demoDearchiver emptyHeap (demoInfo "M")
      false).heap =
      (UnpackResourceSignatureImpl demoSerializer demoDearchiver emptyHeap (demoInfo "Z")
        false).heap := by
  decide

/-- C4, amended: when the name resolves and its header loads but the archive
has no data for the requested device type, a call that does not hit the cache
returns the null result and leaves dearchiver and heap unchanged; this is the
very result of a call, on the same state, for a name that is not found. -/
theorem unpack_signature_missing_data_returns_null {I : Type} (S : PRSSerializerType I)
    (self : DearchiverBase) (heap : ObjectHeap) (info : ResourceSignatureUnpackInfo I)
    (imp : Bool) (idx : Nat) (Archive : ArchiveData) (pArchive : DeviceObjectArchive)
    (PRS : PRSData)
    (hmiss : imp = true ∨ self.m_Cache.Sign.Get heap info.Name = none)
    (hidx : self.m_ResNameToArchiveIdx.Sign.lookup info.Name = some idx)
    (hat : self.m_Archives[idx]? = some Archive)
    (hptr : Archive.pArchive = some pArchive)
    (hload : pArchive.LoadResourceData info.Name = some PRS)
    (hdata : pArchive.GetDeviceSpecificData info.pDevice.ArchiveDeviceType PRS.pHeader = none) :
    (UnpackResourceSignatureImpl S self heap info imp).outcome = Outcome.returned none ∧
    (UnpackResourceSignatureImpl S self heap info imp).self = self ∧
    (UnpackResourceSignatureImpl S self heap info imp).heap = heap ∧
    ∀ other : ResourceSignatureUnpackInfo I,
      self.m_ResNameToArchiveIdx.Sign.lookup other.Name = none →
      (imp = true ∨ self.m_Cache.Sign.Get heap other.Name = none) →
      (UnpackResourceSignatureImpl S self heap other imp).outcome =
          (UnpackResourceSignatureImpl S self heap info imp).outcome ∧
        (UnpackResourceSignatureImpl S self heap other imp).self =
          (UnpackResourceSignatureImpl S self heap info imp).self ∧
        (UnpackResourceSignatureImpl S self heap other imp).heap =
          (UnpackResourceSignatureImpl S self heap info imp).heap := by
  cases imp with
  | true =>
    rw [UnpackResourceSignatureImpl_implicit,
      UnpackFromArchive_missing_data S self heap info _ _ idx Archive pArchive PRS hidx hat hptr
        hload hdata]
    refine ⟨rfl, rfl, rfl, ?_⟩
    intro other hres _
    rw [UnpackResourceSignatureImpl_implicit,
      UnpackFromArchive_not_found S self heap other _ _ hres]
    exact ⟨rfl, rfl, rfl⟩
  | false =>
    have hget : self.m_Cache.Sign.Get heap info.Name = none := by
      rcases hmiss with h | h
      · cases h
      · exact h
    rw [UnpackResourceSignatureImpl_miss S self heap info hget,
      UnpackFromArchive_missing_data S self heap info _ _ idx Archive pArchive PRS hidx hat hptr
        hload hdata]
    refine ⟨rfl, rfl, rfl, ?_⟩
    intro other hres hmiss2
    have hget2 : self.m_Cache.Sign.Get heap other.Name = none := by
      rcases hmiss2 with h | h
      · cases h
      · exact h
    rw [UnpackResourceSignatureImpl_miss S self heap other hget2,
      UnpackFromArchive_not_found S self heap other _ _ hres]
    exact ⟨rfl, rfl, rfl⟩

/-- Witness of amended C4: signature "M" of the demo dearchiver, whose archive
has no data for device type 2. -/
theorem unpack_signature_missing_data_returns_null_witness :
    (demoDearchiver.m_ResNameToArchiveIdx.Sign.lookup "M" = some 0 ∧
      demoArchive.GetDeviceSpecificData demoDevice.ArchiveDeviceType [4] = none) ∧
    (UnpackResourceSignatureImpl demoSerializer demoDearchiver emptyHeap (demoInfo "M")
      false).outcome = Outcome.returned none :=
  ⟨by decide,
    (unpack_signature_missing_data_returns_null demoSerializer demoDearchiver emptyHeap
      (demoInfo "M") false 0 { pArchive := some demoArchive, CachedShaders := [] } demoArchive
      { pHeader := [4], Desc := { Name := "M", SRBAllocationGranularity := 1, Body := [8] } }
      (Or.inr (by decide)) (by decide) rfl rfl (by decide) (by decide)).1⟩

/-- C5: a failed unpack for missing backend data publishes nothing.  Whenever
the name resolves, its header loads and the archive has no data for the
requested device type, the call (implicit or not, cache hit or not) leaves the
dearchiver, and so the signature cache and its entry for the name, exactly as
before, and calls neither the backend factory nor the cache write. -/
theorem unpack_signature_missing_data_publishes_nothing {I : Type} (S : PRSSerializerType I)
    (self : DearchiverBase) (heap : ObjectHeap) (info : ResourceSignatureUnpackInfo I)
    (imp : Bool) (idx : Nat) (Archive : ArchiveData) (pArchive : DeviceObjectArchive)
    (PRS : PRSData)
    (hidx : self.m_ResNameToArchiveIdx.Sign.lookup info.Name = some idx)
    (hat : self.m_Archives[idx]? = some Archive)
    (hptr : Archive.pArchive = some pArchive)
    (hload : pArchive.LoadResourceData info.Name = some PRS)
    (hdata : pArchive.GetDeviceSpecificData info.pDevice.ArchiveDeviceType PRS.pHeader = none) :
    (UnpackResourceSignatureImpl S self heap info imp).self = self ∧
    (UnpackResourceSignatureImpl S self heap info imp).self.m_Cache.Sign = self.m_Cache.Sign ∧
    (UnpackResourceSignatureImpl S self heap info imp).heap = heap ∧
    ∀ e ∈ (UnpackResourceSignatureImpl S self heap info imp).events,
      e.isCreate = false ∧ e.isCacheSet = false := by
  cases imp with
  | true =>
    rw [UnpackResourceSignatureImpl_implicit,
      UnpackFromArchive_missing_data S self heap info _ _ idx Archive pArchive PRS hidx hat hptr
        hload hdata]
    simp [Event.isCreate, Event.isCacheSet]
  | false =>
    cases hget : self.m_Cache.Sign.Get heap info.Name with
    | some o =>
      rw [UnpackResourceSignatureImpl_hit S self heap info o hget]
      simp [Event.isCreate, Event.isCacheSet]
    | none =>
      rw [UnpackResourceSignatureImpl_miss S self heap info hget,
        UnpackFromArchive_missing_data S self heap info _ _ idx Archive pArchive PRS hidx hat
          hptr hload hdata]
      simp [Event.isCreate, Event.isCacheSet]

/-- Witness of C5: unpacking "M" leaves the signature cache of the demo
dearchiver empty. -/
theorem unpack_signature_missing_data_publishes_nothing_witness :
    (demoDearchiver.m_ResNameToArchiveIdx.Sign.lookup "M" = some 0 ∧
      demoArchive.GetDeviceSpecificData demoDevice.ArchiveDeviceType [4] = none) ∧
    (UnpackResourceSignatureImpl demoSerializer demoDearchiver emptyHeap (demoInfo "M")
      false).self.m_Cache.Sign = emptyCache :=
  ⟨by decide,
    (unpack_signature_missing_data_publishes_nothing demoSerializer demoDearchiver emptyHeap
      (demoInfo "M") false 0 { pArchive := some demoArchive, CachedShaders := [] } demoArchive
      { pHeader := [4], Desc := { Name := "M", SRBAllocationGranularity := 1, Body := [8] } }
      (by decide) rfl rfl (by decide) (by decide)).2.1⟩

/-- The factory step in full: outcome, cache, heap and recorded calls. -/
theorem CreateAndPublish_eq {I : Type} (self : DearchiverBase) (heap : ObjectHeap)
    (info : ResourceSignatureUnpackInfo I) (imp : Bool)
    (decoded : PRSData × I × SerializedData) (ev : List (Event I)) :
    (CreateAndPublish self heap info imp decoded ev).outcome =
      Outcome.returned
        (if info.pDevice.CreatePipelineResourceSignature decoded.1.Desc decoded.2.1 then
          some heap.next else none) ∧
    (CreateAndPublish self heap info imp decoded ev).self.m_Cache.Sign =
      (if imp then self.m_Cache.Sign else
        self.m_Cache.Sign.Set info.Name
          (if info.pDevice.CreatePipelineResourceSignature decoded.1.Desc decoded.2.1 then
            some heap.next else none)) ∧
    (CreateAndPublish self heap info imp decoded ev).heap =
      (if info.pDevice.CreatePipelineResourceSignature decoded.1.Desc decoded.2.1 then
        heap.construct else heap) ∧
    (CreateAndPublish self heap info imp decoded ev).events =
      ev ++ (if decoded.2.2.isEmpty then [] else [Event.verifyIsEndedFailed]) ++
        [Event.createSignature decoded.1.Desc decoded.2.1
          (if info.pDevice.CreatePipelineResourceSignature decoded.1.Desc decoded.2.1 then
            some heap.next else none)] ++
        (if imp then [] else
          [Event.cacheSet info.Name
            (if info.pDevice.CreatePipelineResourceSignature decoded.1.Desc decoded.2.1 then
              some heap.next else none)]) := by
  unfold CreateAndPublish
  cases imp <;> simp

/-- A call that does not hit the cache and reaches the device-specific data is
the factory step applied to the decoded data. -/
theorem UnpackResourceSignatureImpl_reaches_factory {I : Type} (S : PRSSerializerType I)
    (self : DearchiverBase) (heap : ObjectHeap) (info : ResourceSignatureUnpackInfo I)
    (imp : Bool) (idx : Nat) (Archive : ArchiveData) (pArchive : DeviceObjectArchive)
    (PRS : PRSData) (Data : SerializedData)
    (hmiss : imp = true ∨ self.m_Cache.Sign.Get heap info.Name = none)
    (hidx : self.m_ResNameToArchiveIdx.Sign.lookup info.Name = some idx)
    (hat : self.m_Archives[idx]? = some Archive)
    (hptr : Archive.pArchive = some pArchive)
    (hload : pArchive.LoadResourceData info.Name = some PRS)
    (hdata : pArchive.GetDeviceSpecificData info.pDevice.ArchiveDeviceType PRS.pHeader =
      some Data) :
    UnpackResourceSignatureImpl S self heap info imp =
      CreateAndPublish self heap info imp
        (DecodeDeviceSpecificData S
          (PRS.SetSRBAllocationGranularity info.SRBAllocationGranularity) Data)
        ((if imp then [] else [Event.cacheGet info.Name]) ++
          [Event.resolve info.Name, Event.archiveAt idx,
            Event.loadResourceData idx info.Name,
            Event.getDeviceSpecificData idx info.pDevice.ArchiveDeviceType]) := by
  cases imp with
  | true =>
    rw [UnpackResourceSignatureImpl_implicit,
      UnpackFromArchive_reaches_factory S self heap info _ _ idx Archive pArchive PRS Data hidx
        hat hptr hload hdata]
    rfl
  | false =>
    have hget : self.m_Cache.Sign.Get heap info.Name = none := by
      rcases hmiss with h | h
      · cases h
      · exact h
    rw [UnpackResourceSignatureImpl_miss S self heap info hget,
      UnpackFromArchive_reaches_factory S self heap info _ _ idx Archive pArchive PRS Data hidx
        hat hptr hload hdata]
    rfl

/-- C6, the code at a failing input: the data of signature "R" in the demo
archive is `[0, 7, 9]`; decoding reads the flag `0` and the internal data `7`
and leaves the byte `9` unread.  The check of line 282 fails and nothing leaves
the routine: the call goes on to the factory, returns the new object 0 and
stores it under "R". -/
theorem unpack_signature_residual_bytes_constructs :
    (DecodeDeviceSpecificData demoSerializer
      { pHeader := [2], Desc := { Name := "R", SRBAllocationGranularity := 4, Body := [6] } }
      [0, 7, 9]).2.2 = [9] ∧
    (UnpackResourceSignatureImpl demoSerializer demoDearchiver emptyHeap (demoInfo "R")
      false).outcome = Outcome.returned (some 0) ∧
    (UnpackResourceSignatureImpl demoSerializer demoDearchiver emptyHeap (demoInfo "R")
      false).events =
      [Event.cacheGet "R", Event.resolve "R", Event.archiveAt 0, Event.loadResourceData 0 "R",
        Event.getDeviceSpecificData 0 2, Event.verifyIsEndedFailed,
        Event.createSignature { Name := "R", SRBAllocationGranularity := 4, Body := [6] } 7
          (some 0),
        Event.cacheSet "R" (some 0)] ∧
    (UnpackResourceSignatureImpl demoSerializer demoDearchiver emptyHeap (demoInfo "R")
      false).self.m_Cache.Sign = { m_Map := [("R", some 0)] } := by
  decide

/-- The path after line 282 for any data that leaves unread bytes: the failed
check `VERIFY_EXPR(Ser.IsEnded())` is recorded and no statement returns, so the
call reaches the backend factory once with the decoded description and internal
data and returns what the factory produced; when the call is not implicit and
the factory produced an object, that object is handed to `Set` under the
name. -/
theorem unpack_signature_residual_bytes_checked_not_fatal {I : Type} (S : PRSSerializerType I)
    (self : DearchiverBase) (heap : ObjectHeap) (info : ResourceSignatureUnpackInfo I)
    (imp : Bool) (idx : Nat) (Archive : ArchiveData) (pArchive : DeviceObjectArchive)
    (PRS : PRSData) (Data : SerializedData)
    (hmiss : imp = true ∨ self.m_Cache.Sign.Get heap info.Name = none)
    (hidx : self.m_ResNameToArchiveIdx.Sign.lookup info.Name = some idx)
    (hat : self.m_Archives[idx]? = some Archive)
    (hptr : Archive.pArchive = some pArchive)
    (hload : pArchive.LoadResourceData info.Name = some PRS)
    (hdata : pArchive.GetDeviceSpecificData info.pDevice.ArchiveDeviceType PRS.pHeader =
      some Data)
    (hresidual : (DecodeDeviceSpecificData S
      (PRS.SetSRBAllocationGranularity info.SRBAllocationGranularity) Data).2.2 ≠ []) :
    (UnpackResourceSignatureImpl S self heap info imp).outcome =
      Outcome.returned
        (if info.pDevice.CreatePipelineResourceSignature
            (DecodeDeviceSpecificData S
              (PRS.SetSRBAllocationGranularity info.SRBAllocationGranularity) Data).1.Desc
            (DecodeDeviceSpecificData S
              (PRS.SetSRBAllocationGranularity info.SRBAllocationGranularity) Data).2.1
          then some heap.next else none) ∧
    (imp = false →
      info.pDevice.CreatePipelineResourceSignature
        (DecodeDeviceSpecificData S
          (PRS.SetSRBAllocationGranularity info.SRBAllocationGranularity) Data).1.Desc
        (DecodeDeviceSpecificData S
          (PRS.SetSRBAllocationGranularity info.SRBAllocationGranularity) Data).2.1 = true →
      (UnpackResourceSignatureImpl S self heap info imp).self.m_Cache.Sign =
        self.m_Cache.Sign.Set info.Name (some heap.next)) ∧
    Event.verifyIsEndedFailed ∈ (UnpackResourceSignatureImpl S self heap info imp).events ∧
    (UnpackResourceSignatureImpl S self heap info imp).events.filter Event.isCreate =
      [Event.createSignature
        (DecodeDeviceSpecificData S
          (PRS.SetSRBAllocationGranularity info.SRBAllocationGranularity) Data).1.Desc
        (DecodeDeviceSpecificData S
          (PRS.SetSRBAllocationGranularity info.SRBAllocationGranularity) Data).2.1
        (if info.pDevice.CreatePipelineResourceSignature
            (DecodeDeviceSpecificData S
              (PRS.SetSRBAllocationGranularity info.SRBAllocationGranularity) Data).1.Desc
            (DecodeDeviceSpecificData S
              (PRS.SetSRBAllocationGranularity info.SRBAllocationGranularity) Data).2.1
          then some heap.next else none)] := by
  rw [UnpackResourceSignatureImpl_reaches_factory S self heap info imp idx Archive pArchive PRS
    Data hmiss hidx hat hptr hload hdata]
  obtain ⟨h1, h2, _, h4⟩ := CreateAndPublish_eq self heap info imp
    (DecodeDeviceSpecificData S
      (PRS.SetSRBAllocationGranularity info.SRBAllocationGranularity) Data)
    ((if imp then [] else [Event.cacheGet info.Name]) ++
      [Event.resolve info.Name, Event.archiveAt idx, Event.loadResourceData idx info.Name,
        Event.getDeviceSpecificData idx info.pDevice.ArchiveDeviceType])
  refine ⟨h1, ?_, ?_, ?_⟩
  · intro hi hc
    rw [h2, hi, hc]
    simp
  · rw [h4]
    have : (DecodeDeviceSpecificData S
      (PRS.SetSRBAllocationGranularity info.SRBAllocationGranularity) Data).2.2.isEmpty =
        false := by
      cases hd : (DecodeDeviceSpecificData S
        (PRS.SetSRBAllocationGranularity info.SRBAllocationGranularity) Data).2.2 with
      | nil => exact absurd hd hresidual
      | cons _ _ => rfl
    simp [this]
  · rw [h4]
    cases imp <;> simp [List.filter_cons, Event.isCreate]

/-- An instance of the path after line 282: signature "R" of the demo archive,
one byte unread. -/
theorem unpack_signature_residual_bytes_checked_not_fatal_witness :
    ((DecodeDeviceSpecificData demoSerializer
        (PRSData.SetSRBAllocationGranularity
          { pHeader := [2], Desc := { Name := "R", SRBAllocationGranularity := 1, Body := [6] } }
          (demoInfo "R").SRBAllocationGranularity) [0, 7, 9]).2.2 ≠ []) ∧
    Event.verifyIsEndedFailed ∈
      (UnpackResourceSignatureImpl demoSerializer demoDearchiver emptyHeap (demoInfo "R")
        false).events :=
  ⟨by decide,
    (unpack_signature_residual_bytes_checked_not_fatal demoSerializer demoDearchiver emptyHeap
      (demoInfo "R") false 0 { pArchive := some demoArchive, CachedShaders := [] } demoArchive
      { pHeader := [2], Desc := { Name := "R", SRBAllocationGranularity := 1, Body := [6] } }
      [0, 7, 9] (Or.inr (by decide)) (by decide) rfl rfl (by decide) (by decide)
      (by decide)).2.2.1⟩

/-- C7: a construction error is propagated as it is.  When a call that does not
hit the cache reaches the factory and the factory produces no object for the
decoded description and internal data, the call returns the null result, the
heap is unchanged, and the factory was called exactly once. -/
theorem unpack_signature_construction_error_propagated {I : Type} (S : PRSSerializerType I)
    (self : DearchiverBase) (heap : ObjectHeap) (info : ResourceSignatureUnpackInfo I)
    (imp : Bool) (idx : Nat) (Archive : ArchiveData) (pArchive : DeviceObjectArchive)
    (PRS : PRSData) (Data : SerializedData)
    (hmiss : imp = true ∨ self.m_Cache.Sign.Get heap info.Name = none)
    (hidx : self.m_ResNameToArchiveIdx.Sign.lookup info.Name = some idx)
    (hat : self.m_Archives[idx]? = some Archive)
    (hptr : Archive.pArchive = some pArchive)
    (hload : pArchive.LoadResourceData info.Name = some PRS)
    (hdata : pArchive.GetDeviceSpecificData info.pDevice.ArchiveDeviceType PRS.pHeader =
      some Data)
    (hreject : info.pDevice.CreatePipelineResourceSignature
      (DecodeDeviceSpecificData S
        (PRS.SetSRBAllocationGranularity info.SRBAllocationGranularity) Data).1.Desc
      (DecodeDeviceSpecificData S
        (PRS.SetSRBAllocationGranularity info.SRBAllocationGranularity) Data).2.1 = false) :
    (UnpackResourceSignatureImpl S self heap info imp).outcome = Outcome.returned none ∧
    (UnpackResourceSignatureImpl S self heap info imp).heap = heap ∧
    (UnpackResourceSignatureImpl S self heap info imp).events.filter Event.isCreate =
      [Event.createSignature
        (DecodeDeviceSpecificData S
          (PRS.SetSRBAllocationGranularity info.SRBAllocationGranularity) Data).1.Desc
        (DecodeDeviceSpecificData S
          (PRS.SetSRBAllocationGranularity info.SRBAllocationGranularity) Data).2.1 none] ∧
    ((UnpackResourceSignatureImpl S self heap info imp).events.filter Event.isCreate).length =
      1 := by
  rw [UnpackResourceSignatureImpl_reaches_factory S self heap info imp idx Archive pArchive PRS
    Data hmiss hidx hat hptr hload hdata]
  obtain ⟨h1, _, h3, h4⟩ := CreateAndPublish_eq self heap info imp
    (DecodeDeviceSpecificData S
      (PRS.SetSRBAllocationGranularity info.SRBAllocationGranularity) Data)
    ((if imp then [] else [Event.cacheGet info.Name]) ++
      [Event.resolve info.Name, Event.archiveAt idx, Event.loadResourceData idx info.Name,
        Event.getDeviceSpecificData idx info.pDevice.ArchiveDeviceType])
  rw [hreject] at h1 h3 h4
  have hf : (CreateAndPublish self heap info imp
      (DecodeDeviceSpecificData S
        (PRS.SetSRBAllocationGranularity info.SRBAllocationGranularity) Data)
      ((if imp then [] else [Event.cacheGet info.Name]) ++
        [Event.resolve info.Name, Event.archiveAt idx, Event.loadResourceData idx info.Name,
          Event.getDeviceSpecificData idx info.pDevice.ArchiveDeviceType])).events.filter
        Event.isCreate =
      [Event.createSignature
        (DecodeDeviceSpecificData S
          (PRS.SetSRBAllocationGranularity info.SRBAllocationGranularity) Data).1.Desc
        (DecodeDeviceSpecificData S
          (PRS.SetSRBAllocationGranularity info.SRBAllocationGranularity) Data).2.1 none] := by
    rw [h4]
    cases imp <;>
      cases (DecodeDeviceSpecificData S
        (PRS.SetSRBAllocationGranularity info.SRBAllocationGranularity) Data).2.2 <;>
      simp [List.filter_cons, Event.isCreate]
  refine ⟨by simpa using h1, by simpa using h3, hf, ?_⟩
  rw [hf]
  rfl

/-- Witness of C7: signature "F" of the demo archive has internal data 0, which
the factory of the demo device rejects. -/
theorem unpack_signature_construction_error_propagated_witness :
    (demoInfo "F").pDevice.CreatePipelineResourceSignature
      (DecodeDeviceSpecificData demoSerializer
        (PRSData.SetSRBAllocationGranularity
          { pHeader := [3], Desc := { Name := "F", SRBAllocationGranularity := 1, Body := [7] } }
          (demoInfo "F").SRBAllocationGranularity) [0, 0]).1.Desc
      (DecodeDeviceSpecificData demoSerializer
        (PRSData.SetSRBAllocationGranularity
          { pHeader := [3], Desc := { Name := "F", SRBAllocationGranularity := 1, Body := [7] } }
          (demoInfo "F").SRBAllocationGranularity) [0, 0]).2.1 = false ∧
    (UnpackResourceSignatureImpl demoSerializer demoDearchiver emptyHeap (demoInfo "F")
      false).outcome = Outcome.returned none :=
  ⟨by decide,
    (unpack_signature_construction_error_propagated demoSerializer demoDearchiver emptyHeap
      (demoInfo "F") false 0 { pArchive := some demoArchive, CachedShaders := [] } demoArchive
      { pHeader := [3], Desc := { Name := "F", SRBAllocationGranularity := 1, Body := [7] } }
      [0, 0] (Or.inr (by decide)) (by decide) rfl rfl (by decide) (by decide)
      (by decide)).1⟩

/-- The archive path of an implicit call does not depend on the caches. -/
theorem UnpackFromArchive_implicit_cache_irrelevant {I : Type} (S : PRSSerializerType I)
    (self : DearchiverBase) (heap : ObjectHeap) (info : ResourceSignatureUnpackInfo I)
    (ev : List (Event I)) (cache : ResourceCache) :
    (UnpackFromArchive S { self with m_Cache := cache } heap info true ev).outcome =
      (UnpackFromArchive S self heap info true ev).outcome ∧
    (UnpackFromArchive S { self with m_Cache := cache } heap info true ev).heap =
      (UnpackFromArchive S self heap info true ev).heap ∧
    (UnpackFromArchive S { self with m_Cache := cache } heap info true ev).events =
      (UnpackFromArchive S self heap info true ev).events := by
  cases h1 : self.m_ResNameToArchiveIdx.Sign.lookup info.Name with
  | none => simp [UnpackFromArchive, h1]
  | some idx =>
    cases h2 : self.m_Archives[idx]? with
    | none => simp [UnpackFromArchive, h1, h2]
    | some Archive =>
      cases h3 : Archive.pArchive with
      | none => simp [UnpackFromArchive, h1, h2, h3]
      | some pArchive =>
        cases h4 : pArchive.LoadResourceData info.Name with
        | none => simp [UnpackFromArchive, h1, h2, h3, h4]
        | some PRS =>
          cases h5 : pArchive.GetDeviceSpecificData info.pDevice.ArchiveDeviceType
              (PRS.SetSRBAllocationGranularity info.SRBAllocationGranularity).pHeader with
          | none => simp [UnpackFromArchive, h1, h2, h3, h4, h5]
          | some Data => simp [UnpackFromArchive, h1, h2, h3, h4, h5, CreateAndPublish]

/-- An implicit call leaves the dearchiver as it was and neither reads nor
writes the signature cache. -/
theorem UnpackResourceSignatureImpl_implicit_frame {I : Type} (S : PRSSerializerType I)
    (self : DearchiverBase) (heap : ObjectHeap) (info : ResourceSignatureUnpackInfo I) :
    (UnpackResourceSignatureImpl S self heap info true).self = self ∧
    ∀ e ∈ (UnpackResourceSignatureImpl S self heap info true).events,
      e.isCacheGet = false ∧ e.isCacheSet = false := by
  rw [UnpackResourceSignatureImpl_implicit]
  rcases UnpackFromArchive_cases S self heap info true [] with
    ⟨ev1, he, hev⟩ | ⟨ev1, he, hev⟩ | ⟨decoded, ev1, he, hev⟩
  · rw [he]
    exact ⟨rfl, fun e hmem => ⟨(hev e (by simpa using hmem)).2.2, (hev e (by simpa using hmem)).2.1⟩⟩
  · rw [he]
    exact ⟨rfl, fun e hmem => ⟨(hev e (by simpa using hmem)).2.2, (hev e (by simpa using hmem)).2.1⟩⟩
  · rw [he]
    refine ⟨by simp [CreateAndPublish], ?_⟩
    intro e hmem
    rw [(CreateAndPublish_eq self heap info true decoded ([] ++ ev1)).2.2.2] at hmem
    simp only [List.nil_append, if_true, List.append_nil, List.mem_append,
      List.mem_singleton] at hmem
    rcases hmem with (hmem | hmem) | hmem
    · exact ⟨(hev e hmem).2.2, (hev e hmem).2.1⟩
    · split at hmem
      · simp at hmem
      · simp only [List.mem_singleton] at hmem
        subst hmem
        simp [Event.isCacheGet, Event.isCacheSet]
    · subst hmem
      simp [Event.isCacheGet, Event.isCacheSet]

/-- C8: implicit signatures never reuse a cached object.  An implicit call never
reads the signature cache, and its outcome, heap and recorded calls are the same
whatever the caches hold.  In particular, with a live object `o` cached under the
name, an implicit call whose name resolves, whose header and device-specific data
load and whose description the factory accepts, resolves the name, reads the
archive, calls the factory and returns the newly constructed object, which is
not `o`. -/
theorem unpack_implicit_signature_ignores_cache {I : Type} (S : PRSSerializerType I)
    (self : DearchiverBase) (heap : ObjectHeap) (info : ResourceSignatureUnpackInfo I) :
    (∀ e ∈ (UnpackResourceSignatureImpl S self heap info true).events,
      e.isCacheGet = false) ∧
    (∀ cache : ResourceCache,
      (UnpackResourceSignatureImpl S { self with m_Cache := cache } heap info true).outcome =
        (UnpackResourceSignatureImpl S self heap info true).outcome ∧
      (UnpackResourceSignatureImpl S { self with m_Cache := cache } heap info true).heap =
        (UnpackResourceSignatureImpl S self heap info true).heap ∧
      (UnpackResourceSignatureImpl S { self with m_Cache := cache } heap info true).events =
        (UnpackResourceSignatureImpl S self heap info true).events) ∧
    (∀ (idx : Nat) (Archive : ArchiveData) (pArchive : DeviceObjectArchive) (PRS : PRSData)
        (Data : SerializedData) (o : ObjId),
      self.m_Cache.Sign.Get heap info.Name = some o →
      o ∈ heap.live →
      heap.WellFormed →
      self.m_ResNameToArchiveIdx.Sign.lookup info.Name = some idx →
      self.m_Archives[idx]? = some Archive →
      Archive.pArchive = some pArchive →
      pArchive.LoadResourceData info.Name = some PRS →
      pArchive.GetDeviceSpecificData info.pDevice.ArchiveDeviceType PRS.pHeader = some Data →
      info.pDevice.CreatePipelineResourceSignature
        (DecodeDeviceSpecificData S
          (PRS.SetSRBAllocationGranularity info.SRBAllocationGranularity) Data).1.Desc
        (DecodeDeviceSpecificData S
          (PRS.SetSRBAllocationGranularity info.SRBAllocationGranularity) Data).2.1 = true →
      (UnpackResourceSignatureImpl S self heap info true).outcome =
        Outcome.returned (some heap.next) ∧
      heap.next ≠ o ∧
      heap.next ∉ heap.live ∧
      Event.resolve info.Name ∈ (UnpackResourceSignatureImpl S self heap info true).events ∧
      Event.loadResourceData idx info.Name ∈
        (UnpackResourceSignatureImpl S self heap info true).events ∧
      Event.getDeviceSpecificData idx info.pDevice.ArchiveDeviceType ∈
        (UnpackResourceSignatureImpl S self heap info true).events ∧
      Event.createSignature
        (DecodeDeviceSpecificData S
          (PRS.SetSRBAllocationGranularity info.SRBAllocationGranularity) Data).1.Desc
        (DecodeDeviceSpecificData S
          (PRS.SetSRBAllocationGranularity info.SRBAllocationGranularity) Data).2.1
        (some heap.next) ∈ (UnpackResourceSignatureImpl S self heap info true).events) := by
  refine ⟨fun e he => ((UnpackResourceSignatureImpl_implicit_frame S self heap info).2 e he).1,
    ?_, ?_⟩
  · intro cache
    rw [UnpackResourceSignatureImpl_implicit, UnpackResourceSignatureImpl_implicit]
    exact UnpackFromArchive_implicit_cache_irrelevant S self heap info [] cache
  · intro idx Archive pArchive PRS Data o _ holive hwf hidx hat hptr hload hdata hcreate
    have hfresh : heap.next ∉ heap.live := fun hmem => Nat.lt_irrefl _ (hwf _ hmem)
    rw [UnpackResourceSignatureImpl_reaches_factory S self heap info true idx Archive pArchive
      PRS Data (Or.inl rfl) hidx hat hptr hload hdata]
    obtain ⟨h1, _, _, h4⟩ := CreateAndPublish_eq self heap info true
      (DecodeDeviceSpecificData S
        (PRS.SetSRBAllocationGranularity info.SRBAllocationGranularity) Data)
      ((if true = true then [] else [Event.cacheGet info.Name]) ++
        [Event.resolve info.Name, Event.archiveAt idx, Event.loadResourceData idx info.Name,
          Event.getDeviceSpecificData idx info.pDevice.ArchiveDeviceType])
    rw [hcreate] at h1 h4
    refine ⟨by simpa using h1, fun e => hfresh (e ▸ holive), hfresh, ?_, ?_, ?_, ?_⟩ <;>
      rw [h4] <;> simp

/-- Witness of C8: object 0 is live and cached under "S"; the implicit unpack of
"S" returns the new object 1. -/
theorem unpack_implicit_signature_ignores_cache_witness :
    demoCachedDearchiver.m_Cache.Sign.Get demoCachedHeap (demoInfo "S").Name = some 0 ∧
    (UnpackResourceSignatureImpl demoSerializer demoCachedDearchiver demoCachedHeap
      (demoInfo "S") true).outcome = Outcome.returned (some demoCachedHeap.next) :=
  ⟨by decide,
    ((unpack_implicit_signature_ignores_cache demoSerializer demoCachedDearchiver
      demoCachedHeap (demoInfo "S")).2.2 0 { pArchive := some demoArchive, CachedShaders := [] }
      demoArchive
      { pHeader := [1], Desc := { Name := "S", SRBAllocationGranularity := 1, Body := [5] } }
      [0, 7] 0 (by decide) (by decide) (by unfold ObjectHeap.WellFormed; decide) (by decide)
      rfl rfl
      (by decide) (by decide) (by decide)).1⟩

/-- C9: implicit signatures are never cached.  Whatever the outcome of an
implicit call, the signature cache (indeed the whole dearchiver) after the call
equals the one before it, and the cache write is never called. -/
theorem unpack_implicit_signature_never_cached {I : Type} (S : PRSSerializerType I)
    (self : DearchiverBase) (heap : ObjectHeap) (info : ResourceSignatureUnpackInfo I) :
    (UnpackResourceSignatureImpl S self heap info true).self.m_Cache.Sign = self.m_Cache.Sign ∧
    (UnpackResourceSignatureImpl S self heap info true).self = self ∧
    (UnpackResourceSignatureImpl S self heap info true).events.filter Event.isCacheSet =
      [] := by
  obtain ⟨hself, hev⟩ := UnpackResourceSignatureImpl_implicit_frame S self heap info
  refine ⟨by rw [hself], hself, ?_⟩
  rw [List.filter_eq_nil_iff]
  intro e he
  simp [(hev e he).2]

/-- Writing another name leaves the entry of a name as it was. -/
theorem NamedResourceCache.lookup_Set_ne (c : NamedResourceCache) (Name other : String)
    (p : Option ObjId) (hne : other ≠ Name) :
    (c.Set other p).m_Map.lookup Name = c.m_Map.lookup Name := by
  have hfilter : ∀ m : List (String × Option ObjId),
      (m.filter (fun e => e.1 != other)).lookup Name = m.lookup Name := by
    intro m
    induction m with
    | nil => rfl
    | cons e m ih =>
      by_cases heq : e.1 = other
      · have hk : (Name == other) = false := beq_false_of_ne (fun h => hne h.symm)
        obtain ⟨k, v⟩ := e
        simp only at heq
        subst heq
        simp [List.filter_cons, List.lookup, hk, ih]
      · have hb : (e.1 != other) = true := by simpa using heq
        rw [List.filter_cons, if_pos hb]
        cases hk : (Name == e.1) with
        | true => simp [List.lookup, hk]
        | false => simp [List.lookup, hk, ih]
  have hk : (Name == other) = false := beq_false_of_ne (fun h => hne h.symm)
  simp only [NamedResourceCache.Set, List.lookup, hk]
  exact hfilter c.m_Map

/-- Writes under other names keep the entry of a name. -/
theorem NamedResourceCache.lookup_foldl_Set_ne (Name : String)
    (sets : List (String × Option ObjId)) (hne : ∀ op ∈ sets, op.1 ≠ Name)
    (c : NamedResourceCache) :
    (sets.foldl (fun acc op => acc.Set op.1 op.2) c).m_Map.lookup Name =
      c.m_Map.lookup Name := by
  induction sets generalizing c with
  | nil => rfl
  | cons op rest ih =>
    rw [List.foldl_cons, ih (fun x hx => hne x (List.mem_cons_of_mem _ hx)),
      NamedResourceCache.lookup_Set_ne c Name op.1 op.2 (hne op (List.mem_cons_self _ _))]

/-- A read misses when the map has no entry for the name. -/
theorem NamedResourceCache.Get_of_lookup_none (c : NamedResourceCache) (heap : ObjectHeap)
    (Name : String) (h : c.m_Map.lookup Name = none) : c.Get heap Name = none := by
  simp [NamedResourceCache.Get, h]

/-- A read misses when the object stored under the name is no longer live. -/
theorem NamedResourceCache.Get_of_not_live (c : NamedResourceCache) (heap : ObjectHeap)
    (Name : String) (o : ObjId) (h : c.m_Map.lookup Name = some (some o))
    (hdead : o ∉ heap.live) : c.Get heap Name = none := by
  simp [NamedResourceCache.Get, h, ObjectHeap.isAlive, hdead]

/-- C10: the Get/Set contract of the named resource cache.  After
`Set(Name, o)` on any cache (with or without a previous entry under the name),
`Get(Name)` returns `o` whenever `o` is live, also after later writes under
other names; once `o` is destroyed `Get(Name)` misses; and `Get(Name)` misses on
a cache without an entry for the name, such as one built from the empty cache
by writes under other names only. -/
theorem named_resource_cache_get_set_contract (c : NamedResourceCache) (heap : ObjectHeap)
    (Name : String) (o : ObjId) :
    (o ∈ heap.live → (c.Set Name (some o)).Get heap Name = some o) ∧
    (∀ (later : List (String × Option ObjId)) (heap2 : ObjectHeap),
      (∀ op ∈ later, op.1 ≠ Name) → o ∈ heap2.live →
      (later.foldl (fun acc op => acc.Set op.1 op.2) (c.Set Name (some o))).Get heap2 Name =
        some o) ∧
    (c.Set Name (some o)).Get (heap.release o) Name = none ∧
    (∀ heap2 : ObjectHeap, o ∉ heap2.live → (c.Set Name (some o)).Get heap2 Name = none) ∧
    (∀ sets : List (String × Option ObjId), (∀ op ∈ sets, op.1 ≠ Name) →
      (sets.foldl (fun acc op => acc.Set op.1 op.2)
        (NamedResourceCache.mk [])).Get heap Name = none) ∧
    (c.m_Map.lookup Name = none → c.Get heap Name = none) := by
  refine ⟨NamedResourceCache.Get_Set_alive c heap Name o, ?_, ?_, ?_, ?_,
    NamedResourceCache.Get_of_lookup_none c heap Name⟩
  · intro later heap2 hne hlive
    refine (NamedResourceCache.Get_eq_some_iff _ _ _ _).2 ⟨?_, hlive⟩
    rw [NamedResourceCache.lookup_foldl_Set_ne Name later hne, NamedResourceCache.lookup_Set]
  · refine NamedResourceCache.Get_of_not_live _ _ _ o (NamedResourceCache.lookup_Set c Name _) ?_
    simp [ObjectHeap.release]
  · intro heap2 hdead
    exact NamedResourceCache.Get_of_not_live _ _ _ o (NamedResourceCache.lookup_Set c Name _)
      hdead
  · intro sets hne
    refine NamedResourceCache.Get_of_lookup_none _ _ _ ?_
    rw [NamedResourceCache.lookup_foldl_Set_ne Name sets hne]
    rfl

/-- Witness of C10: "S" holds the stale object 5; after `Set("S", 0)` with object
0 live, `Get("S")` returns object 0. -/
theorem named_resource_cache_get_set_contract_witness :
    (0 ∈ demoCachedHeap.live) ∧
    (NamedResourceCache.Set { m_Map := [("S", some 5)] } "S" (some 0)).Get demoCachedHeap "S" =
      some 0 :=
  ⟨by decide,
    (named_resource_cache_get_set_contract { m_Map := [("S", some 5)] } demoCachedHeap "S"
      0).1 (by decide)⟩

/-- C11: `Clear` drops all entries.  For every cache, heap and name, the cache
left by `Clear()` has an empty map and `Get(Name)` on it misses. -/
theorem named_resource_cache_clear_drops_all (c : NamedResourceCache) (heap : ObjectHeap)
    (Name : String) :
    c.Clear.m_Map = [] ∧ c.Clear.Get heap Name = none := by
  constructor
  · rfl
  · simp [NamedResourceCache.Clear, NamedResourceCache.Get]

/-- C16: a stale cache entry is not binding.  When the cache read of a
non-implicit call misses (as it does once the object cached under the name has
lost its last strong reference), the name resolves, header and device-specific
data load and the factory accepts the decoded description, the call does not
fail: it calls the factory exactly once and returns the newly constructed
object, which is live, is none of the objects constructed before, and is
written to the cache under the name. -/
theorem unpack_signature_stale_entry_rebuilds {I : Type} (S : PRSSerializerType I)
    (self : DearchiverBase) (heap : ObjectHeap) (info : ResourceSignatureUnpackInfo I)
    (idx : Nat) (Archive : ArchiveData) (pArchive : DeviceObjectArchive) (PRS : PRSData)
    (Data : SerializedData)
    (hmiss : self.m_Cache.Sign.Get heap info.Name = none)
    (hidx : self.m_ResNameToArchiveIdx.Sign.lookup info.Name = some idx)
    (hat : self.m_Archives[idx]? = some Archive)
    (hptr : Archive.pArchive = some pArchive)
    (hload : pArchive.LoadResourceData info.Name = some PRS)
    (hdata : pArchive.GetDeviceSpecificData info.pDevice.ArchiveDeviceType PRS.pHeader =
      some Data)
    (hcreate : info.pDevice.CreatePipelineResourceSignature
      (DecodeDeviceSpecificData S
        (PRS.SetSRBAllocationGranularity info.SRBAllocationGranularity) Data).1.Desc
      (DecodeDeviceSpecificData S
        (PRS.SetSRBAllocationGranularity info.SRBAllocationGranularity) Data).2.1 = true) :
    (UnpackResourceSignatureImpl S self heap info false).outcome =
      Outcome.returned (some heap.next) ∧
    (∀ o : ObjId, o < heap.next → heap.next ≠ o) ∧
    heap.next ∈ (UnpackResourceSignatureImpl S self heap info false).heap.live ∧
    ((UnpackResourceSignatureImpl S self heap info false).events.filter Event.isCreate).length =
      1 ∧
    (UnpackResourceSignatureImpl S self heap info false).self.m_Cache.Sign =
      self.m_Cache.Sign.Set info.Name (some heap.next) := by
  rw [UnpackResourceSignatureImpl_reaches_factory S self heap info false idx Archive pArchive
    PRS Data (Or.inr hmiss) hidx hat hptr hload hdata]
  obtain ⟨h1, h2, h3, h4⟩ := CreateAndPublish_eq self heap info false
    (DecodeDeviceSpecificData S
      (PRS.SetSRBAllocationGranularity info.SRBAllocationGranularity) Data)
    ((if false = true then [] else [Event.cacheGet info.Name]) ++
      [Event.resolve info.Name, Event.archiveAt idx, Event.loadResourceData idx info.Name,
        Event.getDeviceSpecificData idx info.pDevice.ArchiveDeviceType])
  rw [hcreate] at h1 h2 h3 h4
  refine ⟨by simpa using h1, fun o hold e => Nat.lt_irrefl _ (e ▸ hold), ?_, ?_, ?_⟩
  · rw [h3]
    simp [ObjectHeap.construct]
  · rw [h4]
    cases (DecodeDeviceSpecificData S
      (PRS.SetSRBAllocationGranularity info.SRBAllocationGranularity) Data).2.2 <;>
      simp [List.filter_cons, Event.isCreate]
  · rw [h2]
    simp

/-- Witness of C16: object 0 is cached under "S" and destroyed; the unpack of
"S" returns the new object 1. -/
theorem unpack_signature_stale_entry_rebuilds_witness :
    (demoCachedDearchiver.m_Cache.Sign.m_Map.lookup (demoInfo "S").Name = some (some 0) ∧
      0 ∉ demoStaleHeap.live ∧
      demoCachedDearchiver.m_Cache.Sign.Get demoStaleHeap (demoInfo "S").Name = none) ∧
    (UnpackResourceSignatureImpl demoSerializer demoCachedDearchiver demoStaleHeap
      (demoInfo "S") false).outcome = Outcome.returned (some 1) :=
  ⟨by decide,
    (unpack_signature_stale_entry_rebuilds demoSerializer demoCachedDearchiver demoStaleHeap
      (demoInfo "S") 0 { pArchive := some demoArchive, CachedShaders := [] } demoArchive
      { pHeader := [1], Desc := { Name := "S", SRBAllocationGranularity := 1, Body := [5] } }
      [0, 7] (by decide) (by decide) rfl rfl (by decide) (by decide) (by decide)).1⟩

/-- With the special-description flag set, the decoded description does not
depend on the granularity stored at line 261: line 276 resets the description
before the variant is decoded. -/
theorem DecodeDeviceSpecificData_special_ignores_granularity {I : Type}
    (S : PRSSerializerType I) (PRS : PRSData) (Data : SerializedData) (g1 g2 : Nat)
    (hflag : (S.ReadBool Data).1 = true) :
    DecodeDeviceSpecificData S (PRS.SetSRBAllocationGranularity g1) Data =
      DecodeDeviceSpecificData S (PRS.SetSRBAllocationGranularity g2) Data := by
  simp [DecodeDeviceSpecificData, hflag, PRSData.SetSRBAllocationGranularity]

/-- With the special-description flag clear, the decoded description carries
the granularity stored at line 261. -/
theorem DecodeDeviceSpecificData_common_keeps_granularity {I : Type}
    (S : PRSSerializerType I) (PRS : PRSData) (Data : SerializedData) (g : Nat)
    (hflag : (S.ReadBool Data).1 = false) :
    (DecodeDeviceSpecificData S (PRS.SetSRBAllocationGranularity g) Data).1.Desc.SRBAllocationGranularity =
      g := by
  simp [DecodeDeviceSpecificData, hflag, PRSData.SetSRBAllocationGranularity]

/-- C20, the code at a failing input: signature "V" of `demoSpecialDearchiver`
has the special-description flag set and the caller asks for granularity 4.
The call succeeds with the new object 0, but the description handed to the
factory has granularity 1, the value of the reset description, not 4; a caller
asking for granularity 9 gets the same description. -/
theorem unpack_signature_special_desc_loses_granularity :
    (demoInfo "V").SRBAllocationGranularity = 4 ∧
    (UnpackResourceSignatureImpl demoSerializer demoSpecialDearchiver emptyHeap (demoInfo "V")
      false).outcome = Outcome.returned (some 0) ∧
    (UnpackResourceSignatureImpl demoSerializer demoSpecialDearchiver emptyHeap (demoInfo "V")
      false).events.filter Event.isCreate =
      [Event.createSignature { Name := "V", SRBAllocationGranularity := 1, Body := [42] } 7
        (some 0)] ∧
    (UnpackResourceSignatureImpl demoSerializer demoSpecialDearchiver emptyHeap
      { pDevice := demoDevice, Name := "V", SRBAllocationGranularity := 9 }
      false).events.filter Event.isCreate =
      [Event.createSignature { Name := "V", SRBAllocationGranularity := 1, Body := [42] } 7
        (some 0)] := by
  decide

/-- The two adapter requests yield at most two adapters. -/
theorem FindCompatibleAdapters_length_le (HighPerformance LowPower : AdapterRequest) :
    (FindCompatibleAdapters (PowerPreferenceRequests HighPerformance LowPower)).length ≤ 2 := by
  unfold FindCompatibleAdapters PowerPreferenceRequests
  simp only [List.foldl_cons, List.foldl_nil, List.any_nil, Bool.false_eq_true, if_false,
    List.nil_append]
  split_ifs <;> simp

/-- The write loop stays in range when `Count` does not exceed the number of
adapters: it writes the infos of the first `Count` adapters and nothing else. -/
theorem WriteAdapterInfos_spec {α : Type} (GetGraphicsAdapterInfo : WGPUAdapter → α)
    (wgpuAdapters : List WGPUAdapter) (Array : Nat → α) (Count : Nat)
    (hle : Count ≤ wgpuAdapters.length) :
    ∃ Written : Nat → α,
      WriteAdapterInfos GetGraphicsAdapterInfo wgpuAdapters Count Array = some Written ∧
      (∀ i, i < Count → ∃ a, wgpuAdapters[i]? = some a ∧
        Written i = GetGraphicsAdapterInfo a) ∧
      (∀ i, Count ≤ i → Written i = Array i) := by
  induction Count with
  | zero => exact ⟨Array, rfl, fun i hi => absurd hi (Nat.not_lt_zero i), fun _ _ => rfl⟩
  | succ k ih =>
    obtain ⟨W, hW, hlow, hhigh⟩ := ih (Nat.le_of_succ_le hle)
    have hk : k < wgpuAdapters.length := hle
    refine ⟨Function.update W k (GetGraphicsAdapterInfo wgpuAdapters[k]), ?_, ?_, ?_⟩
    · simp [WriteAdapterInfos, hW, List.getElem?_eq_getElem hk]
    · intro i hi
      by_cases hik : i = k
      · subst hik
        exact ⟨wgpuAdapters[i], List.getElem?_eq_getElem hk, by simp⟩
      · have hlt : i < k := Nat.lt_of_le_of_ne (Nat.le_of_lt_succ hi) hik
        obtain ⟨a, ha, hWa⟩ := hlow i hlt
        exact ⟨a, ha, by rw [Function.update_noteq hik]; exact hWa⟩
    · intro i hi
      have hik : i ≠ k := fun e => Nat.lt_irrefl k (e ▸ hi)
      rw [Function.update_noteq hik]
      exact hhigh i (Nat.le_of_succ_le hi)

/-- C17: the count contract of `EnumerateAdapters`.  With a WebGPU instance and
`n` compatible adapters found: when `Adapters` is null the call returns with
`NumAdapters = n` and no array; otherwise it returns with
`NumAdapters = min(NumAdapters_in, n)`, every entry below the new `NumAdapters`
holds the info of the found adapter of that index, and every entry at or
beyond it is left as it was. -/
theorem enumerate_adapters_count_contract {α : Type}
    (GetGraphicsAdapterInfo : WGPUAdapter → α) (wgpuInstance : Nat)
    (HighPerformance LowPower : AdapterRequest) (NumAdapters : Nat) :
    EnumerateAdapters GetGraphicsAdapterInfo (some wgpuInstance) HighPerformance LowPower
        NumAdapters none =
      EnumerateOutcome.returned
        (FindCompatibleAdapters (PowerPreferenceRequests HighPerformance LowPower)).length
        none ∧
    ∀ Array : Nat → α, ∃ Written : Nat → α,
      EnumerateAdapters GetGraphicsAdapterInfo (some wgpuInstance) HighPerformance LowPower
          NumAdapters (some Array) =
        EnumerateOutcome.returned
          (min NumAdapters
            (FindCompatibleAdapters (PowerPreferenceRequests HighPerformance LowPower)).length)
          (some Written) ∧
      (∀ i, i < min NumAdapters
          (FindCompatibleAdapters (PowerPreferenceRequests HighPerformance LowPower)).length →
        ∃ a, (FindCompatibleAdapters
            (PowerPreferenceRequests HighPerformance LowPower))[i]? = some a ∧
          Written i = GetGraphicsAdapterInfo a) ∧
      (∀ i, min NumAdapters
          (FindCompatibleAdapters (PowerPreferenceRequests HighPerformance LowPower)).length ≤
          i → Written i = Array i) := by
  have hlen := FindCompatibleAdapters_length_le HighPerformance LowPower
  have hmod : (FindCompatibleAdapters
      (PowerPreferenceRequests HighPerformance LowPower)).length % 4294967296 =
      (FindCompatibleAdapters (PowerPreferenceRequests HighPerformance LowPower)).length :=
    Nat.mod_eq_of_lt (by omega)
  constructor
  · simp [EnumerateAdapters, hmod]
  · intro Array
    obtain ⟨W, hW, hlow, hhigh⟩ := WriteAdapterInfos_spec GetGraphicsAdapterInfo
      (FindCompatibleAdapters (PowerPreferenceRequests HighPerformance LowPower)) Array
      (min NumAdapters
        (FindCompatibleAdapters (PowerPreferenceRequests HighPerformance LowPower)).length)
      (Nat.min_le_right _ _)
    exact ⟨W, by simp [EnumerateAdapters, hmod, hW], hlow, hhigh⟩

/-- Witness of C17: both requests succeed with different adapters; with a null
array the call reports two adapters. -/
theorem enumerate_adapters_count_contract_witness :
    EnumerateAdapters (fun a : WGPUAdapter => a + 100) (some 1) { Success := true, Adapter := 10 }
        { Success := true, Adapter := 20 } 5 none =
      EnumerateOutcome.returned 2 none :=
  (enumerate_adapters_count_contract (fun a : WGPUAdapter => a + 100) 1
    { Success := true, Adapter := 10 } { Success := true, Adapter := 20 } 5).1

/-- What line 78-86 computes: equality of the four members. -/
theorem stencil_face_operator_eq_iff (LHS RHS : WGPUStencilFaceState) :
    LHS.operator_eq RHS = true ↔ LHS = RHS := by
  cases LHS
  cases RHS
  simp [WGPUStencilFaceState.operator_eq, and_assoc]

/-- What lines 88-102 compute: agreement on every member but `stencilBack`, and
`LHS.stencilBack` equal to `RHS.stencilFront`. -/
theorem depth_stencil_operator_eq_iff (LHS RHS : WGPUDepthStencilState) :
    LHS.operator_eq RHS = true ↔
      LHS.format = RHS.format ∧ LHS.depthWriteEnabled = RHS.depthWriteEnabled ∧
      LHS.depthCompare = RHS.depthCompare ∧ LHS.stencilFront = RHS.stencilFront ∧
      LHS.stencilBack = RHS.stencilFront ∧ LHS.stencilReadMask = RHS.stencilReadMask ∧
      LHS.stencilWriteMask = RHS.stencilWriteMask ∧ LHS.depthBias = RHS.depthBias ∧
      LHS.depthBiasSlopeScale = RHS.depthBiasSlopeScale ∧
      LHS.depthBiasClamp = RHS.depthBiasClamp := by
  simp [WGPUDepthStencilState.operator_eq, stencil_face_operator_eq_iff, and_assoc]

/-- With no compatible adapter and the default adapter id, line 398 reads
`Adapters[0]` of an empty list. -/
theorem CreateDeviceAndContextsWebGPU_default_of_empty (DEFAULT_ADAPTER_ID : Nat)
    (CreateDeviceForAdapter : WGPUAdapter → Option Nat)
    (AttachToWebGPUDevice : WGPUAdapter → Nat → Option Nat × Option Nat)
    (wgpuInstance : Nat) (HighPerformance LowPower : AdapterRequest)
    (hempty : FindCompatibleAdapters (PowerPreferenceRequests HighPerformance LowPower) = []) :
    CreateDeviceAndContextsWebGPU DEFAULT_ADAPTER_ID CreateDeviceForAdapter AttachToWebGPUDevice
        (some wgpuInstance) HighPerformance LowPower DEFAULT_ADAPTER_ID true true =
      CreateDeviceOutcome.adapterIndexOutOfRange 0 0 := by
  simp [CreateDeviceAndContextsWebGPU, hempty]

/-- With an explicit adapter id, or with at least one compatible adapter, the
adapter list is never indexed out of range. -/
theorem CreateDeviceAndContextsWebGPU_in_range (DEFAULT_ADAPTER_ID : Nat)
    (CreateDeviceForAdapter : WGPUAdapter → Option Nat)
    (AttachToWebGPUDevice : WGPUAdapter → Nat → Option Nat × Option Nat)
    (wgpuInstance : Option Nat) (HighPerformance LowPower : AdapterRequest)
    (AdapterId : Nat) (ppDevice ppImmediateContext : Bool)
    (h : AdapterId ≠ DEFAULT_ADAPTER_ID ∨
      FindCompatibleAdapters (PowerPreferenceRequests HighPerformance LowPower) ≠ [])
    (i size : Nat) :
    CreateDeviceAndContextsWebGPU DEFAULT_ADAPTER_ID CreateDeviceForAdapter AttachToWebGPUDevice
        wgpuInstance HighPerformance LowPower AdapterId ppDevice ppImmediateContext ≠
      CreateDeviceOutcome.adapterIndexOutOfRange i size := by
  unfold CreateDeviceAndContextsWebGPU
  split
  · simp
  · cases wgpuInstance with
    | none => simp
    | some inst =>
      simp only
      by_cases hid : AdapterId = DEFAULT_ADAPTER_ID
      · have hne : FindCompatibleAdapters
            (PowerPreferenceRequests HighPerformance LowPower) ≠ [] := by
          rcases h with h | h
          · exact absurd hid h
          · exact h
        cases hl : FindCompatibleAdapters (PowerPreferenceRequests HighPerformance LowPower) with
        | nil => exact absurd hl hne
        | cons a rest =>
          simp only [hid, bne_self_eq_false, Bool.false_eq_true, if_false, List.getElem?_cons_zero]
          cases CreateDeviceForAdapter a <;> simp
      · have hb : (AdapterId != DEFAULT_ADAPTER_ID) = true := by simpa using hid
        simp only [hb, if_true]
        by_cases hlt : AdapterId <
            (FindCompatibleAdapters (PowerPreferenceRequests HighPerformance LowPower)).length
        · simp only [hlt, if_true, List.getElem?_eq_getElem hlt]
          cases CreateDeviceForAdapter
            (FindCompatibleAdapters
              (PowerPreferenceRequests HighPerformance LowPower))[AdapterId] <;> simp
        · simp [hlt]

/-- C19, the code at a failing input: both adapter requests fail, so the list of
compatible adapters is empty, and `EngineCI.AdapterId` is `DEFAULT_ADAPTER_ID`
(here 4294967295).  The routine reads `Adapters[0]` of the empty list instead of
reporting an error. -/
theorem create_device_default_adapter_out_of_range :
    FindCompatibleAdapters
      (PowerPreferenceRequests { Success := false, Adapter := 0 }
        { Success := false, Adapter := 0 }) = [] ∧
    CreateDeviceAndContextsWebGPU 4294967295 (fun _ => some 1) (fun _ _ => (some 1, some 2))
        (some 1) { Success := false, Adapter := 0 } { Success := false, Adapter := 0 }
        4294967295 true true =
      CreateDeviceOutcome.adapterIndexOutOfRange 0 0 := by
  decide

/-- Adding names keeps every entry the map already has. -/
theorem AddArchiveNames_lookup_of_some (Names : List String) (ArchiveIdx : Nat)
    (Map : NameToArchiveIdxMapType) (Name : String) (idx : Nat)
    (h : Map.lookup Name = some idx) :
    (AddArchiveNames Map Names ArchiveIdx).lookup Name = some idx := by
  induction Names generalizing Map with
  | nil => exact h
  | cons n rest ih =>
    unfold AddArchiveNames
    rw [List.foldl_cons]
    apply ih
    cases hn : Map.lookup n with
    | some _ => exact h
    | none => simp [List.lookup_append, h]

/-- Adding names leaves a name that is not among them as it was. -/
theorem AddArchiveNames_lookup_of_not_mem (Names : List String) (ArchiveIdx : Nat)
    (Map : NameToArchiveIdxMapType) (Name : String) (h : Name ∉ Names) :
    (AddArchiveNames Map Names ArchiveIdx).lookup Name = Map.lookup Name := by
  induction Names generalizing Map with
  | nil => rfl
  | cons n rest ih =>
    unfold AddArchiveNames
    rw [List.foldl_cons]
    have hne : Name ≠ n := fun e => h (e ▸ List.mem_cons_self _ _)
    have hrest : Name ∉ rest := fun hm => h (List.mem_cons_of_mem _ hm)
    have hstep := ih (match Map.lookup n with
      | some _ => Map
      | none => Map ++ [(n, ArchiveIdx)]) hrest
    unfold AddArchiveNames at hstep
    rw [hstep]
    cases hn : Map.lookup n with
    | some _ => rfl
    | none =>
      have hb : (Name == n) = false := beq_false_of_ne hne
      simp [List.lookup_append, List.lookup, hb]

/-- A name among the added ones that the map did not have gets the new index. -/
theorem AddArchiveNames_lookup_of_mem (Names : List String) (ArchiveIdx : Nat)
    (Map : NameToArchiveIdxMapType) (Name : String) (hnone : Map.lookup Name = none)
    (hmem : Name ∈ Names) :
    (AddArchiveNames Map Names ArchiveIdx).lookup Name = some ArchiveIdx := by
  induction Names generalizing Map with
  | nil => exact absurd hmem (List.not_mem_nil _)
  | cons n rest ih =>
    by_cases hn : Name = n
    · subst hn
      have hstep := AddArchiveNames_lookup_of_some rest ArchiveIdx
        (Map ++ [(Name, ArchiveIdx)]) Name ArchiveIdx
        (by simp [List.lookup_append, hnone, List.lookup])
      unfold AddArchiveNames at hstep ⊢
      rw [List.foldl_cons]
      simpa [hnone] using hstep
    · have hrest : Name ∈ rest := by
        rcases List.mem_cons.1 hmem with h | h
        · exact absurd h hn
        · exact h
      have hb : (Name == n) = false := beq_false_of_ne hn
      have hstep := ih (match Map.lookup n with
        | some _ => Map
        | none => Map ++ [(n, ArchiveIdx)])
        (by
          cases hl : Map.lookup n with
          | some _ => exact hnone
          | none => simp [List.lookup_append, hnone, List.lookup, hb]) hrest
      unfold AddArchiveNames at hstep ⊢
      rw [List.foldl_cons]
      exact hstep

/-- C12: first-loaded-wins.  Load archive `A1`, which defines the signature name
and is the first to do so, then any archive `A2` (in particular one that defines
the same name).  Both loads succeed; the resolution table maps the name to the
index of `A1`, where `A1` is stored, and maps every name of `A2` that neither
`A1` nor an earlier archive has to the index of `A2`.  On the loaded dearchiver,
whatever the caches hold, a signature unpack of the name that does not hit the
cache reads `A1` and calls the factory with the description and internal data
decoded from the data of `A1`. -/
theorem load_archive_first_loaded_wins {I : Type} (S : PRSSerializerType I)
    (self : DearchiverBase) (A1 A2 : DeviceObjectArchive)
    (info : ResourceSignatureUnpackInfo I)
    (hnew : self.m_ResNameToArchiveIdx.Sign.lookup info.Name = none)
    (h1 : info.Name ∈ A1.ResourceMap.Sign) :
    ((self.LoadArchive (some A1)).1 = true ∧
      ((self.LoadArchive (some A1)).2.LoadArchive (some A2)).1 = true) ∧
    ((self.LoadArchive (some A1)).2.LoadArchive (some A2)).2.m_ResNameToArchiveIdx.Sign.lookup
      info.Name = some self.m_Archives.length ∧
    ((self.LoadArchive (some A1)).2.LoadArchive (some A2)).2.m_Archives[self.m_Archives.length]? =
      some { pArchive := some A1, CachedShaders := [] } ∧
    ((self.LoadArchive (some A1)).2.LoadArchive (some A2)).2.m_Archives[
      self.m_Archives.length + 1]? = some { pArchive := some A2, CachedShaders := [] } ∧
    (∀ Name : String, Name ∈ A2.ResourceMap.Sign → Name ∉ A1.ResourceMap.Sign →
      self.m_ResNameToArchiveIdx.Sign.lookup Name = none →
      ((self.LoadArchive (some A1)).2.LoadArchive (some A2)).2.m_ResNameToArchiveIdx.Sign.lookup
        Name = some (self.m_Archives.length + 1)) ∧
    (∀ (cache : ResourceCache) (heap : ObjectHeap) (imp : Bool) (PRS : PRSData)
        (Data : SerializedData),
      (imp = true ∨ cache.Sign.Get heap info.Name = none) →
      A1.LoadResourceData info.Name = some PRS →
      A1.GetDeviceSpecificData info.pDevice.ArchiveDeviceType PRS.pHeader = some Data →
      (UnpackResourceSignatureImpl S
          { ((self.LoadArchive (some A1)).2.LoadArchive (some A2)).2 with m_Cache := cache }
          heap info imp).outcome =
        Outcome.returned
          (if info.pDevice.CreatePipelineResourceSignature
              (DecodeDeviceSpecificData S
                (PRS.SetSRBAllocationGranularity info.SRBAllocationGranularity) Data).1.Desc
              (DecodeDeviceSpecificData S
                (PRS.SetSRBAllocationGranularity info.SRBAllocationGranularity) Data).2.1
            then some heap.next else none) ∧
      Event.loadResourceData self.m_Archives.length info.Name ∈
        (UnpackResourceSignatureImpl S
          { ((self.LoadArchive (some A1)).2.LoadArchive (some A2)).2 with m_Cache := cache }
          heap info imp).events ∧
      (UnpackResourceSignatureImpl S
          { ((self.LoadArchive (some A1)).2.LoadArchive (some A2)).2 with m_Cache := cache }
          heap info imp).events.filter Event.isCreate =
        [Event.createSignature
          (DecodeDeviceSpecificData S
            (PRS.SetSRBAllocationGranularity info.SRBAllocationGranularity) Data).1.Desc
          (DecodeDeviceSpecificData S
            (PRS.SetSRBAllocationGranularity info.SRBAllocationGranularity) Data).2.1
          (if info.pDevice.CreatePipelineResourceSignature
              (DecodeDeviceSpecificData S
                (PRS.SetSRBAllocationGranularity info.SRBAllocationGranularity) Data).1.Desc
              (DecodeDeviceSpecificData S
                (PRS.SetSRBAllocationGranularity info.SRBAllocationGranularity) Data).2.1
            then some heap.next else none)]) := by
  have hlook : ((self.LoadArchive (some A1)).2.LoadArchive
      (some A2)).2.m_ResNameToArchiveIdx.Sign.lookup info.Name = some self.m_Archives.length := by
    simp only [DearchiverBase.LoadArchive]
    exact AddArchiveNames_lookup_of_some _ _ _ _ _
      (AddArchiveNames_lookup_of_mem _ _ _ _ hnew h1)
  have hat : ((self.LoadArchive (some A1)).2.LoadArchive
      (some A2)).2.m_Archives[self.m_Archives.length]? =
      some { pArchive := some A1, CachedShaders := [] } := by
    simp only [DearchiverBase.LoadArchive, List.append_assoc]
    rw [List.getElem?_append_right (Nat.le_refl _)]
    simp
  refine ⟨⟨rfl, rfl⟩, hlook, hat, ?_, ?_, ?_⟩
  · simp only [DearchiverBase.LoadArchive, List.append_assoc]
    rw [List.getElem?_append_right (Nat.le_add_right _ _)]
    simp
  · intro Name hN2 hN1 hNnew
    simp only [DearchiverBase.LoadArchive, List.length_append, List.length_singleton]
    exact AddArchiveNames_lookup_of_mem _ _ _ _
      (by rw [AddArchiveNames_lookup_of_not_mem _ _ _ _ hN1]; exact hNnew) hN2
  · intro cache heap imp PRS Data hmiss hload hdata
    rw [UnpackResourceSignatureImpl_reaches_factory S
      { ((self.LoadArchive (some A1)).2.LoadArchive (some A2)).2 with m_Cache := cache }
      heap info imp self.m_Archives.length
      { pArchive := some A1, CachedShaders := [] } A1 PRS Data hmiss hlook hat rfl hload hdata]
    obtain ⟨e1, _, _, e4⟩ := CreateAndPublish_eq
      { ((self.LoadArchive (some A1)).2.LoadArchive (some A2)).2 with m_Cache := cache }
      heap info imp
      (DecodeDeviceSpecificData S
        (PRS.SetSRBAllocationGranularity info.SRBAllocationGranularity) Data)
      ((if imp then [] else [Event.cacheGet info.Name]) ++
        [Event.resolve info.Name, Event.archiveAt self.m_Archives.length,
          Event.loadResourceData self.m_Archives.length info.Name,
          Event.getDeviceSpecificData self.m_Archives.length info.pDevice.ArchiveDeviceType])
    refine ⟨e1, ?_, ?_⟩
    · rw [e4]
      simp
    · rw [e4]
      cases imp <;>
        cases (DecodeDeviceSpecificData S
          (PRS.SetSRBAllocationGranularity info.SRBAllocationGranularity) Data).2.2 <;>
        simp [List.filter_cons, Event.isCreate]

/-- Witness of C12: `demoArchiveFirst` and `demoArchiveSecond` both define "S";
after loading them in this order into an empty dearchiver, "S" maps to index 0. -/
theorem load_archive_first_loaded_wins_witness :
    (emptyDearchiver.m_ResNameToArchiveIdx.Sign.lookup (demoInfo "S").Name = none ∧
      (demoInfo "S").Name ∈ demoArchiveFirst.ResourceMap.Sign ∧
      (demoInfo "S").Name ∈ demoArchiveSecond.ResourceMap.Sign) ∧
    ((emptyDearchiver.LoadArchive (some demoArchiveFirst)).2.LoadArchive
      (some demoArchiveSecond)).2.m_ResNameToArchiveIdx.Sign.lookup (demoInfo "S").Name =
      some emptyDearchiver.m_Archives.length :=
  ⟨by decide,
    (load_archive_first_loaded_wins demoSerializer emptyDearchiver demoArchiveFirst
      demoArchiveSecond (demoInfo "S") (by decide) (by decide)).2.1⟩

/-- C13: `Reset` empties the dearchiver.  After `Reset()` every cache is empty,
no archive is loaded and every map of the resolution table is empty; a signature
unpack of any name, implicit or not, then returns the null result without
calling the factory and leaves the dearchiver empty. -/
theorem reset_empties_dearchiver {I : Type} (S : PRSSerializerType I) (self : DearchiverBase)
    (heap : ObjectHeap) (info : ResourceSignatureUnpackInfo I) (imp : Bool) :
    (self.Reset.m_Cache.Sign.m_Map = [] ∧ self.Reset.m_Cache.RenderPass.m_Map = [] ∧
      self.Reset.m_Cache.GraphPSO.m_Map = [] ∧ self.Reset.m_Cache.CompPSO.m_Map = [] ∧
      self.Reset.m_Cache.TilePSO.m_Map = [] ∧ self.Reset.m_Cache.RayTrPSO.m_Map = []) ∧
    self.Reset.m_Archives = [] ∧
    (self.Reset.m_ResNameToArchiveIdx.Sign = [] ∧
      self.Reset.m_ResNameToArchiveIdx.RenderPass = [] ∧
      self.Reset.m_ResNameToArchiveIdx.GraphPSO = [] ∧
      self.Reset.m_ResNameToArchiveIdx.CompPSO = [] ∧
      self.Reset.m_ResNameToArchiveIdx.TilePSO = [] ∧
      self.Reset.m_ResNameToArchiveIdx.RayTrPSO = []) ∧
    (UnpackResourceSignatureImpl S self.Reset heap info imp).outcome = Outcome.returned none ∧
    (UnpackResourceSignatureImpl S self.Reset heap info imp).self = self.Reset ∧
    (UnpackResourceSignatureImpl S self.Reset heap info imp).events.filter Event.isCreate =
      [] := by
  refine ⟨⟨rfl, rfl, rfl, rfl, rfl, rfl⟩, rfl, ⟨rfl, rfl, rfl, rfl, rfl, rfl⟩, ?_⟩
  have hres : self.Reset.m_ResNameToArchiveIdx.Sign.lookup info.Name = none := rfl
  have hget : self.Reset.m_Cache.Sign.Get heap info.Name = none := by
    simp [DearchiverBase.Reset, NamedResourceCache.Clear, NamedResourceCache.Get]
  cases imp with
  | true =>
    rw [UnpackResourceSignatureImpl_implicit,
      UnpackFromArchive_not_found S self.Reset heap info _ _ hres]
    simp [Event.isCreate]
  | false =>
    rw [UnpackResourceSignatureImpl_miss S self.Reset heap info hget,
      UnpackFromArchive_not_found S self.Reset heap info _ _ hres]
    simp [Event.isCreate]

/-- The element written by `SetPadded` is found at its index. -/
theorem SetPadded_getElem_self {α : Type} (pad : α) (l : List α) (n : Nat) (x : α) :
    (SetPadded pad l n x)[n]? = some x := by
  induction n generalizing l with
  | zero => cases l <;> simp [SetPadded]
  | succ k ih => cases l <;> simp [SetPadded, ih]

/-- Other indices keep their element, or hold the padding. -/
theorem SetPadded_getD_of_ne {α : Type} (pad : α) (l : List α) (n m : Nat) (x : α)
    (hne : m ≠ n) : (SetPadded pad l n x).getD m pad = l.getD m pad := by
  induction n generalizing l m with
  | zero =>
    cases m with
    | zero => exact absurd rfl hne
    | succ j => cases l <;> simp [SetPadded]
  | succ k ih =>
    cases m with
    | zero => cases l <;> simp [SetPadded]
    | succ j =>
      have hjk : j ≠ k := fun e => hne (by rw [e])
      cases l with
      | nil =>
        have h := ih [] j hjk
        simpa [SetPadded] using h
      | cons a t =>
        have h := ih t j hjk
        simpa [SetPadded] using h

/-- The shader cache lookup as a read with default. -/
theorem ShaderCacheLookup_eq_getD (Shaders : List (Option ObjId)) (Position : Nat) :
    ShaderCacheLookup Shaders Position = Shaders.getD Position none := by
  unfold ShaderCacheLookup
  rw [List.getD_eq_getElem?_getD]
  cases h : Shaders[Position]? with
  | none => rfl
  | some v => cases v <;> rfl

/-- After a shader is inserted for a device type, its position holds it. -/
theorem ShaderCacheLookup_insert_self (PerDevice : List (List (Option ObjId)))
    (DevType : DeviceType) (Position : Nat) (pShader : ObjId) :
    ShaderCacheLookup
      (PerDeviceShaders
        (SetPadded [] PerDevice DevType
          (SetPadded none (PerDeviceShaders PerDevice DevType) Position (some pShader)))
        DevType) Position = some pShader := by
  unfold PerDeviceShaders
  rw [List.getD_eq_getElem?_getD, SetPadded_getElem_self]
  unfold ShaderCacheLookup
  simp [SetPadded_getElem_self]

/-- After a shader is inserted for a device type, the other positions of that
device type hold what they held. -/
theorem ShaderCacheLookup_insert_of_ne (PerDevice : List (List (Option ObjId)))
    (DevType : DeviceType) (Position Other : Nat) (pShader : ObjId) (hne : Other ≠ Position) :
    ShaderCacheLookup
      (PerDeviceShaders
        (SetPadded [] PerDevice DevType
          (SetPadded none (PerDeviceShaders PerDevice DevType) Position (some pShader)))
        DevType) Other =
      ShaderCacheLookup (PerDeviceShaders PerDevice DevType) Other := by
  rw [ShaderCacheLookup_eq_getD, ShaderCacheLookup_eq_getD]
  have h1 : PerDeviceShaders
      (SetPadded [] PerDevice DevType
        (SetPadded none (PerDeviceShaders PerDevice DevType) Position (some pShader)))
      DevType = SetPadded none (PerDeviceShaders PerDevice DevType) Position (some pShader) := by
    unfold PerDeviceShaders
    rw [List.getD_eq_getElem?_getD, SetPadded_getElem_self]
    rfl
  rw [h1]
  exact SetPadded_getD_of_ne none _ Position Other (some pShader) hne

/-- The shader factory is only called for positions that the cache did not hold
when the step began, and for each of them at most once. -/
theorem UnpackPSOShaders_calls (ReconstructShader : Nat → Bool) (DevType : DeviceType)
    (Stages : List Nat) (PerDevice : List (List (Option ObjId))) (heap : ObjectHeap) :
    (∀ p ∈ (UnpackPSOShaders ReconstructShader DevType Stages PerDevice heap).FactoryCalls,
      ShaderCacheLookup (PerDeviceShaders PerDevice DevType) p = none) ∧
    (UnpackPSOShaders ReconstructShader DevType Stages PerDevice heap).FactoryCalls.Nodup := by
  induction Stages generalizing PerDevice heap with
  | nil => simp [UnpackPSOShaders]
  | cons Position Stages ih =>
    unfold UnpackPSOShaders
    cases hlook : ShaderCacheLookup (PerDeviceShaders PerDevice DevType) Position with
    | some pShader => exact ih PerDevice heap
    | none =>
      cases hrec : ReconstructShader Position with
      | false => simp [hlook]
      | true =>
        simp only [if_true]
        obtain ⟨hcalls, hnodup⟩ := ih
          (SetPadded [] PerDevice DevType
            (SetPadded none (PerDeviceShaders PerDevice DevType) Position (some heap.next)))
          heap.construct
        have hnot : Position ∉ (UnpackPSOShaders ReconstructShader DevType Stages
            (SetPadded [] PerDevice DevType
              (SetPadded none (PerDeviceShaders PerDevice DevType) Position (some heap.next)))
            heap.construct).FactoryCalls := by
          intro hmem
          have h := hcalls Position hmem
          rw [ShaderCacheLookup_insert_self] at h
          cases h
        refine ⟨?_, List.nodup_cons.2 ⟨hnot, hnodup⟩⟩
        intro p hp
        rcases List.mem_cons.1 hp with h | h
        · rw [h]; exact hlook
        · have hne : p ≠ Position := fun e => hnot (e ▸ h)
          rw [← ShaderCacheLookup_insert_of_ne PerDevice DevType Position p heap.next hne]
          exact hcalls p h

/-- C14: shader deduplication by position.  When a pipeline lists the same
position twice, and the shader cache of the archive for the device type does not
hold that position yet, `UnpackPSOShaders` calls the shader factory once, stores
the new shader at that position of the per-device cache and uses that one
shader for both stages; when the cache already holds the position, the cached
shader is used for both stages and the factory is not called.  For every list
of stages, the factory is called at most once per position. -/
theorem unpack_pso_shaders_same_position_once (ReconstructShader : Nat → Bool)
    (DevType : DeviceType) (PerDevice : List (List (Option ObjId))) (heap : ObjectHeap)
    (Position : Nat) :
    (ShaderCacheLookup (PerDeviceShaders PerDevice DevType) Position = none →
      ReconstructShader Position = true →
      (UnpackPSOShaders ReconstructShader DevType [Position, Position] PerDevice heap).ok =
        true ∧
      (UnpackPSOShaders ReconstructShader DevType [Position, Position] PerDevice
        heap).FactoryCalls = [Position] ∧
      (UnpackPSOShaders ReconstructShader DevType [Position, Position] PerDevice heap).Shaders =
        [heap.next, heap.next] ∧
      ShaderCacheLookup
        (PerDeviceShaders
          (UnpackPSOShaders ReconstructShader DevType [Position, Position] PerDevice
            heap).PerDeviceCachedShaders DevType) Position = some heap.next ∧
      (UnpackPSOShaders ReconstructShader DevType [Position, Position] PerDevice heap).heap =
        heap.construct) ∧
    (∀ pShader : ObjId,
      ShaderCacheLookup (PerDeviceShaders PerDevice DevType) Position = some pShader →
      (UnpackPSOShaders ReconstructShader DevType [Position, Position] PerDevice heap).ok =
        true ∧
      (UnpackPSOShaders ReconstructShader DevType [Position, Position] PerDevice
        heap).FactoryCalls = [] ∧
      (UnpackPSOShaders ReconstructShader DevType [Position, Position] PerDevice heap).Shaders =
        [pShader, pShader]) ∧
    (∀ Stages : List Nat,
      (UnpackPSOShaders ReconstructShader DevType Stages PerDevice heap).FactoryCalls.Nodup) := by
  refine ⟨?_, ?_, fun Stages =>
    (UnpackPSOShaders_calls ReconstructShader DevType Stages PerDevice heap).2⟩
  · intro hmiss hrec
    have hhit := ShaderCacheLookup_insert_self PerDevice DevType Position heap.next
    simp [UnpackPSOShaders, hmiss, hrec, hhit]
  · intro pShader hhit
    simp [UnpackPSOShaders, hhit]

/-- Witness of C14: positions `[3, 3]` on an archive whose shader caches are
empty; the shader factory is called once and both stages get shader 0. -/
theorem unpack_pso_shaders_same_position_once_witness :
    (ShaderCacheLookup (PerDeviceShaders [] 2) 3 = none) ∧
    (UnpackPSOShaders (fun _ => true) 2 [3, 3] [] emptyHeap).FactoryCalls = [3] ∧
    (UnpackPSOShaders (fun _ => true) 2 [3, 3] [] emptyHeap).Shaders = [0, 0] :=
  ⟨by decide,
    ((unpack_pso_shaders_same_position_once (fun _ => true) 2 [] emptyHeap 3).1
      (by decide) rfl).2.1,
    ((unpack_pso_shaders_same_position_once (fun _ => true) 2 [] emptyHeap 3).1
      (by decide) rfl).2.2.1⟩

/-- The factory step writes the signature cache only. -/
theorem CreateAndPublish_frame {I : Type} (self : DearchiverBase) (heap : ObjectHeap)
    (info : ResourceSignatureUnpackInfo I) (imp : Bool)
    (decoded : PRSData × I × SerializedData) (ev : List (Event I)) :
    (CreateAndPublish self heap info imp decoded ev).self.m_Cache.RenderPass =
      self.m_Cache.RenderPass ∧
    (∀ Kind : PipelineKind,
      (CreateAndPublish self heap info imp decoded ev).self.m_Cache.GetPsoCache Kind =
        self.m_Cache.GetPsoCache Kind) ∧
    (CreateAndPublish self heap info imp decoded ev).self.m_ResNameToArchiveIdx =
      self.m_ResNameToArchiveIdx ∧
    (CreateAndPublish self heap info imp decoded ev).self.m_Archives = self.m_Archives := by
  unfold CreateAndPublish
  cases imp
  · refine ⟨rfl, ?_, rfl, rfl⟩
    intro Kind
    cases Kind <;> rfl
  · refine ⟨rfl, ?_, rfl, rfl⟩
    intro Kind
    cases Kind <;> rfl

/-- A signature unpack writes the signature cache only: the render pass cache,
the pipeline caches, the resolution table and the archives stay as they were. -/
theorem UnpackResourceSignatureImpl_frame {I : Type} (S : PRSSerializerType I)
    (self : DearchiverBase) (heap : ObjectHeap) (info : ResourceSignatureUnpackInfo I)
    (imp : Bool) :
    (UnpackResourceSignatureImpl S self heap info imp).self.m_Cache.RenderPass =
      self.m_Cache.RenderPass ∧
    (∀ Kind : PipelineKind,
      (UnpackResourceSignatureImpl S self heap info imp).self.m_Cache.GetPsoCache Kind =
        self.m_Cache.GetPsoCache Kind) ∧
    (UnpackResourceSignatureImpl S self heap info imp).self.m_ResNameToArchiveIdx =
      self.m_ResNameToArchiveIdx ∧
    (UnpackResourceSignatureImpl S self heap info imp).self.m_Archives = self.m_Archives := by
  have harchive : ∀ ev : List (Event I),
      (UnpackFromArchive S self heap info imp ev).self.m_Cache.RenderPass =
        self.m_Cache.RenderPass ∧
      (∀ Kind : PipelineKind,
        (UnpackFromArchive S self heap info imp ev).self.m_Cache.GetPsoCache Kind =
          self.m_Cache.GetPsoCache Kind) ∧
      (UnpackFromArchive S self heap info imp ev).self.m_ResNameToArchiveIdx =
        self.m_ResNameToArchiveIdx ∧
      (UnpackFromArchive S self heap info imp ev).self.m_Archives = self.m_Archives := by
    intro ev
    rcases UnpackFromArchive_cases S self heap info imp ev with
      ⟨ev1, he, _⟩ | ⟨ev1, he, _⟩ | ⟨decoded, ev1, he, _⟩
    · rw [he]; exact ⟨rfl, fun _ => rfl, rfl, rfl⟩
    · rw [he]; exact ⟨rfl, fun _ => rfl, rfl, rfl⟩
    · rw [he]; exact CreateAndPublish_frame self heap info imp decoded _
  cases imp with
  | true =>
    rw [UnpackResourceSignatureImpl_implicit]
    exact harchive []
  | false =>
    cases hget : self.m_Cache.Sign.Get heap info.Name with
    | some o =>
      rw [UnpackResourceSignatureImpl_hit S self heap info o hget]
      exact ⟨rfl, fun _ => rfl, rfl, rfl⟩
    | none =>
      rw [UnpackResourceSignatureImpl_miss S self heap info hget]
      exact harchive _

/-- The signature sub-step leaves the pipeline caches and the archives as they
were. -/
theorem UnpackPSOSignatures_frame {I : Type} (S : PRSSerializerType I) (pDevice : RenderDevice I)
    (Granularity : Nat) (Names : List String) (self : DearchiverBase) (heap : ObjectHeap) :
    (∀ Kind : PipelineKind,
      (UnpackPSOSignatures S pDevice Granularity Names self heap).self.m_Cache.GetPsoCache Kind =
        self.m_Cache.GetPsoCache Kind) ∧
    (UnpackPSOSignatures S pDevice Granularity Names self heap).self.m_Archives =
      self.m_Archives := by
  induction Names generalizing self heap with
  | nil => exact ⟨fun _ => rfl, rfl⟩
  | cons Name Names ih =>
    obtain ⟨_, hpso, _, harch⟩ := UnpackResourceSignatureImpl_frame S self heap
      { pDevice := pDevice, Name := Name, SRBAllocationGranularity := Granularity } false
    unfold UnpackPSOSignatures
    split
    · obtain ⟨h1, h2⟩ := ih
        (UnpackResourceSignatureImpl S self heap
          { pDevice := pDevice, Name := Name, SRBAllocationGranularity := Granularity }
          false).self
        (UnpackResourceSignatureImpl S self heap
          { pDevice := pDevice, Name := Name, SRBAllocationGranularity := Granularity }
          false).heap
      exact ⟨fun Kind => (h1 Kind).trans (hpso Kind), h2.trans harch⟩
    · exact ⟨hpso, harch⟩
    · exact ⟨hpso, harch⟩

/-- The shader sub-step leaves every cache as it was. -/
theorem UnpackPSOShadersOfArchive_frame (ReconstructShader : Nat → Bool) (DevType : DeviceType)
    (Positions : List Nat) (idx : Nat) (self : DearchiverBase) (heap : ObjectHeap) :
    (UnpackPSOShadersOfArchive ReconstructShader DevType Positions idx self heap).self.m_Cache =
      self.m_Cache := by
  unfold UnpackPSOShadersOfArchive
  split <;> rfl

/-- The render pass sub-step leaves the pipeline caches as they were. -/
theorem UnpackPSORenderPass_frame {I : Type} (C : PipelineCollaborators I)
    (Kind : PipelineKind) (PSO : PSOData) (self : DearchiverBase) (heap : ObjectHeap)
    (Other : PipelineKind) :
    (UnpackPSORenderPass C Kind PSO self heap).self.m_Cache.GetPsoCache Other =
      self.m_Cache.GetPsoCache Other := by
  unfold UnpackPSORenderPass
  cases Kind
  · cases PSO.RenderPassName
    · rfl
    · cases Other <;> rfl
  · rfl
  · rfl
  · rfl

/-- C15: a pipeline unpack is all-or-nothing.  On a call that misses the
pipeline cache, resolves the name and loads header and device-specific data, if
the signature sub-step, the shader sub-step or the render pass sub-step fails,
then no pipeline object is returned (the result is null, or the archive list
was indexed out of range in a signature unpack), the pipeline factory is not
called, and all four pipeline caches are exactly as before the call. -/
theorem unpack_pipeline_all_or_nothing {I : Type} (C : PipelineCollaborators I)
    (self : DearchiverBase) (heap : ObjectHeap) (UnpackInfo : PipelineStateUnpackInfo I)
    (idx : Nat) (Archive : ArchiveData) (pArchive : DeviceObjectArchive) (PSO : PSOData)
    (Data : SerializedData)
    (hmiss : (self.m_Cache.GetPsoCache UnpackInfo.PipelineType).Get heap UnpackInfo.Name =
      none)
    (hidx : (self.m_ResNameToArchiveIdx.GetPsoMap UnpackInfo.PipelineType).lookup
      UnpackInfo.Name = some idx)
    (hat : self.m_Archives[idx]? = some Archive)
    (hptr : Archive.pArchive = some pArchive)
    (hload : C.LoadPSOData pArchive UnpackInfo.PipelineType UnpackInfo.Name = some PSO)
    (hdata : C.GetPSODeviceSpecificData pArchive UnpackInfo.pDevice.ArchiveDeviceType PSO =
      some Data)
    (hfail :
      (UnpackPSOSignatures C.PRSSerializer UnpackInfo.pDevice
        UnpackInfo.SRBAllocationGranularity PSO.SignatureNames self heap).ok = false ∨
      (UnpackPSOShadersOfArchive
        (C.ReconstructShader pArchive UnpackInfo.pDevice.ArchiveDeviceType)
        UnpackInfo.pDevice.ArchiveDeviceType PSO.ShaderPositions idx
        (UnpackPSOSignatures C.PRSSerializer UnpackInfo.pDevice
          UnpackInfo.SRBAllocationGranularity PSO.SignatureNames self heap).self
        (UnpackPSOSignatures C.PRSSerializer UnpackInfo.pDevice
          UnpackInfo.SRBAllocationGranularity PSO.SignatureNames self heap).heap).ok = false ∨
      (UnpackPSORenderPass C UnpackInfo.PipelineType PSO
        (UnpackPSOShadersOfArchive
          (C.ReconstructShader pArchive UnpackInfo.pDevice.ArchiveDeviceType)
          UnpackInfo.pDevice.ArchiveDeviceType PSO.ShaderPositions idx
          (UnpackPSOSignatures C.PRSSerializer UnpackInfo.pDevice
            UnpackInfo.SRBAllocationGranularity PSO.SignatureNames self heap).self
          (UnpackPSOSignatures C.PRSSerializer UnpackInfo.pDevice
            UnpackInfo.SRBAllocationGranularity PSO.SignatureNames self heap).heap).self
        (UnpackPSOShadersOfArchive
          (C.ReconstructShader pArchive UnpackInfo.pDevice.ArchiveDeviceType)
          UnpackInfo.pDevice.ArchiveDeviceType PSO.ShaderPositions idx
          (UnpackPSOSignatures C.PRSSerializer UnpackInfo.pDevice
            UnpackInfo.SRBAllocationGranularity PSO.SignatureNames self heap).self
          (UnpackPSOSignatures C.PRSSerializer UnpackInfo.pDevice
            UnpackInfo.SRBAllocationGranularity PSO.SignatureNames self heap).heap).heap).ok =
        false) :
    ((UnpackPipelineStateImpl C self heap UnpackInfo).outcome = Outcome.returned none ∨
      (UnpackPipelineStateImpl C self heap UnpackInfo).outcome =
        Outcome.archiveIndexOutOfRange) ∧
    (UnpackPipelineStateImpl C self heap UnpackInfo).FactoryCalls = 0 ∧
    ∀ Kind : PipelineKind,
      (UnpackPipelineStateImpl C self heap UnpackInfo).self.m_Cache.GetPsoCache Kind =
        self.m_Cache.GetPsoCache Kind := by
  have hsig := UnpackPSOSignatures_frame C.PRSSerializer UnpackInfo.pDevice
    UnpackInfo.SRBAllocationGranularity PSO.SignatureNames self heap
  have hsh := UnpackPSOShadersOfArchive_frame
    (C.ReconstructShader pArchive UnpackInfo.pDevice.ArchiveDeviceType)
    UnpackInfo.pDevice.ArchiveDeviceType PSO.ShaderPositions idx
    (UnpackPSOSignatures C.PRSSerializer UnpackInfo.pDevice
      UnpackInfo.SRBAllocationGranularity PSO.SignatureNames self heap).self
    (UnpackPSOSignatures C.PRSSerializer UnpackInfo.pDevice
      UnpackInfo.SRBAllocationGranularity PSO.SignatureNames self heap).heap
  simp only [UnpackPipelineStateImpl, hmiss, hidx, hat, hptr, hload, hdata]
  split
  · unfold UnpackPSOSubSteps
    simp only
    split
    · exact ⟨Or.inr rfl, rfl, hsig.1⟩
    · split
      · exact ⟨Or.inl rfl, rfl, hsig.1⟩
      · split
        · exact ⟨Or.inr rfl, rfl, fun Kind => by rw [hsh]; exact hsig.1 Kind⟩
        · split
          · exact ⟨Or.inl rfl, rfl, fun Kind => by rw [hsh]; exact hsig.1 Kind⟩
          · split
            · refine ⟨Or.inl rfl, rfl, fun Kind => ?_⟩
              rw [UnpackPSORenderPass_frame, hsh]
              exact hsig.1 Kind
            · rename_i h1 h2 h3 h4 h5
              rcases hfail with h | h | h
              · rw [h] at h2; simp at h2
              · rw [h] at h4; simp at h4
              · rw [h] at h5; simp at h5
  · exact ⟨Or.inl rfl, rfl, fun _ => rfl⟩

/-- Witness of C15: the graphics pipeline "X" of the demo dearchiver lists the
signatures "S" and "M"; the archive has no data of "M" for the device, so the
signature sub-step fails and the unpack returns null. -/
theorem unpack_pipeline_all_or_nothing_witness :
    (UnpackPSOSignatures demoPipelineCollaborators.PRSSerializer (demoPipelineInfo "X").pDevice
      (demoPipelineInfo "X").SRBAllocationGranularity ["S", "M"] demoDearchiver
      emptyHeap).ok = false ∧
    ((UnpackPipelineStateImpl demoPipelineCollaborators demoDearchiver emptyHeap
        (demoPipelineInfo "X")).outcome = Outcome.returned none ∨
      (UnpackPipelineStateImpl demoPipelineCollaborators demoDearchiver emptyHeap
        (demoPipelineInfo "X")).outcome = Outcome.archiveIndexOutOfRange) :=
  ⟨by decide,
    (unpack_pipeline_all_or_nothing demoPipelineCollaborators demoDearchiver emptyHeap
      (demoPipelineInfo "X") 0 { pArchive := some demoArchive, CachedShaders := [] } demoArchive
      { SignatureNames := ["S", "M"], ShaderPositions := [3, 3], RenderPassName := none,
        Body := [] }
      [1] (by decide) (by decide) rfl rfl rfl rfl (Or.inl (by decide))).1⟩

/-- Every cache write of a call is made under the requested name and holds the
pointer the call returns. -/
theorem UnpackResourceSignatureImpl_cacheSet_is_result {I : Type} (S : PRSSerializerType I)
    (self : DearchiverBase) (heap : ObjectHeap) (info : ResourceSignatureUnpackInfo I)
    (imp : Bool) (Name : String) (p : Option ObjId)
    (hmem : Event.cacheSet Name p ∈ (UnpackResourceSignatureImpl S self heap info imp).events) :
    Name = info.Name ∧
    (UnpackResourceSignatureImpl S self heap info imp).outcome = Outcome.returned p := by
  have harchive : ∀ ev : List (Event I), (∀ e ∈ ev, e.isCacheSet = false) →
      Event.cacheSet Name p ∈ (UnpackFromArchive S self heap info imp ev).events →
      Name = info.Name ∧
      (UnpackFromArchive S self heap info imp ev).outcome = Outcome.returned p := by
    intro ev hev hm
    rcases UnpackFromArchive_cases S self heap info imp ev with
      ⟨ev1, he, h1⟩ | ⟨ev1, he, h1⟩ | ⟨decoded, ev1, he, h1⟩
    · rw [he] at hm
      rcases List.mem_append.1 hm with h | h
      · have := hev _ h; simp [Event.isCacheSet] at this
      · have := (h1 _ h).2.1; simp [Event.isCacheSet] at this
    · rw [he] at hm
      rcases List.mem_append.1 hm with h | h
      · have := hev _ h; simp [Event.isCacheSet] at this
      · have := (h1 _ h).2.1; simp [Event.isCacheSet] at this
    · rw [he] at hm ⊢
      obtain ⟨e1, _, _, e4⟩ := CreateAndPublish_eq self heap info imp decoded (ev ++ ev1)
      rw [e4] at hm
      rw [e1]
      simp only [List.mem_append, List.mem_singleton] at hm
      rcases hm with ((((h | h) | h) | h) | h)
      · have := hev _ h; simp [Event.isCacheSet] at this
      · have := (h1 _ h).2.1; simp [Event.isCacheSet] at this
      · split at h
        · simp at h
        · simp at h
      · cases h
      · cases imp
        · simp only [Bool.false_eq_true, if_false, List.mem_singleton, Event.cacheSet.injEq] at h
          exact ⟨h.1, by rw [h.2]⟩
        · simp at h
  cases imp with
  | true =>
    rw [UnpackResourceSignatureImpl_implicit] at hmem ⊢
    exact harchive [] (by simp) hmem
  | false =>
    cases hget : self.m_Cache.Sign.Get heap info.Name with
    | some o =>
      rw [UnpackResourceSignatureImpl_hit S self heap info o hget] at hmem
      simp at hmem
    | none =>
      rw [UnpackResourceSignatureImpl_miss S self heap info hget] at hmem ⊢
      exact harchive _ (by simp [Event.isCacheSet]) hmem

/-- C21, the code at a failing input: the factory of the demo device rejects the
internal data of signature "F".  The non-implicit call returns null and still
calls `m_Cache.Sign.Set("F", nullptr)`: the failed construction is stored
under the name as a null weak reference. -/
theorem unpack_signature_failed_construction_is_stored :
    (UnpackResourceSignatureImpl demoSerializer demoDearchiver emptyHeap (demoInfo "F")
      false).outcome = Outcome.returned none ∧
    (UnpackResourceSignatureImpl demoSerializer demoDearchiver emptyHeap (demoInfo "F")
      false).events.filter Event.isCacheSet = [Event.cacheSet "F" none] ∧
    demoDearchiver.m_Cache.Sign.m_Map = [] ∧
    (UnpackResourceSignatureImpl demoSerializer demoDearchiver emptyHeap (demoInfo "F")
      false).self.m_Cache.Sign.m_Map = [("F", none)] := by
  decide

/-- With the archive found at the resolved index, the archive path does not
index the archive list out of range. -/
theorem UnpackFromArchive_in_range {I : Type} (S : PRSSerializerType I)
    (self : DearchiverBase) (heap : ObjectHeap) (info : ResourceSignatureUnpackInfo I)
    (imp : Bool) (ev : List (Event I)) (idx : Nat) (Archive : ArchiveData)
    (hidx : self.m_ResNameToArchiveIdx.Sign.lookup info.Name = some idx)
    (hat : self.m_Archives[idx]? = some Archive) :
    (UnpackFromArchive S self heap info imp ev).outcome ≠ Outcome.archiveIndexOutOfRange := by
  cases h3 : Archive.pArchive with
  | none => simp [UnpackFromArchive, hidx, hat, h3]
  | some pArchive =>
    cases h4 : pArchive.LoadResourceData info.Name with
    | none => simp [UnpackFromArchive, hidx, hat, h3, h4]
    | some PRS =>
      cases h5 : pArchive.GetDeviceSpecificData info.pDevice.ArchiveDeviceType PRS.pHeader with
      | none =>
        rw [UnpackFromArchive_missing_data S self heap info imp ev idx Archive pArchive PRS hidx
          hat h3 h4 h5]
        simp
      | some Data =>
        rw [UnpackFromArchive_reaches_factory S self heap info imp ev idx Archive pArchive PRS
          Data hidx hat h3 h4 h5, (CreateAndPublish_eq self heap info imp _ _).1]
        simp

/-- A null archive at the resolved index ends the archive path after the failed
check of line 253. -/
theorem UnpackFromArchive_null_archive {I : Type} (S : PRSSerializerType I)
    (self : DearchiverBase) (heap : ObjectHeap) (info : ResourceSignatureUnpackInfo I)
    (imp : Bool) (ev : List (Event I)) (idx : Nat) (Archive : ArchiveData)
    (hidx : self.m_ResNameToArchiveIdx.Sign.lookup info.Name = some idx)
    (hat : self.m_Archives[idx]? = some Archive) (hnull : Archive.pArchive = none) :
    UnpackFromArchive S self heap info imp ev =
      { outcome := Outcome.returned none, self := self, heap := heap,
        events := ev ++ [Event.resolve info.Name, Event.archiveAt idx,
          Event.unexpectedNullArchive] } := by
  simp [UnpackFromArchive, hidx, hat, hnull]

/-- C22: the archive lookup is in bounds under the invariant of the resolution
table.  If every index stored in the signature map is below the number of
loaded archives, then no call indexes the archive list out of range; and when
the archive at the resolved index is null, a call that does not hit the cache
returns the null result, leaves dearchiver and heap unchanged, and after the
access to the list makes no call but the failed check of line 253. -/
theorem unpack_signature_archive_lookup_in_bounds {I : Type} (S : PRSSerializerType I)
    (self : DearchiverBase) (heap : ObjectHeap) (info : ResourceSignatureUnpackInfo I)
    (imp : Bool)
    (hinv : ∀ e ∈ self.m_ResNameToArchiveIdx.Sign, e.2 < self.m_Archives.length) :
    (UnpackResourceSignatureImpl S self heap info imp).outcome ≠
      Outcome.archiveIndexOutOfRange ∧
    (∀ idx : Nat, self.m_ResNameToArchiveIdx.Sign.lookup info.Name = some idx →
      ∃ Archive : ArchiveData, self.m_Archives[idx]? = some Archive) ∧
    (∀ (idx : Nat) (Archive : ArchiveData),
      (imp = true ∨ self.m_Cache.Sign.Get heap info.Name = none) →
      self.m_ResNameToArchiveIdx.Sign.lookup info.Name = some idx →
      self.m_Archives[idx]? = some Archive → Archive.pArchive = none →
      (UnpackResourceSignatureImpl S self heap info imp).outcome = Outcome.returned none ∧
      (UnpackResourceSignatureImpl S self heap info imp).self = self ∧
      (UnpackResourceSignatureImpl S self heap info imp).heap = heap ∧
      (UnpackResourceSignatureImpl S self heap info imp).events =
        (if imp then [] else [Event.cacheGet info.Name]) ++
          [Event.resolve info.Name, Event.archiveAt idx, Event.unexpectedNullArchive]) := by
  have hbound : ∀ idx : Nat, self.m_ResNameToArchiveIdx.Sign.lookup info.Name = some idx →
      ∃ Archive : ArchiveData, self.m_Archives[idx]? = some Archive := by
    intro idx hidx
    obtain ⟨l1, l2, hl, _⟩ := List.lookup_eq_some_iff.1 hidx
    have hmem : (info.Name, idx) ∈ self.m_ResNameToArchiveIdx.Sign := by
      rw [hl]; simp
    have hlt : idx < self.m_Archives.length := hinv _ hmem
    exact ⟨self.m_Archives[idx], List.getElem?_eq_getElem hlt⟩
  have harchive : ∀ ev : List (Event I),
      (UnpackFromArchive S self heap info imp ev).outcome ≠ Outcome.archiveIndexOutOfRange := by
    intro ev
    cases hidx : self.m_ResNameToArchiveIdx.Sign.lookup info.Name with
    | none =>
      rw [UnpackFromArchive_not_found S self heap info imp ev hidx]
      simp
    | some idx =>
      obtain ⟨Archive, hat⟩ := hbound idx hidx
      exact UnpackFromArchive_in_range S self heap info imp ev idx Archive hidx hat
  refine ⟨?_, hbound, ?_⟩
  · cases imp with
    | true =>
      rw [UnpackResourceSignatureImpl_implicit]
      exact harchive []
    | false =>
      cases hget : self.m_Cache.Sign.Get heap info.Name with
      | some o =>
        rw [UnpackResourceSignatureImpl_hit S self heap info o hget]
        simp
      | none =>
        rw [UnpackResourceSignatureImpl_miss S self heap info hget]
        exact harchive _
  · intro idx Archive hmiss hidx hat hnull
    cases imp with
    | true =>
      rw [UnpackResourceSignatureImpl_implicit,
        UnpackFromArchive_null_archive S self heap info true [] idx Archive hidx hat hnull]
      exact ⟨rfl, rfl, rfl, rfl⟩
    | false =>
      have hget : self.m_Cache.Sign.Get heap info.Name = none := by
        rcases hmiss with h | h
        · cases h
        · exact h
      rw [UnpackResourceSignatureImpl_miss S self heap info hget,
        UnpackFromArchive_null_archive S self heap info false _ idx Archive hidx hat hnull]
      exact ⟨rfl, rfl, rfl, rfl⟩

/-- Witness of C22: every index of the signature map of the demo dearchiver is 0
and one archive is loaded; unpacking "S" stays in range. -/
theorem unpack_signature_archive_lookup_in_bounds_witness :
    (∀ e ∈ demoDearchiver.m_ResNameToArchiveIdx.Sign, e.2 < demoDearchiver.m_Archives.length) ∧
    (UnpackResourceSignatureImpl demoSerializer demoDearchiver emptyHeap (demoInfo "S")
      false).outcome ≠ Outcome.archiveIndexOutOfRange :=
  ⟨by decide,
    (unpack_signature_archive_lookup_in_bounds demoSerializer demoDearchiver emptyHeap
      (demoInfo "S") false (by decide)).1⟩

/-- The signature cache after a call is the one before it, or the result of
writing the returned pointer under the requested name. -/
theorem UnpackResourceSignatureImpl_sign_cache {I : Type} (S : PRSSerializerType I)
    (self : DearchiverBase) (heap : ObjectHeap) (info : ResourceSignatureUnpackInfo I)
    (imp : Bool) :
    (UnpackResourceSignatureImpl S self heap info imp).self.m_Cache.Sign = self.m_Cache.Sign ∨
    ∃ p : Option ObjId,
      (UnpackResourceSignatureImpl S self heap info imp).outcome = Outcome.returned p ∧
      (UnpackResourceSignatureImpl S self heap info imp).self.m_Cache.Sign =
        self.m_Cache.Sign.Set info.Name p := by
  have harchive : ∀ ev : List (Event I),
      (UnpackFromArchive S self heap info imp ev).self.m_Cache.Sign = self.m_Cache.Sign ∨
      ∃ p : Option ObjId,
        (UnpackFromArchive S self heap info imp ev).outcome = Outcome.returned p ∧
        (UnpackFromArchive S self heap info imp ev).self.m_Cache.Sign =
          self.m_Cache.Sign.Set info.Name p := by
    intro ev
    rcases UnpackFromArchive_cases S self heap info imp ev with
      ⟨ev1, he, _⟩ | ⟨ev1, he, _⟩ | ⟨decoded, ev1, he, _⟩
    · rw [he]; exact Or.inl rfl
    · rw [he]; exact Or.inl rfl
    · rw [he]
      obtain ⟨e1, e2, _, _⟩ := CreateAndPublish_eq self heap info imp decoded (ev ++ ev1)
      cases imp
      · exact Or.inr ⟨_, e1, by rw [e2]; simp⟩
      · exact Or.inl (by rw [e2]; simp)
  cases imp with
  | true =>
    rw [UnpackResourceSignatureImpl_implicit]
    exact harchive []
  | false =>
    cases hget : self.m_Cache.Sign.Get heap info.Name with
    | some o =>
      rw [UnpackResourceSignatureImpl_hit S self heap info o hget]
      exact Or.inl rfl
    | none =>
      rw [UnpackResourceSignatureImpl_miss S self heap info hget]
      exact harchive _

/-- C23: the frame of a signature unpack.  After any call the render pass cache,
the four pipeline caches, the six maps of the resolution table and the list of
archives with their shader caches are as before.  The signature cache is as
before or is the result of `Set(Name, p)` with `p` the returned pointer, so
that the entry of every other name is as before. -/
theorem unpack_signature_frame {I : Type} (S : PRSSerializerType I) (self : DearchiverBase)
    (heap : ObjectHeap) (info : ResourceSignatureUnpackInfo I) (imp : Bool) :
    (UnpackResourceSignatureImpl S self heap info imp).self.m_Cache.RenderPass =
      self.m_Cache.RenderPass ∧
    ((UnpackResourceSignatureImpl S self heap info imp).self.m_Cache.GraphPSO =
        self.m_Cache.GraphPSO ∧
      (UnpackResourceSignatureImpl S self heap info imp).self.m_Cache.CompPSO =
        self.m_Cache.CompPSO ∧
      (UnpackResourceSignatureImpl S self heap info imp).self.m_Cache.TilePSO =
        self.m_Cache.TilePSO ∧
      (UnpackResourceSignatureImpl S self heap info imp).self.m_Cache.RayTrPSO =
        self.m_Cache.RayTrPSO) ∧
    (UnpackResourceSignatureImpl S self heap info imp).self.m_ResNameToArchiveIdx =
      self.m_ResNameToArchiveIdx ∧
    (UnpackResourceSignatureImpl S self heap info imp).self.m_Archives = self.m_Archives ∧
    ((UnpackResourceSignatureImpl S self heap info imp).self.m_Cache.Sign = self.m_Cache.Sign ∨
      ∃ p : Option ObjId,
        (UnpackResourceSignatureImpl S self heap info imp).outcome = Outcome.returned p ∧
        (UnpackResourceSignatureImpl S self heap info imp).self.m_Cache.Sign =
          self.m_Cache.Sign.Set info.Name p) ∧
    (∀ Other : String, Other ≠ info.Name →
      (UnpackResourceSignatureImpl S self heap info imp).self.m_Cache.Sign.m_Map.lookup Other =
        self.m_Cache.Sign.m_Map.lookup Other) := by
  obtain ⟨hrp, hpso, htable, harch⟩ := UnpackResourceSignatureImpl_frame S self heap info imp
  have hsign := UnpackResourceSignatureImpl_sign_cache S self heap info imp
  refine ⟨hrp, ⟨hpso PipelineKind.Graphics, hpso PipelineKind.Compute, hpso PipelineKind.Tile,
    hpso PipelineKind.RayTracing⟩, htable, harch, hsign, ?_⟩
  intro Other hne
  rcases hsign with h | ⟨p, _, h⟩
  · rw [h]
  · rw [h]
    exact NamedResourceCache.lookup_Set_ne self.m_Cache.Sign Other info.Name p
      (fun e => hne e.symm)

/-- Witness of C23: unpacking "S" from the demo dearchiver, whose signature cache
holds object 5 under "T", leaves the entry of "T" as it was. -/
theorem unpack_signature_frame_witness :
    ("T" ≠ (demoInfo "S").Name) ∧
    (UnpackResourceSignatureImpl demoSerializer
      { demoDearchiver with
        m_Cache := { demoDearchiver.m_Cache with Sign := { m_Map := [("T", some 5)] } } }
      emptyHeap (demoInfo "S") false).self.m_Cache.Sign.m_Map.lookup "T" =
      (NamedResourceCache.mk [("T", some 5)]).m_Map.lookup "T" :=
  ⟨by decide,
    (unpack_signature_frame demoSerializer
      { demoDearchiver with
        m_Cache := { demoDearchiver.m_Cache with Sign := { m_Map := [("T", some 5)] } } }
      emptyHeap (demoInfo "S") false).2.2.2.2.2 "T" (by decide)⟩

/-- C30: the render pass sub-step applies to graphics pipelines only.  For a
compute, tile or ray tracing pipeline, whatever its data holder and whatever
the collaborators, `UnpackPSORenderPass` returns `true`, leaves dearchiver and
heap as they were and obtains no render pass. -/
theorem unpack_pso_render_pass_graphics_only {I : Type} (C : PipelineCollaborators I)
    (Kind : PipelineKind) (PSO : PSOData) (self : DearchiverBase) (heap : ObjectHeap)
    (hkind : Kind ≠ PipelineKind.Graphics) :
    (UnpackPSORenderPass C Kind PSO self heap).ok = true ∧
    (UnpackPSORenderPass C Kind PSO self heap).outOfRange = false ∧
    (UnpackPSORenderPass C Kind PSO self heap).self = self ∧
    (UnpackPSORenderPass C Kind PSO self heap).heap = heap ∧
    (UnpackPSORenderPass C Kind PSO self heap).Objects = [] := by
  cases Kind with
  | Graphics => exact absurd rfl hkind
  | Compute => exact ⟨rfl, rfl, rfl, rfl, rfl⟩
  | Tile => exact ⟨rfl, rfl, rfl, rfl, rfl⟩
  | RayTracing => exact ⟨rfl, rfl, rfl, rfl, rfl⟩

/-- Witness of C30: a compute pipeline whose data holder names a render pass. -/
theorem unpack_pso_render_pass_graphics_only_witness :
    PipelineKind.Compute ≠ PipelineKind.Graphics ∧
    (UnpackPSORenderPass demoPipelineCollaborators PipelineKind.Compute
      { SignatureNames := [], ShaderPositions := [], RenderPassName := some "RP", Body := [] }
      demoDearchiver emptyHeap).ok = true :=
  ⟨by decide,
    (unpack_pso_render_pass_graphics_only demoPipelineCollaborators PipelineKind.Compute
      { SignatureNames := [], ShaderPositions := [], RenderPassName := some "RP", Body := [] }
      demoDearchiver emptyHeap (by decide)).1⟩

/-- A null shader module, bind group layout or pipeline layout makes the
constructor throw. -/
theorem WebGPUSwapChainPresentCommand_ctor_throws
    (ShaderModule BindGroupLayout PipelineLayout RenderPipeline PointSampler : Option Nat)
    (h : ShaderModule = none ∨ BindGroupLayout = none ∨ PipelineLayout = none) :
    ∃ Message : String,
      WebGPUSwapChainPresentCommand.ctor ShaderModule BindGroupLayout PipelineLayout
        RenderPipeline PointSampler = Except.error Message := by
  unfold WebGPUSwapChainPresentCommand.ctor
  cases ShaderModule with
  | none => exact ⟨_, rfl⟩
  | some sm =>
    cases BindGroupLayout with
    | none => exact ⟨_, rfl⟩
    | some bgl =>
      cases PipelineLayout with
      | none => exact ⟨_, rfl⟩
      | some pl =>
        rcases h with h | h | h <;> cases h

/-- C25, the code at the failing inputs: whenever the shader module, the bind
group layout and the pipeline layout are created and
`wgpuDeviceCreateRenderPipeline` returns a null handle, the constructor does not
throw and the constructed command holds a null render pipeline. -/
theorem present_command_null_render_pipeline_constructed
    (ShaderModule BindGroupLayout PipelineLayout : Nat) (PointSampler : Option Nat) :
    WebGPUSwapChainPresentCommand.ctor (some ShaderModule) (some BindGroupLayout)
        (some PipelineLayout) none PointSampler =
      Except.ok
        { m_pPointSampler := PointSampler, m_wgpuBindGroupLayout := some BindGroupLayout,
          m_wgpuPipelineLayout := some PipelineLayout, m_wgpuRenderPipeline := none } := by
  rfl

/-- The number of characters copied never exceeds the size of the array. -/
theorem DescriptorSize_le (Size : Nat) (name : List Nat) :
    DescriptorSize Size name ≤ Size ∧ (CopyDescription Size name).length = Size := by
  unfold CopyDescription DescriptorSize
  constructor
  · exact Nat.min_le_left _ _
  · simp only [List.length_append, List.length_take, List.length_replicate]
    omega

/-- A name shorter than the array leaves a terminated description that starts
with the whole name. -/
theorem CopyDescription_of_short (Size : Nat) (name : List Nat) (h : name.length < Size) :
    CopyDescription Size name = name ++ List.replicate (Size - name.length) 0 ∧
    0 ∈ CopyDescription Size name := by
  have hmin : min Size name.length = name.length := Nat.min_eq_right (Nat.le_of_lt h)
  have heq : CopyDescription Size name = name ++ List.replicate (Size - name.length) 0 := by
    simp [CopyDescription, DescriptorSize, hmin]
  refine ⟨heq, ?_⟩
  rw [heq]
  apply List.mem_append_right
  rw [List.mem_replicate]
  exact ⟨by omega, rfl⟩

/-- C26, the code at the failing inputs: for an adapter name of as many
characters as the array `Description` has elements (here the character 65
repeated), every element of the array is overwritten with a character of the
name and no terminator is left. -/
theorem adapter_description_not_terminated (Size : Nat) :
    DescriptorSize Size (List.replicate Size 65) = Size ∧
    CopyDescription Size (List.replicate Size 65) = List.replicate Size 65 ∧
    0 ∉ CopyDescription Size (List.replicate Size 65) := by
  have heq : CopyDescription Size (List.replicate Size 65) = List.replicate Size 65 := by
    simp [CopyDescription, DescriptorSize]
  refine ⟨by simp [DescriptorSize], heq, ?_⟩
  rw [heq, List.mem_replicate]
  intro h
  exact absurd h.2 (by decide)

/-- What lines 106-120 compute: agreement on the three scalar members and on
the first `NumRenderTargets` render target formats. -/
theorem render_pass_info_operator_eq_iff (a b : RenderPassInfo) :
    a.operator_eq b = true ↔
      a.NumRenderTargets = b.NumRenderTargets ∧ a.SampleCount = b.SampleCount ∧
      a.DSVFormat = b.DSVFormat ∧
      ∀ RTIndex, RTIndex < a.NumRenderTargets → a.RTVFormat RTIndex = b.RTVFormat RTIndex := by
  unfold RenderPassInfo.operator_eq
  by_cases h1 : a.NumRenderTargets = b.NumRenderTargets
  · by_cases h2 : a.SampleCount = b.SampleCount
    · by_cases h3 : a.DSVFormat = b.DSVFormat
      · simp [h1, h2, h3, List.all_eq_true]
      · simp [h1, h2, h3]
    · simp [h1, h2]
  · simp [h1]

/-- A fold is determined by the values of its step on the elements of the list. -/
theorem foldl_congr_on {α β : Type} (f g : β → α → β) (l : List α)
    (h : ∀ x ∈ l, ∀ acc, f acc x = g acc x) (init : β) :
    l.foldl f init = l.foldl g init := by
  induction l generalizing init with
  | nil => rfl
  | cons x xs ih =>
    rw [List.foldl_cons, List.foldl_cons, h x (List.mem_cons_self _ _) init]
    exact ih (fun y hy => h y (List.mem_cons_of_mem _ hy)) _

/-- Two render pass infos that agree on the three scalar members and on the
first `NumRenderTargets` formats have the same hash. -/
theorem render_pass_info_hash_of_agree (H : HashUtils) (a b : RenderPassInfo)
    (h1 : a.NumRenderTargets = b.NumRenderTargets) (h2 : a.SampleCount = b.SampleCount)
    (h3 : a.DSVFormat = b.DSVFormat)
    (h4 : ∀ RTIndex, RTIndex < a.NumRenderTargets → a.RTVFormat RTIndex = b.RTVFormat RTIndex) :
    a.GetHash H = b.GetHash H := by
  unfold RenderPassInfo.GetHash
  rw [← h1, ← h2, ← h3]
  apply foldl_congr_on
  intro i hi acc
  rw [h4 i (List.mem_range.1 hi)]

/-- C29: the hash of a render pass info is consistent with its equality.  If
`a == b` then `a.GetHash() = b.GetHash()`, for any hash functions; and two
infos that agree on `NumRenderTargets`, `SampleCount`, `DSVFormat` and the
first `NumRenderTargets` entries of `RTVFormats` are equal and have the same
hash, whatever the entries at or beyond `NumRenderTargets` are. -/
theorem render_pass_info_hash_consistent (H : HashUtils) (a b : RenderPassInfo) :
    (a.operator_eq b = true → a.GetHash H = b.GetHash H) ∧
    (a.NumRenderTargets = b.NumRenderTargets → a.SampleCount = b.SampleCount →
      a.DSVFormat = b.DSVFormat →
      (∀ RTIndex, RTIndex < a.NumRenderTargets → a.RTVFormat RTIndex = b.RTVFormat RTIndex) →
      a.operator_eq b = true ∧ a.GetHash H = b.GetHash H) := by
  constructor
  · intro heq
    obtain ⟨h1, h2, h3, h4⟩ := (render_pass_info_operator_eq_iff a b).1 heq
    exact render_pass_info_hash_of_agree H a b h1 h2 h3 h4
  · intro h1 h2 h3 h4
    exact ⟨(render_pass_info_operator_eq_iff a b).2 ⟨h1, h2, h3, h4⟩,
      render_pass_info_hash_of_agree H a b h1 h2 h3 h4⟩

/-- Witness of C29: two infos with one render target that differ in the second
entry of `RTVFormats` are equal and have the same hash. -/
theorem render_pass_info_hash_consistent_witness :
    (demoRenderPassInfo 20).operator_eq (demoRenderPassInfo 30) = true ∧
    (demoRenderPassInfo 20).GetHash demoHash = (demoRenderPassInfo 30).GetHash demoHash :=
  ⟨by decide,
    (render_pass_info_hash_consistent demoHash (demoRenderPassInfo 20)
      (demoRenderPassInfo 30)).1 (by decide)⟩

/-- The combination of two keys is the same when their render pass infos are
equal and color mask, render target index and depth state agree. -/
theorem SameCombination_iff (a b : ClearPSOHashKey) :
    a.SameCombination b = true ↔
      a.RPInfo.operator_eq b.RPInfo = true ∧ a.ColorMask = b.ColorMask ∧
      a.RTIndex = b.RTIndex ∧ a.DepthState = b.DepthState := by
  simp [ClearPSOHashKey.SameCombination, and_assoc]

/-- `SameCombination` is symmetric. -/
theorem SameCombination_symm (a b : ClearPSOHashKey) (h : a.SameCombination b = true) :
    b.SameCombination a = true := by
  obtain ⟨hrp, hc, hr, hd⟩ := (SameCombination_iff a b).1 h
  obtain ⟨h1, h2, h3, h4⟩ := (render_pass_info_operator_eq_iff _ _).1 hrp
  refine (SameCombination_iff b a).2 ⟨?_, hc.symm, hr.symm, hd.symm⟩
  exact (render_pass_info_operator_eq_iff _ _).2
    ⟨h1.symm, h2.symm, h3.symm, fun i hi => (h4 i (h1 ▸ hi)).symm⟩

/-- `SameCombination` is transitive. -/
theorem SameCombination_trans (a b c : ClearPSOHashKey) (hab : a.SameCombination b = true)
    (hbc : b.SameCombination c = true) : a.SameCombination c = true := by
  obtain ⟨hrp, hc, hr, hd⟩ := (SameCombination_iff a b).1 hab
  obtain ⟨hrp', hc', hr', hd'⟩ := (SameCombination_iff b c).1 hbc
  obtain ⟨h1, h2, h3, h4⟩ := (render_pass_info_operator_eq_iff _ _).1 hrp
  obtain ⟨h1', h2', h3', h4'⟩ := (render_pass_info_operator_eq_iff _ _).1 hrp'
  refine (SameCombination_iff a c).2 ⟨?_, hc.trans hc', hr.trans hr', hd.trans hd'⟩
  exact (render_pass_info_operator_eq_iff _ _).2
    ⟨h1.trans h1', h2.trans h2', h3.trans h3',
      fun i hi => (h4 i hi).trans (h4' i (h1 ▸ hi))⟩

/-- Keys of the same combination have the same computed hash. -/
theorem ComputePSOHash_of_SameCombination (H : HashUtils) (a b : ClearPSOHashKey)
    (h : a.SameCombination b = true) : a.ComputePSOHash H = b.ComputePSOHash H := by
  obtain ⟨hrp, hc, hr, hd⟩ := (SameCombination_iff a b).1 h
  obtain ⟨h1, h2, h3, h4⟩ := (render_pass_info_operator_eq_iff _ _).1 hrp
  unfold ClearPSOHashKey.ComputePSOHash
  rw [render_pass_info_hash_of_agree H a.RPInfo b.RPInfo h1 h2 h3 h4, hc, hr, hd]

/-- On hashed keys `operator==` decides whether the combination is the same. -/
theorem operator_eq_eq_SameCombination (H : HashUtils) (a b : ClearPSOHashKey)
    (ha : a.Hashed H) (hb : b.Hashed H) : a.operator_eq b = a.SameCombination b := by
  rw [Bool.eq_iff_iff]
  constructor
  · intro h
    unfold ClearPSOHashKey.operator_eq at h
    split at h
    · cases h
    · simp only [Bool.and_eq_true, beq_iff_eq] at h
      obtain ⟨⟨⟨hrp, hc⟩, hr⟩, hd⟩ := h
      obtain ⟨d1, d2, d3, d4, d5, d6, d7, d8, d9, d10⟩ :=
        (depth_stencil_operator_eq_iff _ _).1 hd
      refine (SameCombination_iff a b).2 ⟨hrp, hc, hr, ?_⟩
      have hback : a.DepthState.stencilBack = b.DepthState.stencilBack := d5.trans hb.1
      cases hda : a.DepthState
      cases hdb : b.DepthState
      rw [hda] at d1 d2 d3 d4 d6 d7 d8 d9 d10 hback
      rw [hdb] at d1 d2 d3 d4 d6 d7 d8 d9 d10 hback
      simp only at d1 d2 d3 d4 d6 d7 d8 d9 d10 hback
      subst d1 d2 d3 d4 d6 d7 d8 d9 d10 hback
      rfl
  · intro h
    obtain ⟨hrp, hc, hr, hd⟩ := (SameCombination_iff a b).1 h
    have hhash : a.PSOHash = b.PSOHash := by
      rw [ha.2, hb.2]
      exact ComputePSOHash_of_SameCombination H a b h
    have hdepth : a.DepthState.operator_eq b.DepthState = true := by
      refine (depth_stencil_operator_eq_iff _ _).2 ?_
      rw [← hd]
      exact ⟨rfl, rfl, rfl, rfl, ha.1.symm, rfl, rfl, rfl, rfl, rfl⟩
    unfold ClearPSOHashKey.operator_eq
    simp [hhash, hrp, hc, hr, hdepth]

/-- Hashing a key does not change its combination. -/
theorem SameCombination_Hasher (H : HashUtils) (a b : ClearPSOHashKey) :
    (a.Hasher H).SameCombination b = a.SameCombination b ∧
    a.SameCombination (b.Hasher H) = a.SameCombination b := by
  unfold ClearPSOHashKey.Hasher
  constructor
  · split <;> rfl
  · split <;> rfl

/-- Hashing a new key whose faces agree gives a hashed key. -/
theorem Hasher_Hashed (H : HashUtils) (Key : ClearPSOHashKey)
    (hfaces : Key.DepthState.stencilFront = Key.DepthState.stencilBack)
    (hnew : Key.PSOHash = 0) : (Key.Hasher H).Hashed H := by
  unfold ClearPSOHashKey.Hasher ClearPSOHashKey.Hashed
  simp only [hnew, beq_self_eq_true, if_true]
  exact ⟨hfaces, rfl⟩

/-- `ClearAttachment` when the key is found. -/
theorem ClearAttachment_hit (H : HashUtils) (Dev : ClearDevice) (self : AttachmentCleanerWebGPU)
    (Key : ClearPSOHashKey) (Iter : ClearPSOHashKey × Option Nat)
    (hfind : self.m_PSOCache.find? (fun Entry => (Key.Hasher H).operator_eq Entry.1) =
      some Iter) :
    ClearAttachment H Dev self Key =
      (self,
        match Iter.2 with
        | none => [ClearEvent.unexpectedNullPSO]
        | some wgpuPipelineState => [ClearEvent.draw wgpuPipelineState]) := by
  unfold ClearAttachment
  simp only [hfind]
  cases Iter.2 <;> rfl

/-- `ClearAttachment` when the key is not found. -/
theorem ClearAttachment_miss (H : HashUtils) (Dev : ClearDevice)
    (self : AttachmentCleanerWebGPU) (Key : ClearPSOHashKey)
    (hfind : self.m_PSOCache.find? (fun Entry => (Key.Hasher H).operator_eq Entry.1) = none) :
    ClearAttachment H Dev self Key =
      ({ self with
          m_PSOCache := self.m_PSOCache ++ [(Key.Hasher H, CreatePSO Dev (Key.Hasher H))] },
        ClearEvent.createPSO (Key.Hasher H) ::
          (match CreatePSO Dev (Key.Hasher H) with
          | none => [ClearEvent.unexpectedNullPSO]
          | some wgpuPipelineState => [ClearEvent.draw wgpuPipelineState])) := by
  unfold ClearAttachment
  simp only [hfind]
  cases CreatePSO Dev (Key.Hasher H) <;> rfl

/-- The calls before `ClearAttachment` create no pipeline and draw nothing. -/
theorem ClearDepthStencilPrologue_quiet (K : CleanerConstants) (Flags Stencil : Nat) :
    CreatedKeys (ClearDepthStencilPrologue K Flags Stencil) = [] ∧
    (ClearDepthStencilPrologue K Flags Stencil).filter ClearEvent.isDraw = [] := by
  unfold ClearDepthStencilPrologue CreatedKeys
  split
  · exact ⟨rfl, rfl⟩
  · split
    · exact ⟨rfl, rfl⟩
    · exact ⟨rfl, rfl⟩

/-- A call is `ClearAttachment` on the key it builds, after calls that create no
pipeline and draw nothing. -/
theorem ApplyClear_eq (H : HashUtils) (K : CleanerConstants) (Dev : ClearDevice)
    (self : AttachmentCleanerWebGPU) (Call : ClearCall) :
    (ApplyClear H K Dev self Call).1 = (ClearAttachment H Dev self (Call.Key K self)).1 ∧
    CreatedKeys (ApplyClear H K Dev self Call).2 =
      CreatedKeys (ClearAttachment H Dev self (Call.Key K self)).2 ∧
    (ApplyClear H K Dev self Call).2.filter ClearEvent.isDraw =
      (ClearAttachment H Dev self (Call.Key K self)).2.filter ClearEvent.isDraw := by
  cases Call with
  | Color RPInfo ColorMask RTIndex => exact ⟨rfl, rfl, rfl⟩
  | DepthStencil RPInfo Flags Stencil =>
    obtain ⟨h1, h2⟩ := ClearDepthStencilPrologue_quiet K Flags Stencil
    refine ⟨rfl, ?_, ?_⟩
    · show CreatedKeys (ClearDepthStencilPrologue K Flags Stencil ++ _) = _
      unfold CreatedKeys at h1 ⊢
      rw [List.filterMap_append, h1, List.nil_append]
      rfl
    · show (ClearDepthStencilPrologue K Flags Stencil ++ _).filter ClearEvent.isDraw = _
      rw [List.filter_append, h2, List.nil_append]
      rfl

/-- The key a call builds on a cleaner that satisfies the invariant is the key
it builds on the constructed cleaner; it is new and its faces agree. -/
theorem ClearCall_Key_of_Inv (H : HashUtils) (K : CleanerConstants)
    (hinit : K.InitialDepthState.stencilFront = K.InitialDepthState.stencilBack)
    (self : AttachmentCleanerWebGPU) (hinv : self.Inv H K) (Call : ClearCall) :
    Call.Key K self = Call.Key K (AttachmentCleanerWebGPU.ctor K) ∧
    (Call.Key K self).PSOHash = 0 ∧
    (Call.Key K self).DepthState.stencilFront = (Call.Key K self).DepthState.stencilBack := by
  obtain ⟨⟨h1, h2, h3, h4⟩, _, _⟩ := hinv
  cases Call with
  | Color RPInfo ColorMask RTIndex =>
    simp only [ClearCall.Key, ClearColorKey, h1]
    exact ⟨trivial, trivial, hinit⟩
  | DepthStencil RPInfo Flags Stencil =>
    simp only [ClearCall.Key, ClearDepthStencilKey, h2, h3, h4]
    refine ⟨trivial, trivial, ?_⟩
    split
    · split
      · rfl
      · rfl
    · exact hinit

/-- The constructed cleaner satisfies the invariant. -/
theorem ctor_Inv (H : HashUtils) (K : CleanerConstants) :
    (AttachmentCleanerWebGPU.ctor K).Inv H K := by
  refine ⟨⟨rfl, rfl, rfl, rfl⟩, ?_, ?_⟩
  · intro Entry hmem
    simp [AttachmentCleanerWebGPU.ctor] at hmem
  · simp [AttachmentCleanerWebGPU.ctor]

/-- One `ClearAttachment` keeps the invariant, appends to the cache exactly the
keys it created a pipeline for, and leaves an entry for the key. -/
theorem ClearAttachment_step (H : HashUtils) (K : CleanerConstants) (Dev : ClearDevice)
    (self : AttachmentCleanerWebGPU) (hinv : self.Inv H K) (Key : ClearPSOHashKey)
    (hnew : Key.PSOHash = 0)
    (hfaces : Key.DepthState.stencilFront = Key.DepthState.stencilBack) :
    (ClearAttachment H Dev self Key).1.Inv H K ∧
    (ClearAttachment H Dev self Key).1.m_PSOCache.map Prod.fst =
      self.m_PSOCache.map Prod.fst ++ CreatedKeys (ClearAttachment H Dev self Key).2 ∧
    (∀ Entry ∈ self.m_PSOCache, Entry ∈ (ClearAttachment H Dev self Key).1.m_PSOCache) ∧
    ∃ Entry ∈ (ClearAttachment H Dev self Key).1.m_PSOCache,
      Key.SameCombination Entry.1 = true := by
  have hk : (Key.Hasher H).Hashed H := Hasher_Hashed H Key hfaces hnew
  obtain ⟨hstates, hhashed, hpair⟩ := hinv
  cases hfind : self.m_PSOCache.find? (fun Entry => (Key.Hasher H).operator_eq Entry.1) with
  | some Iter =>
    rw [ClearAttachment_hit H Dev self Key Iter hfind]
    have hmem : Iter ∈ self.m_PSOCache := List.mem_of_find?_eq_some hfind
    have hop : (Key.Hasher H).operator_eq Iter.1 = true :=
      List.find?_some
        (p := fun (Entry : ClearPSOHashKey × Option Nat) => (Key.Hasher H).operator_eq Entry.1)
        hfind
    rw [operator_eq_eq_SameCombination H _ _ hk (hhashed Iter hmem),
      (SameCombination_Hasher H Key Iter.1).1] at hop
    refine ⟨⟨hstates, hhashed, hpair⟩, ?_, fun Entry h => h, Iter, hmem, hop⟩
    cases Iter.2 <;> simp [CreatedKeys, ClearEvent.createdKey]
  | none =>
    rw [ClearAttachment_miss H Dev self Key hfind]
    have hnone : ∀ Entry ∈ self.m_PSOCache, Entry.1.SameCombination (Key.Hasher H) = false := by
      intro Entry hmem
      have hop := List.find?_eq_none.1 hfind Entry hmem
      rw [operator_eq_eq_SameCombination H _ _ hk (hhashed Entry hmem)] at hop
      cases hs : Entry.1.SameCombination (Key.Hasher H) with
      | false => rfl
      | true => exact absurd (SameCombination_symm _ _ hs) hop
    refine ⟨⟨hstates, ?_, ?_⟩, ?_, ?_, ?_⟩
    · intro Entry hmem
      simp only [List.mem_append, List.mem_singleton] at hmem
      rcases hmem with hmem | hmem
      · exact hhashed Entry hmem
      · rw [hmem]
        exact hk
    · simp only [List.map_append, List.map_cons, List.map_nil]
      rw [List.pairwise_append]
      refine ⟨hpair, List.pairwise_singleton _ _, ?_⟩
      intro a ha b hb
      simp only [List.mem_singleton] at hb
      obtain ⟨Entry, hmem, rfl⟩ := List.mem_map.1 ha
      rw [hb]
      exact hnone Entry hmem
    · cases CreatePSO Dev (Key.Hasher H) <;>
        simp [CreatedKeys, ClearEvent.createdKey]
    · intro Entry hmem
      exact List.mem_append_left _ hmem
    · refine ⟨(Key.Hasher H, CreatePSO Dev (Key.Hasher H)), ?_, ?_⟩
      · simp
      · show Key.SameCombination (Key.Hasher H) = true
        rw [(SameCombination_Hasher H Key Key).2]
        exact (SameCombination_iff Key Key).2
          ⟨(render_pass_info_operator_eq_iff _ _).2 ⟨rfl, rfl, rfl, fun _ _ => rfl⟩,
            rfl, rfl, rfl⟩

/-- A `ClearAttachment` whose key has an entry of the same combination creates
no pipeline, leaves the cleaner as it is, and draws with the cached pipeline
when that is not null. -/
theorem ClearAttachment_again (H : HashUtils) (K : CleanerConstants) (Dev : ClearDevice)
    (self : AttachmentCleanerWebGPU) (hinv : self.Inv H K) (Key : ClearPSOHashKey)
    (hnew : Key.PSOHash = 0)
    (hfaces : Key.DepthState.stencilFront = Key.DepthState.stencilBack)
    (hentry : ∃ Entry ∈ self.m_PSOCache, Key.SameCombination Entry.1 = true) :
    (ClearAttachment H Dev self Key).1 = self ∧
    CreatedKeys (ClearAttachment H Dev self Key).2 = [] ∧
    ∃ Entry ∈ self.m_PSOCache, Key.SameCombination Entry.1 = true ∧
      (ClearAttachment H Dev self Key).2.filter ClearEvent.isDraw =
        match Entry.2 with
        | none => []
        | some wgpuPipelineState => [ClearEvent.draw wgpuPipelineState] := by
  have hk : (Key.Hasher H).Hashed H := Hasher_Hashed H Key hfaces hnew
  obtain ⟨hstates, hhashed, hpair⟩ := hinv
  cases hfind : self.m_PSOCache.find? (fun Entry => (Key.Hasher H).operator_eq Entry.1) with
  | none =>
    obtain ⟨Entry, hmem, hsame⟩ := hentry
    have hop := List.find?_eq_none.1 hfind Entry hmem
    rw [operator_eq_eq_SameCombination H _ _ hk (hhashed Entry hmem),
      (SameCombination_Hasher H Key Entry.1).1] at hop
    exact absurd hsame hop
  | some Iter =>
    rw [ClearAttachment_hit H Dev self Key Iter hfind]
    have hmem : Iter ∈ self.m_PSOCache := List.mem_of_find?_eq_some hfind
    have hop : (Key.Hasher H).operator_eq Iter.1 = true :=
      List.find?_some
        (p := fun (Entry : ClearPSOHashKey × Option Nat) => (Key.Hasher H).operator_eq Entry.1)
        hfind
    rw [operator_eq_eq_SameCombination H _ _ hk (hhashed Iter hmem),
      (SameCombination_Hasher H Key Iter.1).1] at hop
    refine ⟨rfl, ?_, Iter, hmem, hop, ?_⟩
    · cases Iter.2 <;> simp [CreatedKeys, ClearEvent.createdKey]
    · cases Iter.2 <;> simp [ClearEvent.isDraw]

/-- A sequence of calls keeps the invariant, appends to the cache exactly the
keys it created a pipeline for, keeps the entries it started with, and leaves an
entry for the key of each call. -/
theorem RunClears_Inv (H : HashUtils) (K : CleanerConstants) (Dev : ClearDevice)
    (hinit : K.InitialDepthState.stencilFront = K.InitialDepthState.stencilBack)
    (Calls : List ClearCall) :
    ∀ self : AttachmentCleanerWebGPU, self.Inv H K →
      (RunClears H K Dev Calls self).1.Inv H K ∧
      (RunClears H K Dev Calls self).1.m_PSOCache.map Prod.fst =
        self.m_PSOCache.map Prod.fst ++ CreatedKeys (RunClears H K Dev Calls self).2 ∧
      (∀ Entry ∈ self.m_PSOCache, Entry ∈ (RunClears H K Dev Calls self).1.m_PSOCache) ∧
      ∀ Call ∈ Calls, ∃ Entry ∈ (RunClears H K Dev Calls self).1.m_PSOCache,
        (Call.Key K (AttachmentCleanerWebGPU.ctor K)).SameCombination Entry.1 = true := by
  induction Calls with
  | nil =>
    intro self hinv
    refine ⟨hinv, ?_, fun Entry h => h, ?_⟩
    · simp [RunClears, CreatedKeys]
    · intro Call hmem
      cases hmem
  | cons Call Calls ih =>
    intro self hinv
    obtain ⟨hkey, hnew, hfaces⟩ := ClearCall_Key_of_Inv H K hinit self hinv Call
    obtain ⟨hfst, hcreated, _⟩ := ApplyClear_eq H K Dev self Call
    obtain ⟨hinv1, hmap1, hkeep1, Entry1, hmem1, hsame1⟩ :=
      ClearAttachment_step H K Dev self hinv (Call.Key K self) hnew hfaces
    rw [← hfst] at hinv1 hmap1 hkeep1 hmem1
    rw [← hcreated] at hmap1
    obtain ⟨hinv2, hmap2, hkeep2, hall2⟩ := ih (ApplyClear H K Dev self Call).1 hinv1
    refine ⟨hinv2, ?_, fun Entry h => hkeep2 Entry (hkeep1 Entry h), ?_⟩
    · show (RunClears H K Dev Calls (ApplyClear H K Dev self Call).1).1.m_PSOCache.map Prod.fst =
        self.m_PSOCache.map Prod.fst ++
          CreatedKeys ((ApplyClear H K Dev self Call).2 ++
            (RunClears H K Dev Calls (ApplyClear H K Dev self Call).1).2)
      rw [hmap2, hmap1]
      unfold CreatedKeys
      rw [List.filterMap_append, List.append_assoc]
    · intro Call2 hmem
      rcases List.mem_cons.1 hmem with heq | hmem2
      · rw [heq, ← hkey]
        exact ⟨Entry1, hkeep2 Entry1 hmem1, hsame1⟩
      · exact hall2 Call2 hmem2

/-- C27: on a cleaner whose value-initialised depth state has equal stencil
faces, over any sequence of clears from construction, no two pipeline creations
are for keys of the same combination of render pass info, color mask, render
target index and depth-stencil state; and a clear whose combination equals that
of a clear already made creates no pipeline, leaves the cleaner as it is, and
draws with the pipeline cached under that combination exactly when that
pipeline is not null. -/
theorem clear_pso_created_once_per_key (H : HashUtils) (K : CleanerConstants)
    (Dev : ClearDevice)
    (hinit : K.InitialDepthState.stencilFront = K.InitialDepthState.stencilBack)
    (Calls : List ClearCall) :
    (CreatedKeys (RunClears H K Dev Calls (AttachmentCleanerWebGPU.ctor K)).2).Pairwise
      (fun a b => a.SameCombination b = false) ∧
    ∀ Earlier ∈ Calls, ∀ Later : ClearCall,
      (Later.Key K (AttachmentCleanerWebGPU.ctor K)).SameCombination
        (Earlier.Key K (AttachmentCleanerWebGPU.ctor K)) = true →
      CreatedKeys (ApplyClear H K Dev
        (RunClears H K Dev Calls (AttachmentCleanerWebGPU.ctor K)).1 Later).2 = [] ∧
      (ApplyClear H K Dev
        (RunClears H K Dev Calls (AttachmentCleanerWebGPU.ctor K)).1 Later).1 =
        (RunClears H K Dev Calls (AttachmentCleanerWebGPU.ctor K)).1 ∧
      ∃ Entry ∈ (RunClears H K Dev Calls (AttachmentCleanerWebGPU.ctor K)).1.m_PSOCache,
        (Later.Key K (AttachmentCleanerWebGPU.ctor K)).SameCombination Entry.1 = true ∧
        (ApplyClear H K Dev
          (RunClears H K Dev Calls (AttachmentCleanerWebGPU.ctor K)).1 Later).2.filter
            ClearEvent.isDraw =
          match Entry.2 with
          | none => []
          | some wgpuPipelineState => [ClearEvent.draw wgpuPipelineState] := by
  obtain ⟨hinv, hmap, _, hall⟩ :=
    RunClears_Inv H K Dev hinit Calls (AttachmentCleanerWebGPU.ctor K) (ctor_Inv H K)
  constructor
  · have hpair := hinv.2.2
    rw [hmap] at hpair
    simpa [AttachmentCleanerWebGPU.ctor] using hpair
  · intro Earlier hmem Later hsame
    obtain ⟨Entry, hentry, hsameEntry⟩ := hall Earlier hmem
    obtain ⟨hkey, hnew, hfaces⟩ := ClearCall_Key_of_Inv H K hinit _ hinv Later
    obtain ⟨hfst, hcreated, hdraws⟩ := ApplyClear_eq H K Dev
      (RunClears H K Dev Calls (AttachmentCleanerWebGPU.ctor K)).1 Later
    obtain ⟨hself, hnone, Found, hfound, hsameFound, hdraw⟩ :=
      ClearAttachment_again H K Dev _ hinv _ hnew hfaces
        ⟨Entry, hentry, by
          rw [hkey]
          exact SameCombination_trans _ _ _ hsame hsameEntry⟩
    rw [hfst, hcreated, hdraws]
    rw [hkey] at hsameFound
    exact ⟨hnone, hself, Found, hfound, hsameFound, hdraw⟩

theorem clear_pso_created_once_per_key_witness :
    demoCleanerConstants.InitialDepthState.stencilFront =
      demoCleanerConstants.InitialDepthState.stencilBack ∧
    (ClearCall.Key demoCleanerConstants (AttachmentCleanerWebGPU.ctor demoCleanerConstants)
      (ClearCall.Color (demoRenderPassInfo 7) 15 0)).SameCombination
      (ClearCall.Key demoCleanerConstants (AttachmentCleanerWebGPU.ctor demoCleanerConstants)
        (ClearCall.Color (demoRenderPassInfo 0) 15 0)) = true ∧
    CreatedKeys (ApplyClear demoHash demoCleanerConstants demoClearDevice
      (RunClears demoHash demoCleanerConstants demoClearDevice
        [ClearCall.Color (demoRenderPassInfo 0) 15 0,
          ClearCall.DepthStencil (demoRenderPassInfo 0) 3 0]
        (AttachmentCleanerWebGPU.ctor demoCleanerConstants)).1
      (ClearCall.Color (demoRenderPassInfo 7) 15 0)).2 = [] :=
  ⟨by decide, by decide,
    ((clear_pso_created_once_per_key demoHash demoCleanerConstants demoClearDevice (by decide)
      [ClearCall.Color (demoRenderPassInfo 0) 15 0,
        ClearCall.DepthStencil (demoRenderPassInfo 0) 3 0]).2
      (ClearCall.Color (demoRenderPassInfo 0) 15 0) (List.mem_cons_self _ _)
      (ClearCall.Color (demoRenderPassInfo 7) 15 0) (by decide)).1⟩

/-- Hashing a key changes only its `PSOHash`. -/
theorem Hasher_members (H : HashUtils) (Key : ClearPSOHashKey) :
    (Key.Hasher H).RPInfo = Key.RPInfo ∧ (Key.Hasher H).ColorMask = Key.ColorMask ∧
    (Key.Hasher H).RTIndex = Key.RTIndex ∧ (Key.Hasher H).DepthState = Key.DepthState := by
  unfold ClearPSOHashKey.Hasher
  split
  · exact ⟨rfl, rfl, rfl, rfl⟩
  · exact ⟨rfl, rfl, rfl, rfl⟩

/-- No call of `ClearAttachment` sets the stencil reference or is the debug
check of `ClearDepthStencil`. -/
theorem ClearAttachment_events (H : HashUtils) (Dev : ClearDevice)
    (self : AttachmentCleanerWebGPU) (Key : ClearPSOHashKey) (Stencil : Nat) :
    ∀ e ∈ (ClearAttachment H Dev self Key).2,
      e ≠ ClearEvent.setStencilReference Stencil ∧ e ≠ ClearEvent.verifyDepthFlagFailed := by
  intro e he
  unfold ClearAttachment at he
  simp only at he
  split at he
  · split at he <;> simp at he <;> subst he <;> simp
  · split at he <;> simp at he <;> rcases he with he | he <;> subst he <;> simp

/-- C28: the depth-stencil clear state selection.  For flags with at least one
of `CLEAR_DEPTH_FLAG` and `CLEAR_STENCIL_FLAG` set, `ClearDepthStencil` builds a
key for the given render pass info with `RTIndex = -1` whose depth state is the
write depth-stencil state when both flags are set, the write stencil state when
only the stencil flag is set and the write depth state when only the depth flag
is set, and hands that key to `ClearAttachment`; before that it sets the stencil
reference exactly when the stencil flag is set, and no debug check fails.  When
the key is not cached, the call creates one pipeline, for this key: the cache
gains the key with the pipeline the device creates from a descriptor that has no
fragment stage and the depth state of the key, and the call draws with that
pipeline when it is not null. -/
theorem clear_depth_stencil_state_selection (H : HashUtils) (K : CleanerConstants)
    (Dev : ClearDevice) (self : AttachmentCleanerWebGPU) (RPInfo : RenderPassInfo)
    (Flags Stencil : Nat)
    (hflags : Flags &&& K.CLEAR_DEPTH_FLAG ≠ 0 ∨ Flags &&& K.CLEAR_STENCIL_FLAG ≠ 0) :
    ∃ Key : ClearPSOHashKey,
      (Key.RPInfo = RPInfo ∧ Key.RTIndex = -1) ∧
      ((Flags &&& K.CLEAR_DEPTH_FLAG ≠ 0 → Flags &&& K.CLEAR_STENCIL_FLAG ≠ 0 →
          Key.DepthState = self.m_wgpuWriteDepthStencil) ∧
        (Flags &&& K.CLEAR_DEPTH_FLAG = 0 → Flags &&& K.CLEAR_STENCIL_FLAG ≠ 0 →
          Key.DepthState = self.m_wgpuWriteStencil) ∧
        (Flags &&& K.CLEAR_DEPTH_FLAG ≠ 0 → Flags &&& K.CLEAR_STENCIL_FLAG = 0 →
          Key.DepthState = self.m_wgpuWriteDepth)) ∧
      ClearDepthStencil H K Dev self RPInfo Flags Stencil =
        ((ClearAttachment H Dev self Key).1,
          (if Flags &&& K.CLEAR_STENCIL_FLAG ≠ 0 then [ClearEvent.setStencilReference Stencil]
            else []) ++ (ClearAttachment H Dev self Key).2) ∧
      ((ClearEvent.setStencilReference Stencil ∈
            (ClearDepthStencil H K Dev self RPInfo Flags Stencil).2 ↔
          Flags &&& K.CLEAR_STENCIL_FLAG ≠ 0) ∧
        ClearEvent.verifyDepthFlagFailed ∉
          (ClearDepthStencil H K Dev self RPInfo Flags Stencil).2) ∧
      (self.m_PSOCache.find? (fun Entry => (Key.Hasher H).operator_eq Entry.1) = none →
        ∃ wgpuPipeline : Option Nat,
          wgpuPipeline =
            (match Dev.wgpuDeviceCreateShaderModule with
            | none => none
            | some _ =>
              Dev.wgpuDeviceCreateRenderPipeline
                { fragment := none,
                  depthStencil :=
                    { Key.DepthState with format := Dev.TexFormatToWGPUFormat RPInfo.DSVFormat },
                  multisampleCount := RPInfo.SampleCount }) ∧
          (ClearDepthStencil H K Dev self RPInfo Flags Stencil).1.m_PSOCache =
            self.m_PSOCache ++ [(Key.Hasher H, wgpuPipeline)] ∧
          (ClearDepthStencil H K Dev self RPInfo Flags Stencil).2 =
            (if Flags &&& K.CLEAR_STENCIL_FLAG ≠ 0 then
                [ClearEvent.setStencilReference Stencil]
              else []) ++
              ClearEvent.createPSO (Key.Hasher H) ::
                (match wgpuPipeline with
                | none => [ClearEvent.unexpectedNullPSO]
                | some wgpuPipelineState => [ClearEvent.draw wgpuPipelineState])) := by
  have hprologue : ClearDepthStencilPrologue K Flags Stencil =
      if Flags &&& K.CLEAR_STENCIL_FLAG ≠ 0 then [ClearEvent.setStencilReference Stencil]
      else [] := by
    unfold ClearDepthStencilPrologue
    by_cases hs : Flags &&& K.CLEAR_STENCIL_FLAG = 0
    · have hd : Flags &&& K.CLEAR_DEPTH_FLAG ≠ 0 := by
        rcases hflags with h | h
        · exact h
        · exact absurd hs h
      simp [hs, hd]
    · simp [hs]
  have hcall : ClearDepthStencil H K Dev self RPInfo Flags Stencil =
      ((ClearAttachment H Dev self (ClearDepthStencilKey K self RPInfo Flags)).1,
        (if Flags &&& K.CLEAR_STENCIL_FLAG ≠ 0 then [ClearEvent.setStencilReference Stencil]
          else []) ++
          (ClearAttachment H Dev self (ClearDepthStencilKey K self RPInfo Flags)).2) := by
    unfold ClearDepthStencil
    rw [hprologue]
  refine ⟨ClearDepthStencilKey K self RPInfo Flags, ⟨rfl, rfl⟩, ⟨?_, ?_, ?_⟩, hcall, ⟨?_, ?_⟩, ?_⟩
  · intro hd hs
    simp [ClearDepthStencilKey, hd, hs]
  · intro hd hs
    simp [ClearDepthStencilKey, hd, hs]
  · intro _ hs
    simp [ClearDepthStencilKey, hs]
  · rw [hcall]
    by_cases hs : Flags &&& K.CLEAR_STENCIL_FLAG = 0
    · simp only [hs, ne_eq, not_true_eq_false, if_false, List.nil_append, iff_false]
      intro hmem
      exact (ClearAttachment_events H Dev self _ Stencil _ hmem).1 rfl
    · simp [hs]
  · rw [hcall]
    intro hmem
    rcases List.mem_append.1 hmem with h | h
    · by_cases hs : Flags &&& K.CLEAR_STENCIL_FLAG = 0
      · simp [hs] at h
      · simp [hs] at h
    · exact (ClearAttachment_events H Dev self _ Stencil _ h).2 rfl
  · intro hfind
    obtain ⟨hrp, _, hrt, hds⟩ := Hasher_members H (ClearDepthStencilKey K self RPInfo Flags)
    have hdesc : ClearPSODescriptor Dev ((ClearDepthStencilKey K self RPInfo Flags).Hasher H) =
        { fragment := none,
          depthStencil :=
            { (ClearDepthStencilKey K self RPInfo Flags).DepthState with
              format := Dev.TexFormatToWGPUFormat RPInfo.DSVFormat },
          multisampleCount := RPInfo.SampleCount } := by
      have hneg : ((ClearDepthStencilKey K self RPInfo Flags).Hasher H).RTIndex < 0 := by
        rw [hrt]
        show (-1 : Int) < 0
        decide
      unfold ClearPSODescriptor
      rw [if_pos hneg, hrp, hds]
      rfl
    refine ⟨CreatePSO Dev ((ClearDepthStencilKey K self RPInfo Flags).Hasher H), ?_, ?_, ?_⟩
    · unfold CreatePSO
      rw [hdesc]
    · rw [hcall, ClearAttachment_miss H Dev self _ hfind]
    · rw [hcall, ClearAttachment_miss H Dev self _ hfind]

/-- Witness of C28: with both flags set (`Flags = 3`) on the constructed demo
cleaner, the call sets the stencil reference, creates the pipeline for the key
with the write depth-stencil state and draws with it. -/
theorem clear_depth_stencil_state_selection_witness :
    ((3 : Nat) &&& demoCleanerConstants.CLEAR_DEPTH_FLAG ≠ 0 ∧
      (3 : Nat) &&& demoCleanerConstants.CLEAR_STENCIL_FLAG ≠ 0) ∧
    ∃ Key : ClearPSOHashKey,
      Key.RTIndex = -1 ∧
      Key.DepthState = (AttachmentCleanerWebGPU.ctor demoCleanerConstants).m_wgpuWriteDepthStencil ∧
      (ClearDepthStencil demoHash demoCleanerConstants demoClearDevice
        (AttachmentCleanerWebGPU.ctor demoCleanerConstants) (demoRenderPassInfo 0) 3 0).2 =
        [ClearEvent.setStencilReference 0, ClearEvent.createPSO (Key.Hasher demoHash),
          ClearEvent.draw 1] :=
  ⟨by decide,
    match clear_depth_stencil_state_selection demoHash demoCleanerConstants demoClearDevice
      (AttachmentCleanerWebGPU.ctor demoCleanerConstants) (demoRenderPassInfo 0) 3 0
      (Or.inl (by decide)) with
    | ⟨Key, hkey, hstate, _, _, hcreate⟩ =>
      ⟨Key, hkey.2, hstate.1 (by decide) (by decide),
        match hcreate rfl with
        | ⟨_, hpipeline, _, hevents⟩ => by
          rw [hevents, hpipeline]
          rfl⟩⟩

end Diligent
